import Mathlib

/-! KiCad render settings and pad outline derivation.

A shallow embedding of
* `RENDER_SETTINGS::RENDER_SETTINGS` and `RENDER_SETTINGS::update` (`common/painter.cpp`),
* `D_PAD::BuildPadPolygon`, `D_PAD::BuildSegmentFromOvalShape`, `PAD_DRAWINFO::PAD_DRAWINFO`,
  `D_PAD::Print` and `D_PAD::PrintShape` (`pcbnew/pad_print_functions.cpp`),
* `GBR_TO_PCB_EXPORTER::export_copper_item`, `export_flashed_copper_item` and
  `export_segline_copper_item` (`gerbview/export_to_pcbnew.cpp`),
* `getModelTypeIdx` and the Model page of `DIALOG_SPICE_MODEL::TransferDataFromWindow`
  (`eeschema/dialogs/dialog_spice_model.cpp`),

followed by the properties established about them.

Conventions.
* C++ `int` coordinates are mathematical integers (`Int`): signed overflow is undefined
  behaviour in the source, so no wrap-around semantics is modelled.  `x >> 1` on an `int`
  is the arithmetic shift of `Int` by one bit (floor division by two).
* `float`/`double` factors are elements of an arbitrary type `F` carrying `1` and `-`
  wherever the code only moves them around; where concrete values are needed they are
  exact rationals.  A `float` literal of the code is the rational number that the nearest
  single-precision number stores (`binary32`).
* `COLOR4D` and its member functions `Mix`, `Brightened`, `Darkened` are declared outside
  the translated sources.  `RENDER_SETTINGS::update` therefore takes them as a parameter
  (`ColorOps`); a model of them written from the specification is given separately.
* Layer-indexed C arrays `COLOR4D t[LAYER_ID_COUNT]` are functions `Nat → Color`; only the
  indices below `LAYER_ID_COUNT` are ever read or written.
* `int / int` truncates toward zero (`Int.tdiv`).  The `unsigned int` text size of
  `PrintShape` is a `Nat` below `2 ^ 32`, its arithmetic is taken modulo `2 ^ 32`, and the
  conversions between `int` and `unsigned int` are explicit (`toUnsigned`, `toSigned`).
  String lengths are below `2 ^ 31`.
* The drawing functions return the list of the calls they make into the graphics layer
  (`DrawCmd`), each paired with the part of `PrintShape` that makes it (`DrawPass`).
  Functions, macros and constants that the drawing code uses and that are declared outside
  the translated sources are parameters (`ShapeOps`, `PrintEnv`, `Palette`).
* The board file written by the Gerber export is the list of the records written so far
  (`PcbItem`), each holding the integer arguments of its `fprintf` call.
-/

namespace KIGFX

/-! ## Colour operations used by `RENDER_SETTINGS::update` -/

/-- The three `COLOR4D` member functions called by `RENDER_SETTINGS::update`.
`Mix c other f` stands for `c.Mix( other, f )`, `Brightened c f` for `c.Brightened( f )`
and `Darkened c f` for `c.Darkened( f )`. -/
structure ColorOps (Color F : Type) where
  Mix : Color → Color → F → Color
  Brightened : Color → F → Color
  Darkened : Color → F → Color

/-! ## Single-precision literals -/

/-- The quotient `n / d` rounded to the nearest natural number, a tie going to the even
neighbour. -/
def roundNearestEven (n d : Nat) : Nat :=
  let q := n / d
  let r := n % d
  if 2 * r < d then q
  else if d < 2 * r then q + 1
  else if q % 2 = 0 then q
  else q + 1

/-- The least `k`, counted from `k` on and at most `fuel` steps further, for which
`n * 2 ^ k` reaches `2 ^ 23 * d`: the number of binary places that a 24-bit significand of
`n / d` has after the point. -/
def binary32ScaleUp : Nat → Nat → Nat → Nat → Nat
  | 0, _, _, k => k
  | fuel + 1, n, d, k =>
    if 8388608 * d ≤ n then k else binary32ScaleUp fuel (2 * n) d (k + 1)

/-- The least `j`, counted from `j` on and at most `fuel` steps further, for which `n` is
below `2 ^ 24 * d * 2 ^ j`. -/
def binary32ScaleDown : Nat → Nat → Nat → Nat → Nat
  | 0, _, _, j => j
  | fuel + 1, n, d, j =>
    if n < 16777216 * d then j else binary32ScaleDown fuel n (2 * d) (j + 1)

/-- The value stored by a `float` for the decimal literal `n / d` (IEEE 754 binary32, round
to nearest, ties to even): a 24-bit significand times a power of two, with at most `149`
binary places (below that the significand is shorter: subnormal numbers).  Literals beyond
the largest `float` do not occur and are not modelled. -/
def binary32 (n d : Nat) : ℚ :=
  if n < 16777216 * d then
    ((roundNearestEven (n * 2 ^ binary32ScaleUp 149 n d 0) d : Nat) : ℚ) /
      2 ^ binary32ScaleUp 149 n d 0
  else
    ((roundNearestEven n (d * 2 ^ binary32ScaleDown 104 n d 0) : Nat) : ℚ) *
      2 ^ binary32ScaleDown 104 n d 0

/-- The data members of `RENDER_SETTINGS` that `painter.cpp` touches. -/
@[ext]
structure RENDER_SETTINGS (Color F : Type) where
  m_layerColors : Nat → Color
  m_layerColorsHi : Nat → Color
  m_layerColorsSel : Nat → Color
  m_layerColorsDark : Nat → Color
  m_hiContrastColor : Nat → Color
  m_hiContrastEnabled : Bool
  m_hiContrastFactor : F
  m_highlightEnabled : Bool
  m_highlightNetcode : Int
  m_highlightFactor : F
  m_selectFactor : F
  m_layerOpacity : F
  m_outlineWidth : F
  m_worksheetLineWidth : F
  m_showPageLimits : Bool

namespace RENDER_SETTINGS

variable {Color F : Type}

/-- The body of `RENDER_SETTINGS::RENDER_SETTINGS()`: ten assignments to the scalar
members of the object under construction.  The colour tables are not assigned by the
constructor body; `s` is the object as it is when the body starts.  The `float` literals
`0.5f`, `0.8f` and `0.2f` are the single-precision numbers nearest to `5/10`, `8/10` and
`2/10` (`binary32`); the integers `1` and `100000` are stored exactly. -/
def ctor (s : RENDER_SETTINGS Color ℚ) : RENDER_SETTINGS Color ℚ :=
  let s := { s with m_highlightFactor := binary32 5 10 }
  let s := { s with m_selectFactor := binary32 5 10 }
  let s := { s with m_layerOpacity := binary32 8 10 }
  let s := { s with m_highlightEnabled := false }
  let s := { s with m_hiContrastEnabled := false }
  let s := { s with m_hiContrastFactor := binary32 2 10 }
  let s := { s with m_highlightNetcode := -1 }
  let s := { s with m_outlineWidth := 1 }
  let s := { s with m_worksheetLineWidth := 100000 }
  let s := { s with m_showPageLimits := false }
  s

/-- One iteration of the `for` loop of `RENDER_SETTINGS::update`, for loop index `i`. -/
def updateBody [One F] [Sub F] (ops : ColorOps Color F) (LAYER_PCB_BACKGROUND : Nat)
    (s : RENDER_SETTINGS Color F) (i : Nat) : RENDER_SETTINGS Color F :=
  let s := { s with m_hiContrastColor := Function.update s.m_hiContrastColor i (ops.Mix (s.m_layerColors i) (s.m_layerColors LAYER_PCB_BACKGROUND) s.m_hiContrastFactor) }
  let s := { s with m_layerColorsHi := Function.update s.m_layerColorsHi i (ops.Brightened (s.m_layerColors i) s.m_highlightFactor) }
  let s := { s with m_layerColorsDark := Function.update s.m_layerColorsDark i (ops.Darkened (s.m_layerColors i) (1 - s.m_highlightFactor)) }
  let s := { s with m_layerColorsSel := Function.update s.m_layerColorsSel i (ops.Brightened (s.m_layerColors i) s.m_selectFactor) }
  s

/-- `RENDER_SETTINGS::update`: `for( int i = 0; i < LAYER_ID_COUNT; i++ ) { ... }`. -/
def update [One F] [Sub F] (ops : ColorOps Color F) (LAYER_ID_COUNT LAYER_PCB_BACKGROUND : Nat)
    (s : RENDER_SETTINGS Color F) : RENDER_SETTINGS Color F :=
  (List.range LAYER_ID_COUNT).foldl (updateBody ops LAYER_PCB_BACKGROUND) s

/-- The state reached by `update`, written without the loop: every table entry below
`LAYER_ID_COUNT` holds the value computed from the base colour, every other entry and
every other member is untouched. -/
def updateClosed [One F] [Sub F] (ops : ColorOps Color F)
    (LAYER_ID_COUNT LAYER_PCB_BACKGROUND : Nat) (s : RENDER_SETTINGS Color F) :
    RENDER_SETTINGS Color F :=
  { s with
    m_hiContrastColor := fun i =>
      if i < LAYER_ID_COUNT then
        ops.Mix (s.m_layerColors i) (s.m_layerColors LAYER_PCB_BACKGROUND) s.m_hiContrastFactor
      else s.m_hiContrastColor i
    m_layerColorsHi := fun i =>
      if i < LAYER_ID_COUNT then ops.Brightened (s.m_layerColors i) s.m_highlightFactor
      else s.m_layerColorsHi i
    m_layerColorsDark := fun i =>
      if i < LAYER_ID_COUNT then ops.Darkened (s.m_layerColors i) (1 - s.m_highlightFactor)
      else s.m_layerColorsDark i
    m_layerColorsSel := fun i =>
      if i < LAYER_ID_COUNT then ops.Brightened (s.m_layerColors i) s.m_selectFactor
      else s.m_layerColorsSel i }

/-- The four derived tables, read at the layer ids `0 .. LAYER_ID_COUNT - 1`, as one list of
`(hiContrast, highlighted, darkened, selected)` entries. -/
def derivedTables (LAYER_ID_COUNT : Nat) (s : RENDER_SETTINGS Color F) :
    List (Color × Color × Color × Color) :=
  (List.range LAYER_ID_COUNT).map fun i =>
    (s.m_hiContrastColor i, s.m_layerColorsHi i, s.m_layerColorsDark i, s.m_layerColorsSel i)

/-- Clamp a factor into `[0,1]`. -/
def clamp01 (x : ℚ) : ℚ := max 0 (min 1 x)

/-- The settings state with each of the three blend factors clamped into `[0,1]`; this is
the state the specification compares `update` against, it is not part of the code. -/
def clampFactors (s : RENDER_SETTINGS Color ℚ) : RENDER_SETTINGS Color ℚ :=
  { s with
    m_highlightFactor := clamp01 s.m_highlightFactor
    m_selectFactor := clamp01 s.m_selectFactor
    m_hiContrastFactor := clamp01 s.m_hiContrastFactor }

/-- All three blend factors lie in `[0,1]`. -/
def factorsInRange (s : RENDER_SETTINGS Color ℚ) : Prop :=
  (0 ≤ s.m_highlightFactor ∧ s.m_highlightFactor ≤ 1) ∧
  (0 ≤ s.m_selectFactor ∧ s.m_selectFactor ≤ 1) ∧
  (0 ≤ s.m_hiContrastFactor ∧ s.m_hiContrastFactor ≤ 1)

instance (s : RENDER_SETTINGS Color ℚ) : Decidable (factorsInRange s) := by
  unfold factorsInRange; infer_instance

end RENDER_SETTINGS

/-! ## The colour type, modelled from the specification -/

/-- Modelled from the spec: `COLOR4D` (declared in `gal/color4d.h`, which is not among the
translated sources) is "a base RGBA color"; the channels are exact rationals, `0` being
none and `1` full intensity. -/
structure COLOR4D where
  r : ℚ
  g : ℚ
  b : ℚ
  a : ℚ
deriving DecidableEq

namespace COLOR4D

/-- Linear interpolation from `x` (at `f = 0`) to `y` (at `f = 1`). -/
def lerp (x y f : ℚ) : ℚ := x * (1 - f) + y * f

/-- Modelled from the spec: `COLOR4D::Mix` is missing from the translated sources.  The
specification has "high-contrast color = blend(baseColor, backgroundColor,
highContrastFactor)", "blend is a linear interpolation in color channels", the factor being
the "fraction of background mixed in". -/
def Mix (c other : COLOR4D) (f : ℚ) : COLOR4D :=
  { r := lerp c.r other.r f, g := lerp c.g other.g f, b := lerp c.b other.b f,
    a := lerp c.a other.a f }

/-- Modelled from the spec: `COLOR4D::Brightened` is missing from the translated sources.
The specification has "linear interpolation toward white", "clamped to [0,1] per channel";
opacity is left as it is. -/
def Brightened (c : COLOR4D) (f : ℚ) : COLOR4D :=
  { r := RENDER_SETTINGS.clamp01 (lerp c.r 1 f), g := RENDER_SETTINGS.clamp01 (lerp c.g 1 f),
    b := RENDER_SETTINGS.clamp01 (lerp c.b 1 f), a := c.a }

/-- Modelled from the spec: `COLOR4D::Darkened` is missing from the translated sources.
The specification has "linear interpolation toward ... black", "clamped to [0,1] per
channel"; opacity is left as it is. -/
def Darkened (c : COLOR4D) (f : ℚ) : COLOR4D :=
  { r := RENDER_SETTINGS.clamp01 (lerp c.r 0 f), g := RENDER_SETTINGS.clamp01 (lerp c.g 0 f),
    b := RENDER_SETTINGS.clamp01 (lerp c.b 0 f), a := c.a }

/-- The colour channels on the 8-bit scale `0 .. 255` in which the specification writes
its colours, as `(red, green, blue)`. -/
def rgb255 (c : COLOR4D) : ℚ × ℚ × ℚ := (c.r * 255, c.g * 255, c.b * 255)

/-- Modelled from the spec: the colour operations of the specification, packaged for
`RENDER_SETTINGS.update`. -/
def specOps : ColorOps COLOR4D ℚ :=
  { Mix := Mix, Brightened := Brightened, Darkened := Darkened }

end COLOR4D

end KIGFX

/-! ## Pads: `D_PAD::BuildPadPolygon` -/

/-- A `wxPoint`: integer coordinates. -/
structure wxPoint where
  x : Int
  y : Int
deriving DecidableEq, Repr

/-- A `wxSize`: integer extents; default-constructed it is `(0, 0)`. -/
structure wxSize where
  x : Int := 0
  y : Int := 0
deriving DecidableEq, Repr

/-- The pad shapes dispatched on by the pad drawing code (`PAD_SHAPE_T`). -/
inductive PAD_SHAPE_T where
  | PAD_SHAPE_CIRCLE
  | PAD_SHAPE_RECT
  | PAD_SHAPE_OVAL
  | PAD_SHAPE_TRAPEZOID
  | PAD_SHAPE_ROUNDRECT
  | PAD_SHAPE_CHAMFERED_RECT
  | PAD_SHAPE_CUSTOM
deriving DecidableEq, Repr

/-- The drill shapes dispatched on by `D_PAD::PrintShape` (`PAD_DRILL_SHAPE_T`). -/
inductive PAD_DRILL_SHAPE_T where
  | PAD_DRILL_SHAPE_CIRCLE
  | PAD_DRILL_SHAPE_OBLONG
deriving DecidableEq, Repr

/-- The pad attributes (`PAD_ATTR_T`); the drawing code tests only for
`PAD_ATTRIB_HOLE_NOT_PLATED`. -/
inductive PAD_ATTR_T where
  | PAD_ATTRIB_STANDARD
  | PAD_ATTRIB_SMD
  | PAD_ATTRIB_CONN
  | PAD_ATTRIB_HOLE_NOT_PLATED
deriving DecidableEq, Repr

/-- The board layers named by the pad drawing code (`PCB_LAYER_ID`), the two special values
`UNDEFINED_LAYER` and `UNSELECTED_LAYER`, and `layer n` for every other layer. -/
inductive PCB_LAYER_ID where
  | UNDEFINED_LAYER
  | UNSELECTED_LAYER
  | F_Cu
  | B_Cu
  | B_Paste
  | F_Paste
  | B_Mask
  | F_Mask
  | layer (n : Nat)
deriving DecidableEq, Repr

/-- The members of `D_PAD` read by `BuildPadPolygon`, `BuildSegmentFromOvalShape`, `Print`
and `PrintShape`.  `m_layerMask` is the set of layers of the pad, as a list;
`m_netCode` is what `GetNetCode()` returns. -/
structure D_PAD where
  m_padShape : PAD_SHAPE_T
  m_Size : wxSize
  m_DeltaSize : wxSize
  m_Pos : wxPoint := { x := 0, y := 0 }
  m_Orient : ℚ := 0
  m_Drill : wxSize := {}
  m_drillShape : PAD_DRILL_SHAPE_T := PAD_DRILL_SHAPE_T.PAD_DRILL_SHAPE_CIRCLE
  m_Attribute : PAD_ATTR_T := PAD_ATTR_T.PAD_ATTRIB_STANDARD
  m_layerMask : List PCB_LAYER_ID := []
  m_name : String := ""
  m_netCode : Int := 0
deriving DecidableEq, Repr

/-- The output array `wxPoint aCoord[4]`: `c0` is `aCoord[0]` (lower left), `c1` is
`aCoord[1]` (upper left), `c2` is `aCoord[2]` (upper right), `c3` is `aCoord[3]`
(lower right). -/
structure Coord4 where
  c0 : wxPoint
  c1 : wxPoint
  c2 : wxPoint
  c3 : wxPoint
deriving DecidableEq, Repr

/-- The floating-point helpers `BuildPadPolygon` calls; they are declared outside the
translated sources (`KiROUND`, `RotatePoint`, and the C library `atan2`, `tan`, `cos`) and
are taken as parameters.
* `tanCorr d s v` stands for `KiROUND( tan( atan2( (double) d, (double) s ) ) * v )`,
* `cosCorr d s v` stands for `KiROUND( v / cos( atan2( (double) d, (double) s ) ) )`,
* `RotatePoint p a` stands for the point left in `p` by `RotatePoint( &p, a )`. -/
structure FloatOps where
  tanCorr : Int → Int → Int → Int
  cosCorr : Int → Int → Int → Int
  RotatePoint : wxPoint → ℚ → wxPoint

namespace D_PAD

/-- `D_PAD::GetShape()`. -/
def GetShape (pad : D_PAD) : PAD_SHAPE_T := pad.m_padShape

/-- `halfsize.x = m_Size.x >> 1; halfsize.y = m_Size.y >> 1;` -/
def halfsize0 (pad : D_PAD) : wxSize :=
  { x := pad.m_Size.x >>> (1 : Nat), y := pad.m_Size.y >>> (1 : Nat) }

/-- The `case PAD_SHAPE_RECT:` block: `halfsize += aInflateValue;` followed by the two
clamps at zero. -/
def rectHalfsize (halfsize aInflateValue : wxSize) : wxSize :=
  let halfsize : wxSize :=
    { x := halfsize.x + aInflateValue.x, y := halfsize.y + aInflateValue.y }
  let halfsize := if halfsize.x < 0 then { halfsize with x := 0 } else halfsize
  let halfsize := if halfsize.y < 0 then { halfsize with y := 0 } else halfsize
  halfsize

/-- The `case PAD_SHAPE_TRAPEZOID:` block: `delta` is half of `m_DeltaSize`, then the four
`if` statements "be sure delta values are not to large", in source order. -/
def trapezoidDelta (m_DeltaSize halfsize : wxSize) : wxSize :=
  let delta : wxSize := { x := m_DeltaSize.x >>> (1 : Nat), y := m_DeltaSize.y >>> (1 : Nat) }
  let delta :=
    if delta.x < 0 ∧ delta.x ≤ -halfsize.y then { delta with x := -halfsize.y + 1 } else delta
  let delta :=
    if delta.x > 0 ∧ delta.x ≥ halfsize.y then { delta with x := halfsize.y - 1 } else delta
  let delta :=
    if delta.y < 0 ∧ delta.y ≤ -halfsize.x then { delta with y := -halfsize.x + 1 } else delta
  let delta :=
    if delta.y > 0 ∧ delta.y ≥ halfsize.x then { delta with y := halfsize.x - 1 } else delta
  delta

/-- "Build the basic rectangular or trapezoid shape": the eight assignments to
`aCoord[0] .. aCoord[3]`. -/
def basicShape (halfsize delta : wxSize) : Coord4 :=
  { c0 := { x := -halfsize.x - delta.y, y := halfsize.y + delta.x }
    c1 := { x := -halfsize.x + delta.y, y := -halfsize.y - delta.x }
    c2 := { x := halfsize.x - delta.y, y := -halfsize.y + delta.x }
    c3 := { x := halfsize.x + delta.y, y := halfsize.y - delta.x } }

/-- The `if( delta.y ) ... else if( delta.x ) ... else ...` statement of the trapezoid
offset: yields the new `delta` and `corr` (`corr` is `(0, 0)` "by the constructor"). -/
def offsetTerms (fp : FloatOps) (pad : D_PAD) (delta aInflateValue : wxSize) :
    wxSize × wxSize :=
  let corr : wxSize := {}
  if delta.y ≠ 0 then
    let corr := { corr with x := fp.tanCorr pad.m_DeltaSize.y pad.m_Size.y aInflateValue.x }
    let delta := { delta with x := fp.cosCorr pad.m_DeltaSize.y pad.m_Size.y aInflateValue.x }
    let delta := { delta with y := aInflateValue.y }
    (delta, corr)
  else if delta.x ≠ 0 then
    let corr := { corr with y := fp.tanCorr pad.m_DeltaSize.x pad.m_Size.x aInflateValue.y }
    let delta := { delta with y := fp.cosCorr pad.m_DeltaSize.x pad.m_Size.x aInflateValue.y }
    let delta := { delta with x := aInflateValue.x }
    (delta, corr)
  else
    (aInflateValue, corr)

/-- The eight `aCoord[k].x += ...; aCoord[k].y += ...;` statements of the trapezoid
offset. -/
def applyOffset (c : Coord4) (delta corr : wxSize) : Coord4 :=
  { c0 := { x := c.c0.x + (-delta.x - corr.x), y := c.c0.y + (delta.y + corr.y) }
    c1 := { x := c.c1.x + (-delta.x + corr.x), y := c.c1.y + (-delta.y - corr.y) }
    c2 := { x := c.c2.x + (delta.x - corr.x), y := c.c2.y + (-delta.y + corr.y) }
    c3 := { x := c.c3.x + (delta.x + corr.x), y := c.c3.y + (delta.y - corr.y) } }

/-- "test coordinates and clamp them if the offset correction is too large": the four
`if` statements, in source order. -/
def clampCoords (c : Coord4) : Coord4 :=
  let c := if c.c0.x > 0 then { c with c0 := { c.c0 with x := 0 }, c3 := { c.c3 with x := 0 } }
    else c
  let c := if c.c1.x > 0 then { c with c1 := { c.c1 with x := 0 }, c2 := { c.c2 with x := 0 } }
    else c
  let c := if c.c0.y < 0 then { c with c0 := { c.c0 with y := 0 }, c1 := { c.c1 with y := 0 } }
    else c
  let c := if c.c3.y < 0 then { c with c3 := { c.c3 with y := 0 }, c2 := { c.c2 with y := 0 } }
    else c
  c

/-- The corners of a trapezoid pad after the offset and before the clamp of the
coordinates (the state at the comment "test coordinates and clamp them ..."). -/
def offsetCoords (fp : FloatOps) (pad : D_PAD) (halfsize delta aInflateValue : wxSize) :
    Coord4 :=
  let dc := offsetTerms fp pad delta aInflateValue
  applyOffset (basicShape halfsize delta) dc.1 dc.2

/-- Everything `BuildPadPolygon` does after the `switch`: the basic shape, the trapezoid
offset with its clamp, and the rotation. -/
def buildCorners (fp : FloatOps) (pad : D_PAD) (halfsize delta aInflateValue : wxSize)
    (aRotation : ℚ) : Coord4 :=
  let aCoord := basicShape halfsize delta
  let aCoord :=
    if pad.GetShape = PAD_SHAPE_T.PAD_SHAPE_TRAPEZOID ∧
        (aInflateValue.x ≠ 0 ∨ aInflateValue.y ≠ 0) then
      clampCoords (offsetCoords fp pad halfsize delta aInflateValue)
    else aCoord
  if aRotation ≠ 0 then
    { c0 := fp.RotatePoint aCoord.c0 aRotation, c1 := fp.RotatePoint aCoord.c1 aRotation,
      c2 := fp.RotatePoint aCoord.c2 aRotation, c3 := fp.RotatePoint aCoord.c3 aRotation }
  else aCoord

/-- `D_PAD::BuildPadPolygon( wxPoint aCoord[4], wxSize aInflateValue, double aRotation )`.
The result is the content of `aCoord` on return; `aCoord` is its content on entry, which
the `default:` branch ("is used only for rect and trap. pads") returns untouched. -/
def BuildPadPolygon (fp : FloatOps) (pad : D_PAD) (aCoord : Coord4) (aInflateValue : wxSize)
    (aRotation : ℚ) : Coord4 :=
  let delta : wxSize := {}
  let halfsize := pad.halfsize0
  match pad.GetShape with
  | PAD_SHAPE_T.PAD_SHAPE_RECT =>
    buildCorners fp pad (rectHalfsize halfsize aInflateValue) delta aInflateValue aRotation
  | PAD_SHAPE_T.PAD_SHAPE_TRAPEZOID =>
    buildCorners fp pad halfsize (trapezoidDelta pad.m_DeltaSize halfsize) aInflateValue
      aRotation
  | _ => aCoord

end D_PAD

/-- The four corners form an axis-aligned box centred at the origin, of width `w` and
height `h`. -/
def Coord4.isCenteredBox (c : Coord4) (w h : Int) : Prop :=
  c.c0.x = c.c1.x ∧ c.c3.x = c.c2.x ∧ c.c0.y = c.c3.y ∧ c.c1.y = c.c2.y ∧
  c.c0.x = -c.c3.x ∧ c.c1.y = -c.c0.y ∧
  c.c3.x - c.c0.x = w ∧ c.c0.y - c.c1.y = h

instance (c : Coord4) (w h : Int) : Decidable (c.isCenteredBox w h) := by
  unfold Coord4.isCenteredBox; infer_instance

/-- The half-delta does not exceed the opposite half-extent in magnitude:
`|delta.x| ≤ halfsize.y` and `|delta.y| ≤ halfsize.x`. -/
def wxSize.deltaWithin (delta halfsize : wxSize) : Prop :=
  (-halfsize.y ≤ delta.x ∧ delta.x ≤ halfsize.y) ∧
  (-halfsize.x ≤ delta.y ∧ delta.y ≤ halfsize.x)

instance (delta halfsize : wxSize) : Decidable (delta.deltaWithin halfsize) := by
  unfold wxSize.deltaWithin; infer_instance

/-- No corner is on the wrong side of a centre line: corners 0 and 1 have `x ≤ 0`, corners
2 and 3 have `x ≥ 0`, corners 0 and 3 have `y ≥ 0`, corners 1 and 2 have `y ≤ 0`. -/
def Coord4.withinCenterlines (c : Coord4) : Prop :=
  (c.c0.x ≤ 0 ∧ c.c1.x ≤ 0) ∧ (0 ≤ c.c2.x ∧ 0 ≤ c.c3.x) ∧
  (0 ≤ c.c0.y ∧ 0 ≤ c.c3.y) ∧ (c.c1.y ≤ 0 ∧ c.c2.y ≤ 0)

instance (c : Coord4) : Decidable c.withinCenterlines := by
  unfold Coord4.withinCenterlines; infer_instance

/-- The point `-p`, the image of `p` under the point reflection in the origin. -/
def wxPoint.neg (p : wxPoint) : wxPoint := { x := -p.x, y := -p.y }

/-- The point `p` turned by 90 degrees about the origin: `(x, y)` goes to `(-y, x)`. -/
def wxPoint.rot90 (p : wxPoint) : wxPoint := { x := -p.y, y := p.x }

/-- The square of the distance between two points. -/
def wxPoint.distSq (p q : wxPoint) : Int := (q.x - p.x) ^ 2 + (q.y - p.y) ^ 2

/-- The four corners, in array order. -/
def Coord4.toList (c : Coord4) : List wxPoint := [c.c0, c.c1, c.c2, c.c3]

/-- The outline is symmetric about the origin: with every corner `p`, the point `-p` is a
corner too. -/
def Coord4.pointSymmetric (c : Coord4) : Prop := ∀ p ∈ c.toList, p.neg ∈ c.toList

instance (c : Coord4) : Decidable c.pointSymmetric := by
  unfold Coord4.pointSymmetric; infer_instance

/-! ## Pads: `D_PAD::BuildSegmentFromOvalShape` -/

/-- What `BuildSegmentFromOvalShape` hands back: the two output parameters `aSegStart` and
`aSegEnd`, and the returned `width`. -/
structure OvalSegment where
  aSegStart : wxPoint
  aSegEnd : wxPoint
  width : Int
deriving DecidableEq, Repr

/-- `D_PAD::BuildSegmentFromOvalShape( wxPoint& aSegStart, wxPoint& aSegEnd,
double aRotation, const wxSize& aMargin )`.  Both output points are assigned in either
branch, so their content on entry plays no part.  `/ 2` on `int` truncates toward zero
(`Int.tdiv`). -/
def D_PAD.BuildSegmentFromOvalShape (fp : FloatOps) (pad : D_PAD) (aRotation : ℚ)
    (aMargin : wxSize) : OvalSegment :=
  let seg : OvalSegment :=
    if pad.m_Size.y < pad.m_Size.x then
      let delta := Int.tdiv (pad.m_Size.x - pad.m_Size.y) 2
      { aSegStart := { x := -delta - aMargin.x, y := 0 }
        aSegEnd := { x := delta + aMargin.x, y := 0 }
        width := pad.m_Size.y + (aMargin.y * 2) }
    else
      let delta := Int.tdiv (pad.m_Size.y - pad.m_Size.x) 2
      { aSegStart := { x := 0, y := -delta - aMargin.y }
        aSegEnd := { x := 0, y := delta + aMargin.y }
        width := pad.m_Size.x + (aMargin.x * 2) }
  if aRotation ≠ 0 then
    { seg with
      aSegStart := fp.RotatePoint seg.aSegStart aRotation
      aSegEnd := fp.RotatePoint seg.aSegEnd aRotation }
  else seg

/-- The segment `t` is the segment `s` turned by 90 degrees about the origin, with the same
stroke width: the two end points of `s`, turned, are the two end points of `t`. -/
def OvalSegment.isRot90Of (t s : OvalSegment) : Prop :=
  t.width = s.width ∧
  ((s.aSegStart.rot90 = t.aSegStart ∧ s.aSegEnd.rot90 = t.aSegEnd) ∨
   (s.aSegStart.rot90 = t.aSegEnd ∧ s.aSegEnd.rot90 = t.aSegStart))

instance (t s : OvalSegment) : Decidable (t.isRot90Of s) := by
  unfold OvalSegment.isRot90Of; infer_instance

/-! ## Pads: the draw commands of `D_PAD::PrintShape` -/

instance : Add wxPoint := ⟨fun p q => { x := p.x + q.x, y := p.y + q.y }⟩

instance : Sub wxPoint := ⟨fun p q => { x := p.x - q.x, y := p.y - q.y }⟩

/-- Conversion of an `int` to `unsigned int` (32 bits): the value modulo `2 ^ 32`. -/
def toUnsigned (x : Int) : Nat := (x % 4294967296).toNat

/-- Conversion of an `unsigned int` to `int` (32 bits, two's complement). -/
def toSigned (n : Nat) : Int :=
  if n % 4294967296 < 2147483648 then ((n % 4294967296 : Nat) : Int)
  else ((n % 4294967296 : Nat) : Int) - 4294967296

/-- The calls into the graphics layer made by `D_PAD::PrintShape`, with the arguments that
vary (the leading `nullptr` clip box and the device context are left out).
* `GRFilledCircle x y r width Color BgColor`
* `GRCircle x y r width Color`
* `GRFillCSegm x1 y1 x2 y2 width Color`
* `GRCSegm start end width penSize Color`: the three overloads of `GRCSegm`; `penSize` is
  `none` for the overloads that have no pen size argument
* `GRClosedPoly points Fill width Color BgColor`: `points` are the `n` points passed
* `GRFilledSegment start end width Color`
* `GRLine x1 y1 x2 y2 width Color`
* `GRHaloText pos color1 color2 color3 text orient size thickness`: the justification and
  the `italic`, `bold` arguments are the same at every call
* `GRForceBlackPen flagforce` -/
inductive DrawCmd (Color : Type) where
  | GRFilledCircle (x y r width : Int) (color bgcolor : Color)
  | GRCircle (x y r width : Int) (color : Color)
  | GRFillCSegm (x1 y1 x2 y2 width : Int) (color : Color)
  | GRCSegm (aStart aEnd : wxPoint) (width : Int) (penSize : Option Int) (color : Color)
  | GRClosedPoly (points : List wxPoint) (fill : Bool) (width : Int) (color bgcolor : Color)
  | GRFilledSegment (aStart aEnd : wxPoint) (width : Int) (color : Color)
  | GRLine (x1 y1 x2 y2 width : Int) (color : Color)
  | GRHaloText (pos : wxPoint) (color1 color2 color3 : Color) (text : String) (orient : ℚ)
      (size : wxSize) (thickness : Int)
  | GRForceBlackPen (flagforce : Bool)
deriving DecidableEq

/-- The parts of `D_PAD::PrintShape`, in the order of the source text: the `switch` on the
pad shape draws the body and then ("Draw the clearance line") the clearance outline; then
come "Draw the pad hole", "Draw "No connect"", "Draw the pad number" and "display the short
netname". -/
inductive DrawPass where
  | body
  | clearance
  | hole
  | noConnect
  | padNumber
  | netName
deriving DecidableEq, Repr

/-- The position of a pass in the order body, clearance outline, hole, no-connect mark,
pad number, net name. -/
def DrawPass.rank : DrawPass → Nat
  | .body => 0
  | .clearance => 1
  | .hole => 2
  | .noConnect => 3
  | .padNumber => 4
  | .netName => 5

/-- The `PAD_DRAWINFO` helper class ("store parameters used to draw a pad"). -/
structure PAD_DRAWINFO (Color : Type) where
  m_Color : Color
  m_HoleColor : Color
  m_NPHoleColor : Color
  m_NoNetMarkColor : Color
  m_PadClearance : Int
  m_Mask_margin : wxSize
  m_Display_padnum : Bool
  m_Display_netname : Bool
  m_ShowPadFilled : Bool
  m_ShowNCMark : Bool
  m_ShowNotPlatedHole : Bool
  m_IsPrinting : Bool
  m_Offset : wxPoint

/-- The colour constants named by the pad drawing code. -/
structure Palette (Color : Type) where
  BLACK : Color
  WHITE : Color
  YELLOW : Color
  BLUE : Color
  DARKGRAY : Color

/-- `PAD_DRAWINFO::PAD_DRAWINFO()`; `m_Mask_margin` and `m_Offset` are default-constructed. -/
def PAD_DRAWINFO.ctor {Color : Type} (pal : Palette Color) : PAD_DRAWINFO Color :=
  { m_Color := pal.BLACK
    m_HoleColor := pal.BLACK
    m_NPHoleColor := pal.YELLOW
    m_NoNetMarkColor := pal.BLUE
    m_PadClearance := 0
    m_Display_padnum := true
    m_Display_netname := true
    m_ShowPadFilled := true
    m_ShowNCMark := true
    m_ShowNotPlatedHole := false
    m_IsPrinting := false
    m_Mask_margin := {}
    m_Offset := { x := 0, y := 0 } }

/-- What `D_PAD::PrintShape` uses and the translated sources do not define, for the pad
being drawn; all of it is taken as a parameter.
* `fp`: the floating-point helpers of `BuildPadPolygon` and `BuildSegmentFromOvalShape`
* `pal`: the colour constants
* `m_PadSketchModePenSize`: the static member of `D_PAD`
* `ShapePos`: the value of `ShapePos()`
* `RotatePointAbout p c a`: the point left in `p` by `RotatePoint( &p, c, a )`
* `NORMALIZE_ANGLE_90 a`: the angle left in `a` by the macro
* `LogicalToDeviceXRel`: the method of the device context `aDC`
* `MIN_TEXT_SIZE`: the macro
* `GetGRForceBlackPenState`: the value returned by the call in the hole part
* `TransformShapeWithClearanceToPolygon c`: the outlines held by the empty `outline`
  after `TransformShapeWithClearanceToPolygon( outline, c )`
* `GetRoundRectCornerRadius size`, `GetRoundRectCornerRadius0`: the two overloads
* `GetChamferRectRatio`, `GetChamferPositions`: the values returned
* `TransformRoundChamferedRectToPolygon pos size orient radius ratio positions`: the points
  of `outline.Outline( 0 )` after the call on an empty `outline` (with `ARC_HIGH_DEF`)
* `GetAnchorPadShape`: the value returned
* `customShapeAtBoardPosition pos orient`: the outlines of `m_customShapeAsPolygon` after
  `CustomShapeAsPolygonToBoardPosition( &outline, pos, orient )`
* `GetArcToSegmentCount r`: `GetArcToSegmentCount( r, ARC_HIGH_DEF, 360.0 )`
* `InflateWithLinkedHoles o amount numSegs`: the outlines of `o` after
  `o.InflateWithLinkedHoles( amount, numSegs, SHAPE_POLY_SET::PM_FAST )`
* `GetOblongDrillGeometry`: the values left in `drl_start`, `drl_end` and `seg_width`
* `shortNetname`: the value of `UnescapeString( GetShortNetname() )` -/
structure ShapeOps (Color : Type) where
  fp : FloatOps
  pal : Palette Color
  m_PadSketchModePenSize : Int
  ShapePos : wxPoint
  RotatePointAbout : wxPoint → wxPoint → ℚ → wxPoint
  NORMALIZE_ANGLE_90 : ℚ → ℚ
  LogicalToDeviceXRel : Int → Int
  MIN_TEXT_SIZE : Int
  GetGRForceBlackPenState : Bool
  TransformShapeWithClearanceToPolygon : Int → List (List wxPoint)
  GetRoundRectCornerRadius : wxSize → Int
  GetRoundRectCornerRadius0 : Int
  GetChamferRectRatio : ℚ
  GetChamferPositions : Int
  TransformRoundChamferedRectToPolygon : wxPoint → wxSize → ℚ → Int → ℚ → Int → List wxPoint
  GetAnchorPadShape : PAD_SHAPE_T
  customShapeAtBoardPosition : wxPoint → ℚ → List (List wxPoint)
  GetArcToSegmentCount : Int → Int
  InflateWithLinkedHoles : List (List wxPoint) → Int → Int → List (List wxPoint)
  GetOblongDrillGeometry : wxPoint × wxPoint × Int
  shortNetname : String

/-! ## Pads: `D_PAD::PrintShape` -/

namespace D_PAD

variable {Color : Type}

/-- `D_PAD::GetDrillShape()`. -/
def GetDrillShape (pad : D_PAD) : PAD_DRILL_SHAPE_T := pad.m_drillShape

/-- `case PAD_SHAPE_CIRCLE:` of the `switch` of `PrintShape`. -/
def printCircle (ops : ShapeOps Color) (aDrawInfo : PAD_DRAWINFO Color) (shape_pos : wxPoint)
    (halfsize : wxSize) : List (DrawPass × DrawCmd Color) :=
  (if aDrawInfo.m_ShowPadFilled then
    [(DrawPass.body, DrawCmd.GRFilledCircle shape_pos.x shape_pos.y
        (halfsize.x + aDrawInfo.m_Mask_margin.x) 0 aDrawInfo.m_Color aDrawInfo.m_Color)]
  else
    [(DrawPass.body, DrawCmd.GRCircle shape_pos.x shape_pos.y
        (halfsize.x + aDrawInfo.m_Mask_margin.x) ops.m_PadSketchModePenSize
        aDrawInfo.m_Color)]) ++
  (if aDrawInfo.m_PadClearance ≠ 0 then
    [(DrawPass.clearance, DrawCmd.GRCircle shape_pos.x shape_pos.y
        (halfsize.x + aDrawInfo.m_PadClearance) 0 aDrawInfo.m_Color)]
  else [])

/-- `case PAD_SHAPE_OVAL:` of the `switch` of `PrintShape`. -/
def printOval (ops : ShapeOps Color) (pad : D_PAD) (aDrawInfo : PAD_DRAWINFO Color)
    (shape_pos : wxPoint) (angle : ℚ) : List (DrawPass × DrawCmd Color) :=
  let seg := pad.BuildSegmentFromOvalShape ops.fp angle aDrawInfo.m_Mask_margin
  let seg_width := seg.width
  let segStart := seg.aSegStart + shape_pos
  let segEnd := seg.aSegEnd + shape_pos
  (if aDrawInfo.m_ShowPadFilled then
    [(DrawPass.body, DrawCmd.GRFillCSegm segStart.x segStart.y segEnd.x segEnd.y seg_width
        aDrawInfo.m_Color)]
  else
    [(DrawPass.body, DrawCmd.GRCSegm segStart segEnd seg_width
        (some ops.m_PadSketchModePenSize) aDrawInfo.m_Color)]) ++
  (if aDrawInfo.m_PadClearance ≠ 0 then
    let seg_width := seg_width + 2 * aDrawInfo.m_PadClearance
    [(DrawPass.clearance, DrawCmd.GRCSegm segStart segEnd seg_width none aDrawInfo.m_Color)]
  else [])

/-- `case PAD_SHAPE_RECT: case PAD_SHAPE_TRAPEZOID:` of the `switch` of `PrintShape`.
`coord` is the content of the local array `coord` before `BuildPadPolygon` fills it. -/
def printRectTrapezoid (ops : ShapeOps Color) (pad : D_PAD) (coord : Coord4)
    (aDrawInfo : PAD_DRAWINFO Color) (shape_pos : wxPoint) (angle : ℚ) :
    List (DrawPass × DrawCmd Color) :=
  let coord := pad.BuildPadPolygon ops.fp coord aDrawInfo.m_Mask_margin angle
  let coord : Coord4 :=
    { c0 := coord.c0 + shape_pos, c1 := coord.c1 + shape_pos, c2 := coord.c2 + shape_pos,
      c3 := coord.c3 + shape_pos }
  [(DrawPass.body, DrawCmd.GRClosedPoly coord.toList aDrawInfo.m_ShowPadFilled
      (if aDrawInfo.m_ShowPadFilled then 0 else ops.m_PadSketchModePenSize)
      aDrawInfo.m_Color aDrawInfo.m_Color)] ++
  (if aDrawInfo.m_PadClearance ≠ 0 then
    let outline := ops.TransformShapeWithClearanceToPolygon aDrawInfo.m_PadClearance
    match outline with
    | [] => []
    | poly :: _ =>
      if poly.length > 0 then
        [(DrawPass.clearance, DrawCmd.GRClosedPoly poly false 0 aDrawInfo.m_Color
            aDrawInfo.m_Color)]
      else []
  else [])

/-- `case PAD_SHAPE_CHAMFERED_RECT: case PAD_SHAPE_ROUNDRECT:` of the `switch` of
`PrintShape`. -/
def printRoundRect (ops : ShapeOps Color) (pad : D_PAD) (aDrawInfo : PAD_DRAWINFO Color)
    (shape_pos : wxPoint) : List (DrawPass × DrawCmd Color) :=
  let size : wxSize := pad.m_Size
  let size : wxSize :=
    { x := size.x + aDrawInfo.m_Mask_margin.x * 2, y := size.y + aDrawInfo.m_Mask_margin.y * 2 }
  let corner_radius := ops.GetRoundRectCornerRadius size
  let doChamfer : Bool := decide (pad.GetShape = PAD_SHAPE_T.PAD_SHAPE_CHAMFERED_RECT)
  let poly := ops.TransformRoundChamferedRectToPolygon shape_pos size pad.m_Orient
    corner_radius ops.GetChamferRectRatio (if doChamfer then ops.GetChamferPositions else 0)
  let filled := aDrawInfo.m_ShowPadFilled
  [(DrawPass.body, DrawCmd.GRClosedPoly poly filled 0 aDrawInfo.m_Color aDrawInfo.m_Color)] ++
  (if aDrawInfo.m_PadClearance ≠ 0 then
    let size : wxSize := pad.m_Size
    let size : wxSize :=
      { x := size.x + aDrawInfo.m_PadClearance * 2, y := size.y + aDrawInfo.m_PadClearance * 2 }
    let corner_radius := ops.GetRoundRectCornerRadius0 + aDrawInfo.m_PadClearance
    let clearance_poly := ops.TransformRoundChamferedRectToPolygon shape_pos size pad.m_Orient
      corner_radius ops.GetChamferRectRatio (if doChamfer then ops.GetChamferPositions else 0)
    [(DrawPass.clearance, DrawCmd.GRClosedPoly clearance_poly false 0 aDrawInfo.m_Color
        aDrawInfo.m_Color)]
  else [])

/-- `case PAD_SHAPE_CUSTOM:` of the `switch` of `PrintShape`. -/
def printCustom (ops : ShapeOps Color) (pad : D_PAD) (aDrawInfo : PAD_DRAWINFO Color)
    (halfsize : wxSize) : List (DrawPass × DrawCmd Color) :=
  let pad_pos := pad.m_Pos - aDrawInfo.m_Offset
  let anchor : List (DrawPass × DrawCmd Color) :=
    if ¬ aDrawInfo.m_ShowPadFilled then
      if ops.GetAnchorPadShape = PAD_SHAPE_T.PAD_SHAPE_RECT then
        let poly : List wxPoint :=
          [{ x := -halfsize.x, y := -halfsize.y }, { x := -halfsize.x, y := halfsize.y },
           { x := halfsize.x, y := halfsize.y }, { x := halfsize.x, y := -halfsize.y }]
        let poly := poly.map fun q => ops.fp.RotatePoint q pad.m_Orient + pad_pos
        [(DrawPass.body, DrawCmd.GRClosedPoly poly false 0 aDrawInfo.m_Color
            aDrawInfo.m_Color)]
      else
        [(DrawPass.body, DrawCmd.GRCircle pad_pos.x pad_pos.y halfsize.x
            ops.m_PadSketchModePenSize aDrawInfo.m_Color)]
    else []
  let outline := ops.customShapeAtBoardPosition pad_pos pad.m_Orient
  let outline :=
    if aDrawInfo.m_Mask_margin.x ≠ 0 then
      let numSegs := ops.GetArcToSegmentCount aDrawInfo.m_Mask_margin.x
      ops.InflateWithLinkedHoles outline aDrawInfo.m_Mask_margin.x numSegs
    else outline
  let shape : List (DrawPass × DrawCmd Color) :=
    outline.map fun poly =>
      (DrawPass.body, DrawCmd.GRClosedPoly poly aDrawInfo.m_ShowPadFilled 0 aDrawInfo.m_Color
        aDrawInfo.m_Color)
  let clearance : List (DrawPass × DrawCmd Color) :=
    if aDrawInfo.m_PadClearance ≠ 0 then
      let numSegs := ops.GetArcToSegmentCount aDrawInfo.m_PadClearance
      let clearance_outline :=
        ops.InflateWithLinkedHoles outline aDrawInfo.m_PadClearance numSegs
      (clearance_outline.filter fun poly => poly.length > 0).map fun poly =>
        (DrawPass.clearance, DrawCmd.GRClosedPoly poly false 0 aDrawInfo.m_Color
          aDrawInfo.m_Color)
    else []
  anchor ++ shape ++ clearance

/-- The `switch( GetShape() )` of `PrintShape`: the body of the pad and its clearance
outline. -/
def shapePass (ops : ShapeOps Color) (pad : D_PAD) (coord : Coord4)
    (aDrawInfo : PAD_DRAWINFO Color) : List (DrawPass × DrawCmd Color) :=
  let angle := pad.m_Orient
  let shape_pos := ops.ShapePos - aDrawInfo.m_Offset
  let halfsize := pad.halfsize0
  match pad.GetShape with
  | PAD_SHAPE_T.PAD_SHAPE_CIRCLE => printCircle ops aDrawInfo shape_pos halfsize
  | PAD_SHAPE_T.PAD_SHAPE_OVAL => printOval ops pad aDrawInfo shape_pos angle
  | PAD_SHAPE_T.PAD_SHAPE_RECT => printRectTrapezoid ops pad coord aDrawInfo shape_pos angle
  | PAD_SHAPE_T.PAD_SHAPE_TRAPEZOID =>
    printRectTrapezoid ops pad coord aDrawInfo shape_pos angle
  | PAD_SHAPE_T.PAD_SHAPE_CHAMFERED_RECT => printRoundRect ops pad aDrawInfo shape_pos
  | PAD_SHAPE_T.PAD_SHAPE_ROUNDRECT => printRoundRect ops pad aDrawInfo shape_pos
  | PAD_SHAPE_T.PAD_SHAPE_CUSTOM => printCustom ops pad aDrawInfo halfsize

/-- "Draw the pad hole". -/
def holePass (ops : ShapeOps Color) (pad : D_PAD) (aDrawInfo : PAD_DRAWINFO Color) :
    List (DrawPass × DrawCmd Color) :=
  let holepos := pad.m_Pos - aDrawInfo.m_Offset
  let hole := pad.m_Drill.x >>> (1 : Nat)
  let drawhole : Bool := decide (hole > 0)
  let drawhole : Bool :=
    if (!aDrawInfo.m_ShowPadFilled && !aDrawInfo.m_ShowNotPlatedHole) then false else drawhole
  if drawhole then
    let fillcolor :=
      if aDrawInfo.m_ShowNotPlatedHole then aDrawInfo.m_NPHoleColor else aDrawInfo.m_HoleColor
    let hole_color := fillcolor
    let fillcolor := ops.pal.WHITE
    let blackpenstate := ops.GetGRForceBlackPenState
    let hole_color := if blackpenstate then ops.pal.BLACK else hole_color
    [(DrawPass.hole, DrawCmd.GRForceBlackPen false)] ++
    (match pad.GetDrillShape with
     | PAD_DRILL_SHAPE_T.PAD_DRILL_SHAPE_CIRCLE =>
       if ops.LogicalToDeviceXRel hole > 1 then
         [(DrawPass.hole, DrawCmd.GRFilledCircle holepos.x holepos.y hole 0 hole_color
             fillcolor)]
       else []
     | PAD_DRILL_SHAPE_T.PAD_DRILL_SHAPE_OBLONG =>
       let drl_start := ops.GetOblongDrillGeometry.1 + holepos
       let drl_end := ops.GetOblongDrillGeometry.2.1 + holepos
       let seg_width := ops.GetOblongDrillGeometry.2.2
       [(DrawPass.hole, DrawCmd.GRFilledSegment drl_start drl_end seg_width fillcolor),
        (DrawPass.hole, DrawCmd.GRCSegm drl_start drl_end seg_width none hole_color)]) ++
    (if aDrawInfo.m_IsPrinting then [(DrawPass.hole, DrawCmd.GRForceBlackPen blackpenstate)]
     else [])
  else []

/-- "Draw "No connect" ( / or \ or cross X ) if necessary". -/
def noConnectPass (pad : D_PAD) (aDrawInfo : PAD_DRAWINFO Color) :
    List (DrawPass × DrawCmd Color) :=
  let holepos := pad.m_Pos - aDrawInfo.m_Offset
  let halfsize := pad.halfsize0
  if pad.m_netCode = 0 ∧ aDrawInfo.m_ShowNCMark = true then
    let dx0 := min halfsize.x halfsize.y
    (if PCB_LAYER_ID.F_Cu ∈ pad.m_layerMask then
      [(DrawPass.noConnect, DrawCmd.GRLine (holepos.x - dx0) (holepos.y - dx0)
          (holepos.x + dx0) (holepos.y + dx0) 0 aDrawInfo.m_NoNetMarkColor)]
    else []) ++
    (if PCB_LAYER_ID.B_Cu ∈ pad.m_layerMask then
      [(DrawPass.noConnect, DrawCmd.GRLine (holepos.x + dx0) (holepos.y - dx0)
          (holepos.x - dx0) (holepos.y + dx0) 0 aDrawInfo.m_NoNetMarkColor)]
    else [])
  else []

/-- `constexpr int MIN_CHAR_COUNT = 3;` -/
def MIN_CHAR_COUNT : Int := 3

/-- `tsize = std::min( (int) AreaSize.y, AreaSize.x / len )` with `len` the character
count after `std::max( ..., MIN_CHAR_COUNT )`; `tsize` is an `unsigned int`. -/
def textSize (AreaSize : wxSize) (len : Int) : Nat :=
  toUnsigned (min AreaSize.y (Int.tdiv AreaSize.x (max len MIN_CHAR_COUNT)))

/-- `tsize = ( tsize * 7 ) / 10;` in `unsigned int` arithmetic ("tsize reserve room for
marges and segments thickness"). -/
def reserveRoom (tsize : Nat) : Nat := (tsize * 7) % 4294967296 / 10

/-- The text area `AreaSize` of `PrintShape` ("size of text area, normalized to
AreaSize.y < AreaSize.x") once the statement `if( shortname_len > 0 )` has run. -/
def textArea (pad : D_PAD) (shortname_len : Int) : wxSize :=
  let AreaSize := pad.m_Size
  let AreaSize : wxSize :=
    if pad.m_Size.y > pad.m_Size.x then { x := pad.m_Size.y, y := pad.m_Size.x } else AreaSize
  if shortname_len > 0 then { AreaSize with y := Int.tdiv AreaSize.y 2 } else AreaSize

/-- The local variable `shortname` of `PrintShape`: empty unless the net name is to be
displayed. -/
def shortname (ops : ShapeOps Color) (aDrawInfo : PAD_DRAWINFO Color) : String :=
  if aDrawInfo.m_Display_netname then ops.shortNetname else ""

/-- The local variable `shortname_len` of `PrintShape`: `0` unless the net name is to be
displayed, then `shortname.Len()`. -/
def shortnameLen (ops : ShapeOps Color) (aDrawInfo : PAD_DRAWINFO Color) : Int :=
  if aDrawInfo.m_Display_netname then ((shortname ops aDrawInfo).length : Int) else 0

/-- The local variable `angle` of `PrintShape` when the texts are drawn: `0` for a circular
pad, turned by `900` when the pad is higher than wide. -/
def textAngle (pad : D_PAD) (angle : ℚ) : ℚ :=
  let angle := if pad.GetShape = PAD_SHAPE_T.PAD_SHAPE_CIRCLE then 0 else angle
  if pad.m_Size.y > pad.m_Size.x then angle + 900 else angle

/-- "Draw the pad number": the statement `if( aDrawInfo.m_Display_padnum ) { ... }`, with
the position `tpos` computed before it ("the middle point of the upper area of the pad"). -/
def padNumberPass (ops : ShapeOps Color) (pad : D_PAD) (aDrawInfo : PAD_DRAWINFO Color)
    (shape_pos : wxPoint) (angle : ℚ) : List (DrawPass × DrawCmd Color) :=
  let tpos0 := shape_pos
  let tpos := tpos0
  let shortname_len := shortnameLen ops aDrawInfo
  let angle := textAngle pad angle
  let AreaSize := textArea pad shortname_len
  let tpos : wxPoint :=
    if shortname_len > 0 then { tpos with y := tpos.y - Int.tdiv AreaSize.y 2 } else tpos
  let tpos := ops.RotatePointAbout tpos shape_pos angle
  let t_angle := ops.NORMALIZE_ANGLE_90 angle
  if aDrawInfo.m_Display_padnum then
    let tsize := textSize AreaSize pad.m_name.length
    if ops.LogicalToDeviceXRel (toSigned tsize) ≥ ops.MIN_TEXT_SIZE then
      let tsize := reserveRoom tsize
      [(DrawPass.padNumber, DrawCmd.GRHaloText tpos aDrawInfo.m_Color ops.pal.BLACK
          ops.pal.WHITE pad.m_name t_angle { x := toSigned tsize, y := toSigned tsize }
          (toSigned (tsize / 7)))]
    else []
  else []

/-- "display the short netname, if exists": the tail of `PrintShape` from
`if( shortname_len == 0 ) return;` on. -/
def netNamePass (ops : ShapeOps Color) (pad : D_PAD) (aDrawInfo : PAD_DRAWINFO Color)
    (shape_pos : wxPoint) (angle : ℚ) : List (DrawPass × DrawCmd Color) :=
  let tpos0 := shape_pos
  let shortname_len := shortnameLen ops aDrawInfo
  let angle := textAngle pad angle
  let AreaSize := textArea pad shortname_len
  let t_angle := ops.NORMALIZE_ANGLE_90 angle
  if shortname_len = 0 then []
  else
    let tsize := textSize AreaSize shortname_len
    if ops.LogicalToDeviceXRel (toSigned tsize) ≥ ops.MIN_TEXT_SIZE then
      let tpos := tpos0
      let tpos : wxPoint :=
        if aDrawInfo.m_Display_padnum then { tpos with y := tpos.y + Int.tdiv AreaSize.y 2 }
        else tpos
      let tpos := ops.RotatePointAbout tpos shape_pos angle
      let tsize := reserveRoom tsize
      [(DrawPass.netName, DrawCmd.GRHaloText tpos aDrawInfo.m_Color ops.pal.BLACK
          ops.pal.WHITE (shortname ops aDrawInfo) t_angle
          { x := toSigned tsize, y := toSigned tsize } (toSigned (tsize / 7)))]
    else []

/-- "Draw the pad number" and "display the short netname": the tail of `PrintShape` from
`if( !aDrawInfo.m_Display_padnum && !aDrawInfo.m_Display_netname ) return;` on.  `angle`
and `shape_pos` are the local variables as the `switch` left them. -/
def textPass (ops : ShapeOps Color) (pad : D_PAD) (aDrawInfo : PAD_DRAWINFO Color)
    (shape_pos : wxPoint) (angle : ℚ) : List (DrawPass × DrawCmd Color) :=
  if (!aDrawInfo.m_Display_padnum && !aDrawInfo.m_Display_netname) then []
  else
    padNumberPass ops pad aDrawInfo shape_pos angle ++
      netNamePass ops pad aDrawInfo shape_pos angle

/-- `D_PAD::PrintShape( wxDC* aDC, PAD_DRAWINFO& aDrawInfo )`: the calls into the graphics
layer, in the order in which they are made, each with the part of the function that makes
it.  `coord` is the content of the local array `coord` on entry. -/
def PrintShape (ops : ShapeOps Color) (pad : D_PAD) (coord : Coord4)
    (aDrawInfo : PAD_DRAWINFO Color) : List (DrawPass × DrawCmd Color) :=
  shapePass ops pad coord aDrawInfo ++ holePass ops pad aDrawInfo ++
    noConnectPass pad aDrawInfo ++
    textPass ops pad aDrawInfo (ops.ShapePos - aDrawInfo.m_Offset) pad.m_Orient

end D_PAD

/-! ## Pads: `D_PAD::Print` -/

/-- The items of the layer manager named by `D_PAD::Print` (`GAL_LAYER_ID`). -/
inductive GAL_LAYER_ID where
  | LAYER_PAD_FR
  | LAYER_PAD_BK
  | LAYER_NON_PLATEDHOLES
  | LAYER_MOD_TEXT_INVISIBLE
  | LAYER_NO_CONNECTS
deriving DecidableEq, Repr

/-- The display options read by `D_PAD::Print`; `m_DisplayPadFill_SKETCH` stands for
`displ_opts.m_DisplayPadFill == SKETCH`. -/
structure PCB_DISPLAY_OPTIONS where
  m_DisplayPadFill_SKETCH : Bool
  m_DisplayPadIsol : Bool
  m_DisplayPadNum : Bool
  m_DisplayNetNamesMode : Int

/-- What `D_PAD::Print` reads from the frame, the board, the colour settings and from
methods of the pad that the translated sources do not define.
* `m_Flags_DO_NOT_DRAW`: `m_Flags & DO_NOT_DRAW` is not zero
* `IsElementVisible`, `IsLayerVisible`: the methods of the board
* `GetItemColor`, `GetLayerColor`: the methods of the colour settings `cds`
* `LegacyMix a b`: `a.LegacyMix( b )`
* `BackMask`, `FrontMask`, `AllCuMask`: the layer sets `LSET::BackMask()`,
  `LSET::FrontMask()`, `LSET::AllCuMask()`
* `ExtractLayer`: `LSET::ExtractLayer()`
* `GetSolderPasteMargin`, `GetSolderMaskMargin`, `PadShouldBeNPTH`, `GetClearance`: the
  values returned by these methods of the pad
* `displ_opts`: `aFrame->GetDisplayOptions()`
* `m_IsPrinting`: `screen->m_IsPrinting` -/
structure PrintEnv (Color : Type) where
  m_Flags_DO_NOT_DRAW : Bool
  IsElementVisible : GAL_LAYER_ID → Bool
  IsLayerVisible : PCB_LAYER_ID → Bool
  GetItemColor : GAL_LAYER_ID → Color
  GetLayerColor : PCB_LAYER_ID → Color
  LegacyMix : Color → Color → Color
  BackMask : List PCB_LAYER_ID
  FrontMask : List PCB_LAYER_ID
  AllCuMask : List PCB_LAYER_ID
  ExtractLayer : List PCB_LAYER_ID → PCB_LAYER_ID
  GetSolderPasteMargin : wxSize
  GetSolderMaskMargin : Int
  PadShouldBeNPTH : Bool
  GetClearance : Int
  displ_opts : PCB_DISPLAY_OPTIONS
  m_IsPrinting : Bool

namespace D_PAD

variable {Color : Type}

/-- `D_PAD::GetAttribute()`. -/
def GetAttribute (pad : D_PAD) : PAD_ATTR_T := pad.m_Attribute

/-- `D_PAD::IsOnLayer( aLayer )`: `m_layerMask[aLayer]`. -/
def IsOnLayer (pad : D_PAD) (aLayer : PCB_LAYER_ID) : Bool := decide (aLayer ∈ pad.m_layerMask)

/-- The pad colour chosen by `D_PAD::Print` (the local variable `color` when it is stored
in `drawInfo.m_Color`). -/
def printColor [DecidableEq Color] (env : PrintEnv Color) (pal : Palette Color) (pad : D_PAD) :
    Color :=
  let color := pal.BLACK
  let color :=
    if PCB_LAYER_ID.F_Cu ∈ pad.m_layerMask then env.GetItemColor GAL_LAYER_ID.LAYER_PAD_FR
    else color
  let color :=
    if PCB_LAYER_ID.B_Cu ∈ pad.m_layerMask then
      env.LegacyMix color (env.GetItemColor GAL_LAYER_ID.LAYER_PAD_BK)
    else color
  if color = pal.BLACK then
    let mask_non_copper_layers := pad.m_layerMask.filter fun l => decide (l ∉ env.AllCuMask)
    let pad_layer := env.ExtractLayer mask_non_copper_layers
    match pad_layer with
    | PCB_LAYER_ID.UNDEFINED_LAYER => pal.DARKGRAY
    | PCB_LAYER_ID.UNSELECTED_LAYER => color
    | _ => env.GetLayerColor pad_layer
  else color

/-- The margin chosen by `D_PAD::Print` (the local variable `mask_margin` when it is stored
in `drawInfo.m_Mask_margin`). -/
def printMaskMargin (env : PrintEnv Color) (pad : D_PAD) : wxSize :=
  let mask_margin : wxSize := {}
  let mask_margin :=
    if (pad.IsOnLayer PCB_LAYER_ID.B_Paste && env.IsLayerVisible PCB_LAYER_ID.B_Paste) ||
        (pad.IsOnLayer PCB_LAYER_ID.F_Paste && env.IsLayerVisible PCB_LAYER_ID.F_Paste) then
      env.GetSolderPasteMargin
    else mask_margin
  if (pad.IsOnLayer PCB_LAYER_ID.B_Mask && env.IsLayerVisible PCB_LAYER_ID.B_Mask) ||
      (pad.IsOnLayer PCB_LAYER_ID.F_Mask && env.IsLayerVisible PCB_LAYER_ID.F_Mask) then
    { x := max mask_margin.x env.GetSolderMaskMargin
      y := max mask_margin.y env.GetSolderMaskMargin }
  else mask_margin

/-- The `if ... else if ...` statement of `D_PAD::Print` that decides whether the hole is
shown as not plated, and with which colour. -/
def printNotPlated (env : PrintEnv Color) (pad : D_PAD) (drawInfo : PAD_DRAWINFO Color) :
    PAD_DRAWINFO Color :=
  if pad.GetAttribute = PAD_ATTR_T.PAD_ATTRIB_HOLE_NOT_PLATED ∧
      env.IsElementVisible GAL_LAYER_ID.LAYER_NON_PLATEDHOLES = true then
    let drawInfo := { drawInfo with m_ShowNotPlatedHole := true }
    { drawInfo with m_NPHoleColor := env.GetItemColor GAL_LAYER_ID.LAYER_NON_PLATEDHOLES }
  else if env.PadShouldBeNPTH then
    let drawInfo := { drawInfo with m_ShowNotPlatedHole := true }
    { drawInfo with m_NPHoleColor := env.GetItemColor GAL_LAYER_ID.LAYER_MOD_TEXT_INVISIBLE }
  else drawInfo

/-- The statements of `D_PAD::Print` from `auto& displ_opts = ...` to the call of
`PrintShape`: the `drawInfo` handed to `PrintShape`, given the `drawInfo` built up to there.
(The assignment `color.a = 0.666` comes after `color` has been copied into `drawInfo` and
changes the local variable only.) -/
def printDrawInfoBody [DecidableEq Color] (env : PrintEnv Color) (pal : Palette Color)
    (pad : D_PAD) (drawInfo : PAD_DRAWINFO Color) : PAD_DRAWINFO Color :=
  let drawInfo :=
    if env.displ_opts.m_DisplayPadFill_SKETCH then { drawInfo with m_ShowPadFilled := false }
    else { drawInfo with m_ShowPadFilled := true }
  let color := printColor env pal pad
  let mask_margin := printMaskMargin env pad
  let DisplayIsol := env.displ_opts.m_DisplayPadIsol
  let DisplayIsol :=
    if (!(pad.m_layerMask.any fun l => decide (l ∈ env.AllCuMask))) then false
    else DisplayIsol
  let drawInfo := printNotPlated env pad drawInfo
  let drawInfo := { drawInfo with m_Color := color }
  let drawInfo :=
    { drawInfo with m_NoNetMarkColor := env.GetItemColor GAL_LAYER_ID.LAYER_NO_CONNECTS }
  let drawInfo := { drawInfo with m_Mask_margin := mask_margin }
  let drawInfo :=
    { drawInfo with m_ShowNCMark := env.IsElementVisible GAL_LAYER_ID.LAYER_NO_CONNECTS }
  let drawInfo := { drawInfo with m_IsPrinting := env.m_IsPrinting }
  let drawInfo :=
    { drawInfo with m_PadClearance := if DisplayIsol then env.GetClearance else 0 }
  let drawInfo :=
    if (!env.displ_opts.m_DisplayPadNum) then { drawInfo with m_Display_padnum := false }
    else drawInfo
  let drawInfo :=
    if env.displ_opts.m_DisplayNetNamesMode = 0 ∨ env.displ_opts.m_DisplayNetNamesMode = 2
    then { drawInfo with m_Display_netname := false }
    else drawInfo
  drawInfo

/-- The `drawInfo` that `D_PAD::Print` hands to `PrintShape`, or `none` when `Print`
returns before it gets there. -/
def printDrawInfo [DecidableEq Color] (env : PrintEnv Color) (pal : Palette Color)
    (pad : D_PAD) (aOffset : wxPoint) : Option (PAD_DRAWINFO Color) :=
  if env.m_Flags_DO_NOT_DRAW then none
  else
    let drawInfo := PAD_DRAWINFO.ctor pal
    let drawInfo := { drawInfo with m_Offset := aOffset }
    let frontVisible := env.IsElementVisible GAL_LAYER_ID.LAYER_PAD_FR
    let backVisible := env.IsElementVisible GAL_LAYER_ID.LAYER_PAD_BK
    if (!frontVisible && !backVisible) then none
    else if (!frontVisible && !(pad.m_layerMask.any fun l => decide (l ∈ env.BackMask))) then
      none
    else if (!backVisible && !(pad.m_layerMask.any fun l => decide (l ∈ env.FrontMask))) then
      none
    else some (printDrawInfoBody env pal pad drawInfo)

/-- `D_PAD::Print( PCB_BASE_FRAME* aFrame, wxDC* aDC, const wxPoint& aOffset )`: the calls
into the graphics layer, none when `Print` returns before calling `PrintShape`. -/
def Print [DecidableEq Color] (env : PrintEnv Color) (ops : ShapeOps Color) (pad : D_PAD)
    (coord : Coord4) (aOffset : wxPoint) : List (DrawPass × DrawCmd Color) :=
  match printDrawInfo env ops.pal pad aOffset with
  | none => []
  | some drawInfo => PrintShape ops pad coord drawInfo

end D_PAD

/-- The size argument of a `GRHaloText` call. -/
def DrawCmd.haloTextSize {Color : Type} : DrawCmd Color → Option wxSize
  | .GRHaloText _ _ _ _ _ _ size _ => some size
  | _ => none

/-- The colour with which a command of the hole part draws the rim of the hole: the
`Color` argument of `GRFilledCircle` and of `GRCSegm`. -/
def DrawCmd.holeColor {Color : Type} : DrawCmd Color → Option Color
  | .GRFilledCircle _ _ _ _ color _ => some color
  | .GRCSegm _ _ _ _ color => some color
  | _ => none

/-- The commands of a trace made by the given part of `PrintShape`. -/
def commandsOf {Color : Type} (pass : DrawPass) (trace : List (DrawPass × DrawCmd Color)) :
    List (DrawCmd Color) :=
  (trace.filter fun e => e.1 = pass).map Prod.snd

/-- No command of a later part comes before a command of an earlier part. -/
def inPassOrder {Color : Type} (trace : List (DrawPass × DrawCmd Color)) : Prop :=
  trace.Pairwise fun a b => a.1.rank ≤ b.1.rank

/-- The corners are mirrored coordinate by coordinate: `c3.x = -c0.x`, `c2.x = -c1.x`,
`c1.y = -c0.y` and `c2.y = -c3.y`. -/
def Coord4.mirrored (c : Coord4) : Prop :=
  c.c3.x = -c.c0.x ∧ c.c2.x = -c.c1.x ∧ c.c1.y = -c.c0.y ∧ c.c2.y = -c.c3.y

instance (c : Coord4) : Decidable c.mirrored := by
  unfold Coord4.mirrored; infer_instance

/-- Every corner is strictly on its own side of both centre lines: the left corners 0 and 1
have `x ≤ -1`, the right corners 2 and 3 have `x ≥ 1`, the lower corners 0 and 3 have
`y ≥ 1`, the upper corners 1 and 2 have `y ≤ -1`. -/
def Coord4.strictlyWithinCenterlines (c : Coord4) : Prop :=
  (c.c0.x ≤ -1 ∧ c.c1.x ≤ -1) ∧ (1 ≤ c.c2.x ∧ 1 ≤ c.c3.x) ∧
  (1 ≤ c.c0.y ∧ 1 ≤ c.c3.y) ∧ (c.c1.y ≤ -1 ∧ c.c2.y ≤ -1)

instance (c : Coord4) : Decidable c.strictlyWithinCenterlines := by
  unfold Coord4.strictlyWithinCenterlines; infer_instance

/-- The position argument of a `GRHaloText` call. -/
def DrawCmd.haloTextPos {Color : Type} : DrawCmd Color → Option wxPoint
  | .GRHaloText pos _ _ _ _ _ _ _ => some pos
  | _ => none

/-! ## Gerber export: `GBR_TO_PCB_EXPORTER::export_copper_item` -/

/-- The `enum Gbr_Basic_Shapes` of `gerbview/gerber_draw_item.h`, the values taken by the
member `m_Shape` of a Gerber item.  `GBR_SPOT_CIRCLE` to `GBR_SPOT_MACRO` are the flashed
shapes. -/
inductive Gbr_Basic_Shapes where
  | GBR_SEGMENT
  | GBR_ARC
  | GBR_CIRCLE
  | GBR_POLYGON
  | GBR_SPOT_CIRCLE
  | GBR_SPOT_RECT
  | GBR_SPOT_OVAL
  | GBR_SPOT_POLY
  | GBR_SPOT_MACRO
  | GBR_LAST
deriving DecidableEq, Repr

/-- The members of `GERBER_DRAW_ITEM` (`gerbview/gerber_draw_item.h`) read by the copper
export.  The polygon `m_Polygon` is only handed to `writePcbPolygonItem`, which is a
parameter below. -/
structure GERBER_DRAW_ITEM where
  m_Shape : Gbr_Basic_Shapes
  m_Start : wxPoint
  m_End : wxPoint
  m_ArcCentre : wxPoint
  m_Size : wxSize
  m_Flashed : Bool
deriving DecidableEq, Repr

/-- One record written to the board file, with the integer arguments of the `fprintf` call
before `MapToPcbUnits` and `Double2Str` turn them into text:
`via pos size` is ` (via (at x y) (size s) (layers F.Cu B.Cu))`,
`segment start end width layer` is `(segment (start ..) (end ..) (width w) (layer l) (net 0))`
and `gr_poly pts layer` is the `(gr_poly (pts ..) (layer l) ..)` of `writePcbPolygonItem`. -/
inductive PcbItem where
  | via (pos : wxPoint) (size : Int)
  | segment (start : wxPoint) (stop : wxPoint) (width : Int) (layer : Int)
  | gr_poly (pts : List wxPoint) (layer : Int)
deriving DecidableEq, Repr

/-- The position of a via record; `none` for the other records. -/
def PcbItem.viaPos : PcbItem → Option wxPoint
  | .via pos _ => some pos
  | _ => none

/-- A point with its Y axis reversed (`p.y = -p.y`), as the exporter does before writing. -/
def wxPoint.reverseY (p : wxPoint) : wxPoint := { p with y := -p.y }

/-- The two writers of `export_copper_item` that work in floating point
(`export_segarc_copper_item`: `atan2`, `RotatePoint`) or on `SHAPE_POLY_SET`
(`writePcbPolygonItem`), given by the records they write.  Neither touches
`m_vias_coordinates`. -/
structure ExportOps where
  export_segarc_copper_item : GERBER_DRAW_ITEM → Int → List PcbItem
  writePcbPolygonItem : GERBER_DRAW_ITEM → Int → List PcbItem

/-- The state of a `GBR_TO_PCB_EXPORTER` that the copper export reads and writes:
`m_vias_coordinates`, the list of already generated vias, and `m_fp`, here the records
written to the board file so far.  A new exporter has both empty and
`m_pcbCopperLayersCount = 2` (constructor). -/
structure GBR_TO_PCB_EXPORTER where
  m_pcbCopperLayersCount : Int := 2
  m_vias_coordinates : List wxPoint := []
  m_fp : List PcbItem := []
deriving DecidableEq, Repr

namespace GBR_TO_PCB_EXPORTER

/-- The loop `for( ii = 0; ii < m_vias_coordinates.size(); ii++ )` at the head of
`export_flashed_copper_item`: `true` when it leaves through `return` (an entry equals
`aStart`), `false` when it runs to the end. -/
def alreadyCreated : List wxPoint → wxPoint → Bool
  | [], _ => false
  | c :: cs, aStart => if c = aStart then true else alreadyCreated cs aStart

/-- `GBR_TO_PCB_EXPORTER::writeCopperLineItem`: one `segment` record. -/
def writeCopperLineItem (e : GBR_TO_PCB_EXPORTER) (aStart aEnd : wxPoint) (aWidth : Int)
    (aLayer : Int) : GBR_TO_PCB_EXPORTER :=
  { e with m_fp := e.m_fp ++ [PcbItem.segment aStart aEnd aWidth aLayer] }

/-- `GBR_TO_PCB_EXPORTER::export_segline_copper_item`. -/
def export_segline_copper_item (e : GBR_TO_PCB_EXPORTER) (aGbrItem : GERBER_DRAW_ITEM)
    (aLayer : Int) : GBR_TO_PCB_EXPORTER :=
  let seg_start := aGbrItem.m_Start
  let seg_end := aGbrItem.m_End
  -- Reverse Y axis:
  let seg_start := { seg_start with y := -seg_start.y }
  let seg_end := { seg_end with y := -seg_end.y }
  writeCopperLineItem e seg_start seg_end aGbrItem.m_Size.x aLayer

/-- `GBR_TO_PCB_EXPORTER::export_flashed_copper_item`. -/
def export_flashed_copper_item (e : GBR_TO_PCB_EXPORTER) (aGbrItem : GERBER_DRAW_ITEM) :
    GBR_TO_PCB_EXPORTER :=
  -- First, explore already created vias, before creating a new via
  if alreadyCreated e.m_vias_coordinates aGbrItem.m_Start then e
  else
    let via_pos := aGbrItem.m_Start
    let width := Int.tdiv (aGbrItem.m_Size.x + aGbrItem.m_Size.y) 2
    -- Reverse Y axis:
    let via_pos := { via_pos with y := -via_pos.y }
    { e with
      m_vias_coordinates := e.m_vias_coordinates ++ [aGbrItem.m_Start]
      m_fp := e.m_fp ++ [PcbItem.via via_pos width] }

/-- `GBR_TO_PCB_EXPORTER::export_copper_item`: the `switch( aGbrItem->m_Shape )`. -/
def export_copper_item (ops : ExportOps) (e : GBR_TO_PCB_EXPORTER)
    (aGbrItem : GERBER_DRAW_ITEM) (aLayer : Int) : GBR_TO_PCB_EXPORTER :=
  match aGbrItem.m_Shape with
  | .GBR_SPOT_CIRCLE | .GBR_SPOT_RECT | .GBR_SPOT_OVAL =>
    -- replace spots with vias when possible
    export_flashed_copper_item e aGbrItem
  | .GBR_ARC =>
    { e with m_fp := e.m_fp ++ ops.export_segarc_copper_item aGbrItem aLayer }
  | .GBR_POLYGON =>
    { e with m_fp := e.m_fp ++ ops.writePcbPolygonItem aGbrItem aLayer }
  | _ => export_segline_copper_item e aGbrItem aLayer

/-- The exporter after `export_flashed_copper_item` has been called on each item of
`items` in turn, starting from a new exporter. -/
def exportFlashedItems (items : List GERBER_DRAW_ITEM) : GBR_TO_PCB_EXPORTER :=
  items.foldl export_flashed_copper_item {}

/-- The exporter after the loop `for( ; gerb_item; gerb_item = gerb_item->Next() )
export_copper_item( gerb_item, pcb_layer_number )` of `ExportPcb` over one copper layer. -/
def exportCopperItems (ops : ExportOps) (e : GBR_TO_PCB_EXPORTER)
    (items : List GERBER_DRAW_ITEM) (aLayer : Int) : GBR_TO_PCB_EXPORTER :=
  items.foldl (fun s it => export_copper_item ops s it aLayer) e

end GBR_TO_PCB_EXPORTER

/-! ## Spice model dialog: `DIALOG_SPICE_MODEL::TransferDataFromWindow`, Model page -/

/-- The values of `enum SPICE_PRIMITIVE` named by the table `modelTypes`.  The enumeration
is declared outside the translated sources, so its character codes are a parameter. -/
structure SpicePrimitives where
  SP_DIODE : Char
  SP_BJT : Char
  SP_MOSFET : Char
  SP_JFET : Char
  SP_SUBCKT : Char

/-- The `struct SPICE_MODEL_INFO`: a type of Spice model. -/
structure SPICE_MODEL_INFO where
  type : Char
  description : String
  keywords : List String
deriving DecidableEq, Repr

/-- The keys of the working buffer `m_fieldsTmp` written by the dialog (`enum SPICE_FIELD`,
declared outside the translated sources; only their being distinct is used). -/
inductive SPICE_FIELD where
  | SF_PRIMITIVE
  | SF_MODEL
  | SF_ENABLED
  | SF_NODE_SEQUENCE
  | SF_LIB_FILE
deriving DecidableEq, Repr

/-- The table `modelTypes` of recognized model types. -/
def modelTypes (sp : SpicePrimitives) : List SPICE_MODEL_INFO :=
  [ { type := sp.SP_DIODE, description := "Diode", keywords := ["d"] },
    { type := sp.SP_BJT, description := "BJT", keywords := ["npn", "pnp"] },
    { type := sp.SP_MOSFET, description := "MOSFET", keywords := ["nmos", "pmos", "vdmos"] },
    { type := sp.SP_JFET, description := "JFET", keywords := ["njf", "pjf"] },
    { type := sp.SP_SUBCKT, description := "Subcircuit", keywords := [] } ]

/-- The loop of `getModelTypeIdx` from index `i` on: the index of the first entry whose
`type` is `prim`, `-1` when the loop runs to the end. -/
def getModelTypeIdxLoop (prim : Char) : List SPICE_MODEL_INFO → Nat → Int
  | [], _ => -1
  | m :: ms, i => if m.type = prim then (i : Int) else getModelTypeIdxLoop prim ms (i + 1)

/-- `getModelTypeIdx`: the index of the entry of `modelTypes` for a Spice primitive, `-1`
when there is none.  `std::toupper` is taken in the "C" locale. -/
def getModelTypeIdx (sp : SpicePrimitives) (aPrimitive : Char) : Int :=
  let prim := aPrimitive.toUpper
  getModelTypeIdxLoop prim (modelTypes sp) 0

/-- The state of the controls read by `TransferDataFromWindow` on the Model page:
`validate` is the result of `m_model->Validate()`, `m_modelType` the result of
`m_modelType->GetSelection()`, the others the values of the controls of those names. -/
structure ModelPageControls where
  validate : Bool
  m_modelType : Int
  m_modelName : String
  m_modelLibrary : String
  m_disabled : Bool
  m_nodeSeqCheck : Bool
  m_nodeSeqVal : String

/-- `DIALOG_SPICE_MODEL::TransferDataFromWindow` when the current page is the Model page,
up to the loop that applies the settings: the working buffer `m_fieldsTmp` it leaves, or
`none` when it returns `false`. -/
def TransferDataFromWindow_model (sp : SpicePrimitives)
    (m_fieldsTmp : SPICE_FIELD → Option String) (w : ModelPageControls) :
    Option (SPICE_FIELD → Option String) :=
  if !w.validate then none
  else
    let modelIdx := w.m_modelType
    let m_fieldsTmp :=
      if modelIdx > 0 ∧ modelIdx < ((modelTypes sp).length : Int) then
        match (modelTypes sp)[modelIdx.toNat]? with
        | some m => Function.update m_fieldsTmp SPICE_FIELD.SF_PRIMITIVE
            (some (String.singleton m.type))
        | none => m_fieldsTmp
      else m_fieldsTmp
    let m_fieldsTmp := Function.update m_fieldsTmp SPICE_FIELD.SF_MODEL (some w.m_modelName)
    let m_fieldsTmp :=
      if !w.m_modelLibrary.isEmpty then
        Function.update m_fieldsTmp SPICE_FIELD.SF_LIB_FILE (some w.m_modelLibrary)
      else m_fieldsTmp
    let m_fieldsTmp := Function.update m_fieldsTmp SPICE_FIELD.SF_ENABLED
      (some (if !w.m_disabled then "Y" else "N"))
    let m_fieldsTmp := Function.update m_fieldsTmp SPICE_FIELD.SF_NODE_SEQUENCE
      (some (if w.m_nodeSeqCheck then w.m_nodeSeqVal else ""))
    some m_fieldsTmp

/-- The selection that `TransferDataToWindow` gives the choice `m_modelType` for a working
buffer: `getModelTypeIdx( toupper( m_fieldsTmp[SF_PRIMITIVE][0] ) )`; `none` when the
buffer has no first character to read. -/
def modelTypeSelection (sp : SpicePrimitives) (m_fieldsTmp : SPICE_FIELD → Option String) :
    Option Int :=
  match m_fieldsTmp SPICE_FIELD.SF_PRIMITIVE with
  | some s =>
    match s.data with
    | c :: _ => some (getModelTypeIdx sp c.toUpper)
    | [] => none
  | none => none

/-! ## Concrete inputs used to exercise the statements -/

namespace KIGFX

/-- A settings state with two layers in use: layer `0` is mid grey, layer `1` (taken as the
background layer) is a lighter grey; all factors are inside `[0,1]`. -/
def RENDER_SETTINGS.sampleSettings : RENDER_SETTINGS COLOR4D ℚ :=
  { m_layerColors := fun i =>
      if i = 0 then { r := 1/2, g := 1/2, b := 1/2, a := 1 }
      else { r := 3/4, g := 3/4, b := 3/4, a := 1 }
    m_layerColorsHi := fun _ => { r := 0, g := 0, b := 0, a := 0 }
    m_layerColorsSel := fun _ => { r := 0, g := 0, b := 0, a := 0 }
    m_layerColorsDark := fun _ => { r := 0, g := 0, b := 0, a := 0 }
    m_hiContrastColor := fun _ => { r := 0, g := 0, b := 0, a := 0 }
    m_hiContrastEnabled := false
    m_hiContrastFactor := 1/5
    m_highlightEnabled := false
    m_highlightNetcode := -1
    m_highlightFactor := 1/2
    m_selectFactor := 1/2
    m_layerOpacity := 4/5
    m_outlineWidth := 1
    m_worksheetLineWidth := 100000
    m_showPageLimits := false }

/-- The state `sampleSettings` with the high-contrast factor set to `2`, outside `[0,1]`. -/
def RENDER_SETTINGS.overdrivenSettings : RENDER_SETTINGS COLOR4D ℚ :=
  { RENDER_SETTINGS.sampleSettings with m_hiContrastFactor := 2 }

/-- A settings state with a red layer `0` over a black background layer `1`, and
`hiContrastFactor = 0.2`. -/
def RENDER_SETTINGS.redOnBlack : RENDER_SETTINGS COLOR4D ℚ :=
  { RENDER_SETTINGS.sampleSettings with
    m_layerColors := fun i =>
      if i = 0 then { r := 1, g := 0, b := 0, a := 1 } else { r := 0, g := 0, b := 0, a := 1 }
    m_hiContrastFactor := 0.2 }

end KIGFX

/-- Stand-ins for the floating-point helpers: no slope correction, no rotation. -/
def D_PAD.sampleFloatOps : FloatOps :=
  { tanCorr := fun _ _ _ => 0, cosCorr := fun _ _ v => v, RotatePoint := fun p _ => p }

/-- An `aCoord` array holding four times the origin. -/
def Coord4.zero : Coord4 :=
  { c0 := { x := 0, y := 0 }, c1 := { x := 0, y := 0 }, c2 := { x := 0, y := 0 },
    c3 := { x := 0, y := 0 } }

/-- A rectangular pad of the given size. -/
def D_PAD.rect (w h : Int) : D_PAD :=
  { m_padShape := PAD_SHAPE_T.PAD_SHAPE_RECT, m_Size := { x := w, y := h }, m_DeltaSize := {} }

/-- A trapezoid pad of the given size and delta size. -/
def D_PAD.trapezoid (w h dx dy : Int) : D_PAD :=
  { m_padShape := PAD_SHAPE_T.PAD_SHAPE_TRAPEZOID, m_Size := { x := w, y := h },
    m_DeltaSize := { x := dx, y := dy } }

/-- An oval pad of the given size. -/
def D_PAD.oval (w h : Int) : D_PAD :=
  { m_padShape := PAD_SHAPE_T.PAD_SHAPE_OVAL, m_Size := { x := w, y := h }, m_DeltaSize := {} }

/-- A circular pad of the given diameter. -/
def D_PAD.circle (d : Int) : D_PAD :=
  { m_padShape := PAD_SHAPE_T.PAD_SHAPE_CIRCLE, m_Size := { x := d, y := d }, m_DeltaSize := {} }

/-- Colours as numbers, for the sample inputs: `0` black, `1` white, `2` yellow, `3` blue,
`4` dark gray. -/
def samplePalette : Palette Nat :=
  { BLACK := 0, WHITE := 1, YELLOW := 2, BLUE := 3, DARKGRAY := 4 }

/-- Stand-ins for what `PrintShape` takes from outside: the shape position is `(100,50)`,
device units are logical units, the least text size is `5`, the black pen is not forced,
points are not rotated, and the polygon helpers hand back a triangle. -/
def sampleShapeOps : ShapeOps Nat :=
  { fp := D_PAD.sampleFloatOps
    pal := samplePalette
    m_PadSketchModePenSize := 0
    ShapePos := { x := 100, y := 50 }
    RotatePointAbout := fun q _ _ => q
    NORMALIZE_ANGLE_90 := fun a => a
    LogicalToDeviceXRel := fun v => v
    MIN_TEXT_SIZE := 5
    GetGRForceBlackPenState := false
    TransformShapeWithClearanceToPolygon := fun _ =>
      [[{ x := 0, y := 0 }, { x := 1, y := 0 }, { x := 0, y := 1 }]]
    GetRoundRectCornerRadius := fun _ => 1
    GetRoundRectCornerRadius0 := 1
    GetChamferRectRatio := 0
    GetChamferPositions := 0
    TransformRoundChamferedRectToPolygon := fun _ _ _ _ _ _ =>
      [{ x := 0, y := 0 }, { x := 1, y := 0 }, { x := 0, y := 1 }]
    GetAnchorPadShape := PAD_SHAPE_T.PAD_SHAPE_CIRCLE
    customShapeAtBoardPosition := fun _ _ =>
      [[{ x := 0, y := 0 }, { x := 1, y := 0 }, { x := 0, y := 1 }]]
    GetArcToSegmentCount := fun _ => 16
    InflateWithLinkedHoles := fun o _ _ => o
    GetOblongDrillGeometry := ({ x := -2, y := 0 }, { x := 2, y := 0 }, 4)
    shortNetname := "GND" }

/-- A `PAD_DRAWINFO` as its constructor leaves it, with the theme colour `7`. -/
def sampleDrawInfo : PAD_DRAWINFO Nat :=
  { PAD_DRAWINFO.ctor samplePalette with m_Color := 7 }

/-- A frame, board and theme in which everything is visible, pads are drawn filled, the
item colours are `10 ..  14`, and the pad is not a should-be-NPTH. -/
def samplePrintEnv : PrintEnv Nat :=
  { m_Flags_DO_NOT_DRAW := false
    IsElementVisible := fun _ => true
    IsLayerVisible := fun _ => true
    GetItemColor := fun l =>
      match l with
      | GAL_LAYER_ID.LAYER_PAD_FR => 10
      | GAL_LAYER_ID.LAYER_PAD_BK => 11
      | GAL_LAYER_ID.LAYER_NON_PLATEDHOLES => 12
      | GAL_LAYER_ID.LAYER_MOD_TEXT_INVISIBLE => 13
      | GAL_LAYER_ID.LAYER_NO_CONNECTS => 14
    GetLayerColor := fun _ => 20
    LegacyMix := fun a b => a + b
    BackMask := [PCB_LAYER_ID.B_Cu, PCB_LAYER_ID.B_Paste, PCB_LAYER_ID.B_Mask]
    FrontMask := [PCB_LAYER_ID.F_Cu, PCB_LAYER_ID.F_Paste, PCB_LAYER_ID.F_Mask]
    AllCuMask := [PCB_LAYER_ID.F_Cu, PCB_LAYER_ID.B_Cu]
    ExtractLayer := fun l =>
      match l with
      | [] => PCB_LAYER_ID.UNSELECTED_LAYER
      | [a] => a
      | _ => PCB_LAYER_ID.UNDEFINED_LAYER
    GetSolderPasteMargin := {}
    GetSolderMaskMargin := 0
    PadShouldBeNPTH := false
    GetClearance := 0
    displ_opts :=
      { m_DisplayPadFill_SKETCH := false, m_DisplayPadIsol := false, m_DisplayPadNum := false,
        m_DisplayNetNamesMode := 0 }
    m_IsPrinting := false }

/-- A circular through-hole pad of diameter `20` with a round hole of diameter `10`, on
both copper layers, with the attribute "hole not plated". -/
def D_PAD.notPlatedPad : D_PAD :=
  { D_PAD.circle 20 with
    m_Drill := { x := 10, y := 10 }
    m_Attribute := PAD_ATTR_T.PAD_ATTRIB_HOLE_NOT_PLATED
    m_layerMask := [PCB_LAYER_ID.F_Cu, PCB_LAYER_ID.B_Cu]
    m_netCode := 1 }

/-- A rectangular pad of size `(40,20)` named "A1"; with `sampleShapeOps` its short net
name is "GND". -/
def D_PAD.labelledPad : D_PAD :=
  { D_PAD.rect 40 20 with m_name := "A1", m_netCode := 1 }

/-- A rectangular pad of size `(1900000000, 700000000)` named "A1". -/
def D_PAD.hugePad : D_PAD :=
  { D_PAD.rect 1900000000 700000000 with m_name := "A1", m_netCode := 1 }

/-- An oval pad of size `(40,20)` named "A1", on the front copper layer, without a net,
with an oblong hole; drawn with a clearance it makes `PrintShape` go through all its
parts. -/
def D_PAD.fullPad : D_PAD :=
  { D_PAD.oval 40 20 with
    m_name := "A1"
    m_netCode := 0
    m_layerMask := [PCB_LAYER_ID.F_Cu]
    m_Drill := { x := 6, y := 10 }
    m_drillShape := PAD_DRILL_SHAPE_T.PAD_DRILL_SHAPE_OBLONG }

/-- The sample frame with the item "non plated holes" hidden in the layer manager. -/
def hiddenNonPlatedEnv : PrintEnv Nat :=
  { samplePrintEnv with
    IsElementVisible := fun l => decide (l ≠ GAL_LAYER_ID.LAYER_NON_PLATEDHOLES) }

/-- A rectangular pad of size `(1900000000, 1400000000)`, with a net. -/
def D_PAD.hugeNetPad : D_PAD :=
  { D_PAD.rect 1900000000 1400000000 with m_netCode := 1 }

/-- The sample draw info with the pad number not displayed. -/
def netNameOnlyDrawInfo : PAD_DRAWINFO Nat :=
  { sampleDrawInfo with m_Display_padnum := false }

/-- Writers that write nothing, for the shapes the statements do not look at. -/
def sampleExportOps : ExportOps :=
  { export_segarc_copper_item := fun _ _ => []
    writePcbPolygonItem := fun _ _ => [] }

/-- A flashed item of the given shape and size at `(x, y)`. -/
def GERBER_DRAW_ITEM.flash (shape : Gbr_Basic_Shapes) (x y w h : Int) : GERBER_DRAW_ITEM :=
  { m_Shape := shape
    m_Start := { x := x, y := y }
    m_End := { x := x, y := y }
    m_ArcCentre := { x := 0, y := 0 }
    m_Size := { x := w, y := h }
    m_Flashed := true }

/-- The letters by which Spice names the five kinds of models: `D` diode, `Q` bipolar
transistor, `M` MOSFET, `J` JFET, `X` subcircuit. -/
def samplePrimitives : SpicePrimitives :=
  { SP_DIODE := 'D', SP_BJT := 'Q', SP_MOSFET := 'M', SP_JFET := 'J', SP_SUBCKT := 'X' }

/-- A working buffer holding only the primitive `prim`. -/
def fieldsWithPrimitive (prim : String) : SPICE_FIELD → Option String :=
  fun k => if k = SPICE_FIELD.SF_PRIMITIVE then some prim else none

/-- The Model page with a valid content, model name "1N4148", no library, and the entry
`idx` of the model-type choice selected. -/
def modelPageWith (idx : Int) : ModelPageControls :=
  { validate := true
    m_modelType := idx
    m_modelName := "1N4148"
    m_modelLibrary := ""
    m_disabled := false
    m_nodeSeqCheck := false
    m_nodeSeqVal := "" }

/-! # Properties -/

namespace KIGFX.RENDER_SETTINGS

variable {Color F : Type}

theorem updateBody_updateClosed [One F] [Sub F] (ops : ColorOps Color F) (n bg : Nat)
    (s : RENDER_SETTINGS Color F) :
    updateBody ops bg (updateClosed ops n bg s) n = updateClosed ops (n + 1) bg s := by
  ext : 1
  all_goals first
    | rfl
    | (funext i
       simp only [updateBody, updateClosed, Function.update_apply]
       by_cases h : i = n
       · subst h; simp
       · have h1 : i < n + 1 ↔ i < n := by omega
         simp [h, h1])

theorem update_eq_updateClosed [One F] [Sub F] (ops : ColorOps Color F) (n bg : Nat)
    (s : RENDER_SETTINGS Color F) : update ops n bg s = updateClosed ops n bg s := by
  induction n with
  | zero => rfl
  | succ k ih =>
    have hk : update ops (k + 1) bg s = updateBody ops bg (update ops k bg s) k := by
      simp [update, List.range_succ, List.foldl_append]
    rw [hk, ih, updateBody_updateClosed]

end KIGFX.RENDER_SETTINGS

namespace KIGFX.RENDER_SETTINGS

variable {Color F : Type}

/-- C1: after `update()`, for every layer id `i` below `LAYER_ID_COUNT`, the four derived
entries hold the formulas of the loop body applied to the base colour of `i`, the base
colour of the background layer and the factors; no layer id is skipped.  The base table and
the factors are the ones from before the call (they are not written). -/
theorem update_all_layers [One F] [Sub F] (ops : ColorOps Color F)
    (LAYER_ID_COUNT LAYER_PCB_BACKGROUND : Nat) (s : RENDER_SETTINGS Color F) (i : Nat)
    (hi : i < LAYER_ID_COUNT) :
    let t := update ops LAYER_ID_COUNT LAYER_PCB_BACKGROUND s
    (t.m_hiContrastColor i =
        ops.Mix (t.m_layerColors i) (t.m_layerColors LAYER_PCB_BACKGROUND) t.m_hiContrastFactor ∧
      t.m_layerColorsHi i = ops.Brightened (t.m_layerColors i) t.m_highlightFactor ∧
      t.m_layerColorsDark i = ops.Darkened (t.m_layerColors i) (1 - t.m_highlightFactor) ∧
      t.m_layerColorsSel i = ops.Brightened (t.m_layerColors i) t.m_selectFactor) ∧
    (t.m_layerColors = s.m_layerColors ∧ t.m_hiContrastFactor = s.m_hiContrastFactor ∧
      t.m_highlightFactor = s.m_highlightFactor ∧ t.m_selectFactor = s.m_selectFactor) := by
  simp [update_eq_updateClosed, updateClosed, hi]

/-- Witness of C1: layer `0` of the two-layer sample state. -/
theorem update_all_layers_witness :
    (0 < 2) ∧
    (let t := update COLOR4D.specOps 2 1 sampleSettings
     (t.m_hiContrastColor 0 =
        COLOR4D.specOps.Mix (t.m_layerColors 0) (t.m_layerColors 1) t.m_hiContrastFactor ∧
      t.m_layerColorsHi 0 = COLOR4D.specOps.Brightened (t.m_layerColors 0) t.m_highlightFactor ∧
      t.m_layerColorsDark 0 =
        COLOR4D.specOps.Darkened (t.m_layerColors 0) (1 - t.m_highlightFactor) ∧
      t.m_layerColorsSel 0 = COLOR4D.specOps.Brightened (t.m_layerColors 0) t.m_selectFactor) ∧
     (t.m_layerColors = sampleSettings.m_layerColors ∧
      t.m_hiContrastFactor = sampleSettings.m_hiContrastFactor ∧
      t.m_highlightFactor = sampleSettings.m_highlightFactor ∧
      t.m_selectFactor = sampleSettings.m_selectFactor)) :=
  ⟨by decide, update_all_layers COLOR4D.specOps 2 1 sampleSettings 0 (by decide)⟩

/-- C2: `update()` is idempotent: a second call leaves the whole settings state, and with
it the four derived tables, as the first call left it. -/
theorem update_idempotent [One F] [Sub F] (ops : ColorOps Color F)
    (LAYER_ID_COUNT LAYER_PCB_BACKGROUND : Nat) (s : RENDER_SETTINGS Color F) :
    update ops LAYER_ID_COUNT LAYER_PCB_BACKGROUND
        (update ops LAYER_ID_COUNT LAYER_PCB_BACKGROUND s) =
      update ops LAYER_ID_COUNT LAYER_PCB_BACKGROUND s := by
  simp only [update_eq_updateClosed]
  ext : 1
  all_goals first
    | rfl
    | (funext i
       simp only [updateClosed]
       split_ifs <;> rfl)

end KIGFX.RENDER_SETTINGS

namespace KIGFX.RENDER_SETTINGS

variable {Color : Type}

theorem clamp01_of_mem {x : ℚ} (h0 : 0 ≤ x) (h1 : x ≤ 1) : clamp01 x = x := by
  simp [clamp01, min_eq_right h1, max_eq_right h0]

theorem clampFactors_of_inRange (s : RENDER_SETTINGS Color ℚ) (h : factorsInRange s) :
    clampFactors s = s := by
  obtain ⟨⟨a0, a1⟩, ⟨b0, b1⟩, ⟨c0, c1⟩⟩ := h
  simp [clampFactors, clamp01_of_mem, *]

/-- C3, as stated, fails: in the state `overdrivenSettings` the high-contrast factor is `2`,
outside `[0,1]`, and `update()` does not produce the derived tables of the clamped state
(with the colour operations modelled from the specification): the high-contrast entry of
layer `0` has red channel `1` with the raw factor and `3/4` with the factor clamped to `1`. -/
theorem update_factor_not_clamped :
    ¬ factorsInRange overdrivenSettings ∧
    derivedTables 2 (update COLOR4D.specOps 2 1 overdrivenSettings) ≠
      derivedTables 2 (update COLOR4D.specOps 2 1 (clampFactors overdrivenSettings)) ∧
    ((update COLOR4D.specOps 2 1 overdrivenSettings).m_hiContrastColor 0).r = 1 ∧
    ((update COLOR4D.specOps 2 1 (clampFactors overdrivenSettings)).m_hiContrastColor 0).r
      = 3 / 4 := by
  have hraw : ((update COLOR4D.specOps 2 1 overdrivenSettings).m_hiContrastColor 0).r = 1 := by
    simp [update_eq_updateClosed, updateClosed, overdrivenSettings, sampleSettings,
      COLOR4D.specOps, COLOR4D.Mix, COLOR4D.lerp]
    norm_num
  have hcl : ((update COLOR4D.specOps 2 1
      (clampFactors overdrivenSettings)).m_hiContrastColor 0).r = 3 / 4 := by
    simp [update_eq_updateClosed, updateClosed, clampFactors, clamp01, overdrivenSettings,
      sampleSettings, COLOR4D.specOps, COLOR4D.Mix, COLOR4D.lerp]
  refine ⟨?_, ?_, hraw, hcl⟩
  · simp [factorsInRange, overdrivenSettings, sampleSettings]
  · intro h
    have h0 := congrArg (fun l => (l.map fun e => e.1.r).head?) h
    simp only [derivedTables, List.range_succ, List.range_zero, List.nil_append,
      List.map_cons, List.map_append, List.cons_append, List.head?_cons] at h0
    rw [hraw, hcl] at h0
    norm_num at h0

/-- C3, amended: `update()` accepts every settings state and does no clamping of its own:
the derived tables are those obtained by handing `hiContrastFactor`, `highlightFactor`,
`1 - highlightFactor` and `selectFactor` unchanged to `Mix`, `Brightened` and `Darkened`;
and when the three factors lie in `[0,1]` the tables are those of the clamped state. -/
theorem update_uses_raw_factors (ops : ColorOps Color ℚ)
    (LAYER_ID_COUNT LAYER_PCB_BACKGROUND : Nat) (s : RENDER_SETTINGS Color ℚ) :
    derivedTables LAYER_ID_COUNT (update ops LAYER_ID_COUNT LAYER_PCB_BACKGROUND s) =
      (List.range LAYER_ID_COUNT).map (fun i =>
        (ops.Mix (s.m_layerColors i) (s.m_layerColors LAYER_PCB_BACKGROUND) s.m_hiContrastFactor,
         ops.Brightened (s.m_layerColors i) s.m_highlightFactor,
         ops.Darkened (s.m_layerColors i) (1 - s.m_highlightFactor),
         ops.Brightened (s.m_layerColors i) s.m_selectFactor)) ∧
    (factorsInRange s →
      derivedTables LAYER_ID_COUNT
          (update ops LAYER_ID_COUNT LAYER_PCB_BACKGROUND (clampFactors s)) =
        derivedTables LAYER_ID_COUNT (update ops LAYER_ID_COUNT LAYER_PCB_BACKGROUND s)) := by
  constructor
  · simp only [derivedTables, update_eq_updateClosed, updateClosed]
    apply List.map_congr_left
    intro i hi
    simp [List.mem_range.mp hi]
  · intro h
    rw [clampFactors_of_inRange s h]

theorem sampleSettings_inRange : factorsInRange sampleSettings := by
  simp [factorsInRange, sampleSettings]
  norm_num

/-- Witness of the amended C3: the sample state, whose factors are `1/5`, `1/2`, `1/2`. -/
theorem update_uses_raw_factors_witness :
    factorsInRange sampleSettings ∧
    derivedTables 2 (update COLOR4D.specOps 2 1 (clampFactors sampleSettings)) =
      derivedTables 2 (update COLOR4D.specOps 2 1 sampleSettings) :=
  ⟨sampleSettings_inRange,
    (update_uses_raw_factors COLOR4D.specOps 2 1 sampleSettings).2 sampleSettings_inRange⟩

/-- C4: with the blend of the specification, a layer whose base colour is `(255,0,0)`, over
a background layer whose colour is `(0,0,0)`, with `hiContrastFactor = 0.2`, gets the
high-contrast colour `(204,0,0)` from `update()`: the base colour times `0.8`. -/
theorem update_hiContrast_red_on_black (LAYER_ID_COUNT LAYER_PCB_BACKGROUND : Nat)
    (s : RENDER_SETTINGS COLOR4D ℚ) (i : Nat) (hi : i < LAYER_ID_COUNT)
    (hbase : (s.m_layerColors i).rgb255 = (255, 0, 0))
    (hbg : (s.m_layerColors LAYER_PCB_BACKGROUND).rgb255 = (0, 0, 0))
    (hf : s.m_hiContrastFactor = 0.2) :
    ((update COLOR4D.specOps LAYER_ID_COUNT LAYER_PCB_BACKGROUND s).m_hiContrastColor i).rgb255
        = (204, 0, 0) ∧
    ((update COLOR4D.specOps LAYER_ID_COUNT LAYER_PCB_BACKGROUND s).m_hiContrastColor i).rgb255
        = (0.8 * (s.m_layerColors i).r * 255, 0.8 * (s.m_layerColors i).g * 255,
            0.8 * (s.m_layerColors i).b * 255) := by
  simp only [COLOR4D.rgb255, Prod.mk.injEq] at hbase hbg
  obtain ⟨hr, hg, hb⟩ := hbase
  obtain ⟨hr', hg', hb'⟩ := hbg
  have e1 : (s.m_layerColors i).r = 1 := by linarith
  have e2 : (s.m_layerColors i).g = 0 := by linarith
  have e3 : (s.m_layerColors i).b = 0 := by linarith
  have e4 : (s.m_layerColors LAYER_PCB_BACKGROUND).r = 0 := by linarith
  have e5 : (s.m_layerColors LAYER_PCB_BACKGROUND).g = 0 := by linarith
  have e6 : (s.m_layerColors LAYER_PCB_BACKGROUND).b = 0 := by linarith
  simp only [update_eq_updateClosed, updateClosed, if_pos hi, COLOR4D.specOps, COLOR4D.Mix,
    COLOR4D.lerp, COLOR4D.rgb255, e1, e2, e3, e4, e5, e6, hf, Prod.mk.injEq]
  norm_num

/-- Witness of C4: the state `redOnBlack`, layer `0` over background layer `1`. -/
theorem update_hiContrast_red_on_black_witness :
    ((update COLOR4D.specOps 2 1 redOnBlack).m_hiContrastColor 0).rgb255 = (204, 0, 0) :=
  (update_hiContrast_red_on_black 2 1 redOnBlack 0 (by decide)
    (by simp [redOnBlack, COLOR4D.rgb255]) (by simp [redOnBlack, COLOR4D.rgb255])
    (by simp [redOnBlack])).1

theorem binary32_five_tenths : binary32 5 10 = 1 / 2 := by
  have h : binary32ScaleUp 149 5 10 0 = 24 := by decide
  have h2 : roundNearestEven (5 * 2 ^ 24) 10 = 8388608 := by decide
  simp only [binary32, h, h2]
  norm_num

theorem binary32_eight_tenths : binary32 8 10 = 13421773 / 16777216 := by
  have h : binary32ScaleUp 149 8 10 0 = 24 := by decide
  have h2 : roundNearestEven (8 * 2 ^ 24) 10 = 13421773 := by decide
  simp only [binary32, h, h2]
  norm_num

theorem binary32_two_tenths : binary32 2 10 = 13421773 / 67108864 := by
  have h : binary32ScaleUp 149 2 10 0 = 26 := by decide
  have h2 : roundNearestEven (2 * 2 ^ 26) 10 = 13421773 := by decide
  simp only [binary32, h, h2]
  norm_num

/-- C5, as stated, fails for two of the ten members: after the constructor body
`layerOpacity` holds the `float` of `0.8f`, which is `13421773 / 2 ^ 24` and not `0.8`, and
`hiContrastFactor` holds the `float` of `0.2f`, which is `13421773 / 2 ^ 26` and not `0.2`;
seen here on the object that held exactly `4/5` and `1/5` before. -/
theorem ctor_stores_rounded_literals :
    (ctor sampleSettings).m_layerOpacity = 13421773 / 16777216 ∧
    (ctor sampleSettings).m_layerOpacity ≠ 0.8 ∧
    (ctor sampleSettings).m_hiContrastFactor = 13421773 / 67108864 ∧
    (ctor sampleSettings).m_hiContrastFactor ≠ 0.2 := by
  have e1 : (ctor sampleSettings).m_layerOpacity = 13421773 / 16777216 :=
    binary32_eight_tenths
  have e2 : (ctor sampleSettings).m_hiContrastFactor = 13421773 / 67108864 :=
    binary32_two_tenths
  refine ⟨e1, ?_, e2, ?_⟩
  · rw [e1]; norm_num
  · rw [e2]; norm_num

/-- C5, amended: whatever the object held before, after the constructor body
`highlightFactor` and `selectFactor` are `0.5`, `layerOpacity` is the single-precision
number of `0.8f`, that is `13421773 / 2 ^ 24`, which is `1 / 83886080` above `0.8`,
`hiContrastFactor` is the single-precision number of `0.2f`, that is `13421773 / 2 ^ 26`,
which is `1 / 335544320` above `0.2`, `outlineWidth` is `1`, `worksheetLineWidth` is
`100000`, `highlightNetcode` is `-1`, and `highlightEnabled`, `hiContrastEnabled` and
`showPageLimits` are `false`. -/
theorem ctor_defaults (s : RENDER_SETTINGS Color ℚ) :
    (ctor s).m_highlightFactor = 0.5 ∧ (ctor s).m_selectFactor = 0.5 ∧
    (ctor s).m_layerOpacity = 13421773 / 16777216 ∧
    (ctor s).m_layerOpacity - 0.8 = 1 / 83886080 ∧
    (ctor s).m_hiContrastFactor = 13421773 / 67108864 ∧
    (ctor s).m_hiContrastFactor - 0.2 = 1 / 335544320 ∧
    (ctor s).m_outlineWidth = 1 ∧ (ctor s).m_worksheetLineWidth = 100000 ∧
    (ctor s).m_highlightNetcode = -1 ∧ (ctor s).m_highlightEnabled = false ∧
    (ctor s).m_hiContrastEnabled = false ∧ (ctor s).m_showPageLimits = false := by
  have e0 : (ctor s).m_highlightFactor = 1 / 2 := binary32_five_tenths
  have e0b : (ctor s).m_selectFactor = 1 / 2 := binary32_five_tenths
  have e1 : (ctor s).m_layerOpacity = 13421773 / 16777216 := binary32_eight_tenths
  have e2 : (ctor s).m_hiContrastFactor = 13421773 / 67108864 := binary32_two_tenths
  refine ⟨?_, ?_, e1, ?_, e2, ?_, rfl, rfl, rfl, rfl, rfl, rfl⟩
  · rw [e0]; norm_num
  · rw [e0b]; norm_num
  · rw [e1]; norm_num
  · rw [e2]; norm_num

/-- Witness of the amended C5: the constructor body run on the sample state. -/
theorem ctor_defaults_witness :
    (ctor sampleSettings).m_highlightFactor = 0.5 ∧
    (ctor sampleSettings).m_layerOpacity - 0.8 = 1 / 83886080 ∧
    (ctor sampleSettings).m_hiContrastFactor - 0.2 = 1 / 335544320 ∧
    (ctor sampleSettings).m_highlightNetcode = -1 :=
  ⟨(ctor_defaults sampleSettings).1, (ctor_defaults sampleSettings).2.2.2.1,
    (ctor_defaults sampleSettings).2.2.2.2.2.1,
    (ctor_defaults sampleSettings).2.2.2.2.2.2.2.2.1⟩

end KIGFX.RENDER_SETTINGS

namespace D_PAD

open PAD_SHAPE_T

theorem shiftRight_one (x : Int) : x >>> (1 : Nat) = x / 2 := by
  rw [Int.shiftRight_eq_div_pow]; rfl

theorem BuildPadPolygon_rect (fp : FloatOps) (pad : D_PAD) (aCoord : Coord4)
    (aInflateValue : wxSize) (hs : pad.GetShape = PAD_SHAPE_RECT) :
    BuildPadPolygon fp pad aCoord aInflateValue 0 =
      basicShape (rectHalfsize pad.halfsize0 aInflateValue) {} := by
  simp [BuildPadPolygon, buildCorners, hs]

theorem BuildPadPolygon_trapezoid_plain (fp : FloatOps) (pad : D_PAD) (aCoord : Coord4)
    (hs : pad.GetShape = PAD_SHAPE_TRAPEZOID) :
    BuildPadPolygon fp pad aCoord {} 0 =
      basicShape pad.halfsize0 (trapezoidDelta pad.m_DeltaSize pad.halfsize0) := by
  simp [BuildPadPolygon, buildCorners, hs]

theorem BuildPadPolygon_trapezoid_offset (fp : FloatOps) (pad : D_PAD) (aCoord : Coord4)
    (aInflateValue : wxSize) (hs : pad.GetShape = PAD_SHAPE_TRAPEZOID)
    (hi : aInflateValue.x ≠ 0 ∨ aInflateValue.y ≠ 0) :
    BuildPadPolygon fp pad aCoord aInflateValue 0 =
      clampCoords (offsetCoords fp pad pad.halfsize0
        (trapezoidDelta pad.m_DeltaSize pad.halfsize0) aInflateValue) := by
  simp [BuildPadPolygon, buildCorners, hs, hi]

/-- C6, as stated, fails: a rectangular pad of size `(3,3)`, with zero inflate value and
zero rotation, gets the corners `(-1,1)`, `(-1,-1)`, `(1,-1)`, `(1,1)`: a box of width and
height `2`, not `3`. -/
theorem BuildPadPolygon_rect_odd_size :
    BuildPadPolygon sampleFloatOps (rect 3 3) Coord4.zero {} 0 =
      { c0 := { x := -1, y := 1 }, c1 := { x := -1, y := -1 }, c2 := { x := 1, y := -1 },
        c3 := { x := 1, y := 1 } } ∧
    ¬ (BuildPadPolygon sampleFloatOps (rect 3 3) Coord4.zero {} 0).isCenteredBox 3 3 := by
  decide

/-- C6, amended: for every rectangular pad of size `(w,h)` with `w, h ≥ 0`, zero inflate
value and zero rotation, the four corners form an axis-aligned box centred at the origin
whose width is `2 * (w div 2)` and whose height is `2 * (h div 2)`; that is `w` by `h`
when `w` and `h` are even. -/
theorem BuildPadPolygon_rect_box (fp : FloatOps) (pad : D_PAD) (aCoord : Coord4)
    (hs : pad.GetShape = PAD_SHAPE_RECT) (hw : 0 ≤ pad.m_Size.x) (hh : 0 ≤ pad.m_Size.y) :
    (BuildPadPolygon fp pad aCoord {} 0).isCenteredBox
        (2 * (pad.m_Size.x / 2)) (2 * (pad.m_Size.y / 2)) ∧
    (pad.m_Size.x % 2 = 0 → pad.m_Size.y % 2 = 0 →
      (BuildPadPolygon fp pad aCoord {} 0).isCenteredBox pad.m_Size.x pad.m_Size.y) := by
  rw [BuildPadPolygon_rect fp pad aCoord {} hs]
  have hx : ¬ (pad.m_Size.x / 2 < 0) := by omega
  have hy : ¬ (pad.m_Size.y / 2 < 0) := by omega
  simp only [Coord4.isCenteredBox, basicShape, rectHalfsize, halfsize0, shiftRight_one,
    add_zero, if_neg hx, if_neg hy]
  refine ⟨⟨?_, ?_, ?_, ?_, ?_, ?_, ?_, ?_⟩, fun ex ey => ⟨?_, ?_, ?_, ?_, ?_, ?_, ?_, ?_⟩⟩ <;>
    omega

/-- Witness of the amended C6: the pad of size `(3,3)` gives a box of width and height
`2`. -/
theorem BuildPadPolygon_rect_box_witness :
    (BuildPadPolygon sampleFloatOps (rect 3 3) Coord4.zero {} 0).isCenteredBox 2 2 :=
  (BuildPadPolygon_rect_box sampleFloatOps (rect 3 3) Coord4.zero rfl (by decide)
    (by decide)).1

/-- C7: for every rectangular pad and every inflate value `(mx,my)`, at rotation `0` the
corners are `(-X,+Y)`, `(-X,-Y)`, `(+X,-Y)`, `(+X,+Y)` with `X = max (hx + mx) 0` and
`Y = max (hy + my) 0`, where `(hx,hy) = halfsize0 = (w >> 1, h >> 1)` are the half-extents
of the pad at margin `0`: each half-extent moves by the margin and is clamped at `0`, each
axis on its own. -/
theorem BuildPadPolygon_rect_inflate (fp : FloatOps) (pad : D_PAD) (aCoord : Coord4)
    (aInflateValue : wxSize) (hs : pad.GetShape = PAD_SHAPE_RECT) :
    BuildPadPolygon fp pad aCoord aInflateValue 0 =
      { c0 := { x := -(max (pad.halfsize0.x + aInflateValue.x) 0),
                y := max (pad.halfsize0.y + aInflateValue.y) 0 }
        c1 := { x := -(max (pad.halfsize0.x + aInflateValue.x) 0),
                y := -(max (pad.halfsize0.y + aInflateValue.y) 0) }
        c2 := { x := max (pad.halfsize0.x + aInflateValue.x) 0,
                y := -(max (pad.halfsize0.y + aInflateValue.y) 0) }
        c3 := { x := max (pad.halfsize0.x + aInflateValue.x) 0,
                y := max (pad.halfsize0.y + aInflateValue.y) 0 } } := by
  rw [BuildPadPolygon_rect fp pad aCoord aInflateValue hs]
  simp only [basicShape, rectHalfsize]
  by_cases hx : pad.halfsize0.x + aInflateValue.x < 0 <;>
    by_cases hy : pad.halfsize0.y + aInflateValue.y < 0
  · simp [hx, hy, max_eq_right (le_of_lt hx), max_eq_right (le_of_lt hy)]
  · simp [hx, hy, max_eq_right (le_of_lt hx), max_eq_left (not_lt.mp hy)]
  · simp [hx, hy, max_eq_left (not_lt.mp hx), max_eq_right (le_of_lt hy)]
  · simp [hx, hy, max_eq_left (not_lt.mp hx), max_eq_left (not_lt.mp hy)]

/-- Witness of C7: a `10 x 6` rectangular pad with margin `(1,1)` gets the half-extents
`(6,4)`. -/
theorem BuildPadPolygon_rect_inflate_witness :
    BuildPadPolygon sampleFloatOps (rect 10 6) Coord4.zero { x := 1, y := 1 } 0 =
      { c0 := { x := -6, y := 4 }, c1 := { x := -6, y := -4 }, c2 := { x := 6, y := -4 },
        c3 := { x := 6, y := 4 } } :=
  (BuildPadPolygon_rect_inflate sampleFloatOps (rect 10 6) Coord4.zero { x := 1, y := 1 }
    rfl).trans (by decide)

theorem trapezoidDelta_bound (m_DeltaSize halfsize : wxSize) (hx : 1 ≤ halfsize.x)
    (hy : 1 ≤ halfsize.y) :
    (-(halfsize.y - 1) ≤ (trapezoidDelta m_DeltaSize halfsize).x ∧
      (trapezoidDelta m_DeltaSize halfsize).x ≤ halfsize.y - 1) ∧
    (-(halfsize.x - 1) ≤ (trapezoidDelta m_DeltaSize halfsize).y ∧
      (trapezoidDelta m_DeltaSize halfsize).y ≤ halfsize.x - 1) := by
  obtain ⟨dx, dy⟩ := m_DeltaSize
  obtain ⟨sx, sy⟩ := halfsize
  simp only at hx hy
  simp only [trapezoidDelta]
  generalize dx >>> (1 : Nat) = a
  generalize dy >>> (1 : Nat) = b
  split_ifs <;> simp only <;> simp only [not_and, not_le, not_lt] at * <;>
    refine ⟨⟨?_, ?_⟩, ?_, ?_⟩ <;> omega

/-- C8 fails on the code: for the trapezoid pad of size `(10,1)` with delta size `(2,0)`
the half-extents are `(5,0)` and the half-delta starts as `(1,0)`; the second clamp sets
`delta.x = halfsize.y - 1 = -1`, whose magnitude `1` exceeds the opposite half-extent `0`.
The same happens for delta size `(-2,0)`: the first clamp gives `1`, the second `-1`. -/
theorem trapezoidDelta_exceeds_zero_halfsize :
    (trapezoid 10 1 2 0).halfsize0 = { x := 5, y := 0 } ∧
    trapezoidDelta (trapezoid 10 1 2 0).m_DeltaSize (trapezoid 10 1 2 0).halfsize0 =
      { x := -1, y := 0 } ∧
    trapezoidDelta (trapezoid 10 1 (-2) 0).m_DeltaSize (trapezoid 10 1 (-2) 0).halfsize0 =
      { x := -1, y := 0 } ∧
    ¬ (trapezoidDelta (trapezoid 10 1 2 0).m_DeltaSize (trapezoid 10 1 2 0).halfsize0).deltaWithin
        (trapezoid 10 1 2 0).halfsize0 := by
  decide

/-- C9 fails on the code: the trapezoid pad of size `(10,1)` with delta size `(2,0)`, zero
inflate value and zero rotation, gets the corners `(-5,-1)`, `(-5,1)`, `(5,-1)`, `(5,1)`:
corner 0 has `y < 0` and corner 1 has `y > 0`, so both are across the horizontal centre
line. -/
theorem BuildPadPolygon_trapezoid_crosses_centerline (fp : FloatOps) (aCoord : Coord4) :
    BuildPadPolygon fp (trapezoid 10 1 2 0) aCoord {} 0 =
      { c0 := { x := -5, y := -1 }, c1 := { x := -5, y := 1 }, c2 := { x := 5, y := -1 },
        c3 := { x := 5, y := 1 } } ∧
    ¬ (BuildPadPolygon fp (trapezoid 10 1 2 0) aCoord {} 0).withinCenterlines := by
  rw [BuildPadPolygon_trapezoid_plain fp (trapezoid 10 1 2 0) aCoord rfl]
  decide

theorem applyOffset_basicShape_mirror (halfsize delta d corr : wxSize) :
    (applyOffset (basicShape halfsize delta) d corr).c3.x =
        -(applyOffset (basicShape halfsize delta) d corr).c0.x ∧
    (applyOffset (basicShape halfsize delta) d corr).c2.x =
        -(applyOffset (basicShape halfsize delta) d corr).c1.x ∧
    (applyOffset (basicShape halfsize delta) d corr).c1.y =
        -(applyOffset (basicShape halfsize delta) d corr).c0.y ∧
    (applyOffset (basicShape halfsize delta) d corr).c2.y =
        -(applyOffset (basicShape halfsize delta) d corr).c3.y := by
  simp only [applyOffset, basicShape]
  refine ⟨?_, ?_, ?_, ?_⟩ <;> ring

theorem clampCoords_within (c : Coord4) (h30 : c.c3.x = -c.c0.x) (h21 : c.c2.x = -c.c1.x)
    (h10 : c.c1.y = -c.c0.y) (h23 : c.c2.y = -c.c3.y) :
    (clampCoords c).withinCenterlines ∧
    (c.c0.x > 0 → (clampCoords c).c0.x = 0 ∧ (clampCoords c).c3.x = 0) ∧
    (c.c1.x > 0 → (clampCoords c).c1.x = 0 ∧ (clampCoords c).c2.x = 0) ∧
    (c.c0.y < 0 → (clampCoords c).c0.y = 0 ∧ (clampCoords c).c1.y = 0) ∧
    (c.c3.y < 0 → (clampCoords c).c3.y = 0 ∧ (clampCoords c).c2.y = 0) := by
  obtain ⟨⟨x0, y0⟩, ⟨x1, y1⟩, ⟨x2, y2⟩, ⟨x3, y3⟩⟩ := c
  simp only at h30 h21 h10 h23
  subst h30 h21 h10 h23
  simp only [clampCoords, Coord4.withinCenterlines]
  by_cases a : x0 > 0 <;> by_cases b : x1 > 0 <;> by_cases c : y0 < 0 <;>
    by_cases d : y3 < 0 <;> simp [a, b, c, d] <;> omega

/-- C10: for every trapezoid pad and every non-zero inflate value, whatever the rounded
slope corrections (`tanCorr`, `cosCorr`) are, the corners returned at rotation `0` do not
pass the centre lines: corners 0 and 1 have `x ≤ 0 ≤ x` of corners 3 and 2, corners 0 and 3
have `y ≥ 0 ≥ y` of corners 1 and 2.  Whenever a coordinate tested by the clamp overshoots
after the offset (`aCoord[0].x > 0`, `aCoord[1].x > 0`, `aCoord[0].y < 0` or
`aCoord[3].y < 0`), it and the coordinate of its paired corner are both `0` on return. -/
theorem BuildPadPolygon_trapezoid_inflate_within (fp : FloatOps) (pad : D_PAD)
    (aCoord : Coord4) (aInflateValue : wxSize) (hs : pad.GetShape = PAD_SHAPE_TRAPEZOID)
    (hi : aInflateValue.x ≠ 0 ∨ aInflateValue.y ≠ 0) :
    (BuildPadPolygon fp pad aCoord aInflateValue 0).withinCenterlines ∧
    ((offsetCoords fp pad pad.halfsize0 (trapezoidDelta pad.m_DeltaSize pad.halfsize0)
          aInflateValue).c0.x > 0 →
      (BuildPadPolygon fp pad aCoord aInflateValue 0).c0.x = 0 ∧
      (BuildPadPolygon fp pad aCoord aInflateValue 0).c3.x = 0) ∧
    ((offsetCoords fp pad pad.halfsize0 (trapezoidDelta pad.m_DeltaSize pad.halfsize0)
          aInflateValue).c1.x > 0 →
      (BuildPadPolygon fp pad aCoord aInflateValue 0).c1.x = 0 ∧
      (BuildPadPolygon fp pad aCoord aInflateValue 0).c2.x = 0) ∧
    ((offsetCoords fp pad pad.halfsize0 (trapezoidDelta pad.m_DeltaSize pad.halfsize0)
          aInflateValue).c0.y < 0 →
      (BuildPadPolygon fp pad aCoord aInflateValue 0).c0.y = 0 ∧
      (BuildPadPolygon fp pad aCoord aInflateValue 0).c1.y = 0) ∧
    ((offsetCoords fp pad pad.halfsize0 (trapezoidDelta pad.m_DeltaSize pad.halfsize0)
          aInflateValue).c3.y < 0 →
      (BuildPadPolygon fp pad aCoord aInflateValue 0).c3.y = 0 ∧
      (BuildPadPolygon fp pad aCoord aInflateValue 0).c2.y = 0) := by
  rw [BuildPadPolygon_trapezoid_offset fp pad aCoord aInflateValue hs hi]
  obtain ⟨h30, h21, h10, h23⟩ := applyOffset_basicShape_mirror pad.halfsize0
    (trapezoidDelta pad.m_DeltaSize pad.halfsize0)
    (offsetTerms fp pad (trapezoidDelta pad.m_DeltaSize pad.halfsize0) aInflateValue).1
    (offsetTerms fp pad (trapezoidDelta pad.m_DeltaSize pad.halfsize0) aInflateValue).2
  exact clampCoords_within _ h30 h21 h10 h23

/-- Witness of C10: a `10 x 6` trapezoid with delta size `(0,4)` deflated by `(-9,1)`: the
left corners would land at `x = 2` and `x = 6`; all four `x` coordinates are `0` on
return. -/
theorem BuildPadPolygon_trapezoid_inflate_within_witness :
    (offsetCoords sampleFloatOps (trapezoid 10 6 0 4) (trapezoid 10 6 0 4).halfsize0
        (trapezoidDelta (trapezoid 10 6 0 4).m_DeltaSize (trapezoid 10 6 0 4).halfsize0)
        { x := -9, y := 1 }).c0.x = 2 ∧
    (BuildPadPolygon sampleFloatOps (trapezoid 10 6 0 4) Coord4.zero
        { x := -9, y := 1 } 0).withinCenterlines :=
  ⟨by decide,
    (BuildPadPolygon_trapezoid_inflate_within sampleFloatOps (trapezoid 10 6 0 4) Coord4.zero
      { x := -9, y := 1 } rfl (by decide)).1⟩

end D_PAD

namespace D_PAD

open PAD_SHAPE_T

theorem pointSymmetric_of_opposite (c : Coord4) (h02 : c.c2 = c.c0.neg)
    (h13 : c.c3 = c.c1.neg) : c.pointSymmetric := by
  obtain ⟨⟨x0, y0⟩, ⟨x1, y1⟩, a2, a3⟩ := c
  simp only at h02 h13
  subst h02 h13
  intro p hp
  simp only [Coord4.toList, List.mem_cons, List.mem_singleton, List.not_mem_nil,
    or_false] at hp ⊢
  rcases hp with h | h | h | h <;> subst h <;> simp [wxPoint.neg]

theorem clampCoords_box_pointSymmetric (a b : Int) :
    (clampCoords
      { c0 := { x := a, y := b }, c1 := { x := a, y := -b },
        c2 := { x := -a, y := -b }, c3 := { x := -a, y := b } }).pointSymmetric := by
  apply pointSymmetric_of_opposite
  · simp only [clampCoords, wxPoint.neg]
    by_cases ha : a > 0 <;> by_cases hb : b < 0 <;> simp [ha, hb]
  · simp only [clampCoords, wxPoint.neg]
    by_cases ha : a > 0 <;> by_cases hb : b < 0 <;> simp [ha, hb]

/-- C11, as stated, fails: the trapezoid pad of size `(10,6)` with delta size `(0,4)`, zero
inflate value and zero rotation, gets the corners `(-7,3)`, `(-3,-3)`, `(3,-3)`, `(7,3)`;
the point `(7,-3)`, opposite to corner 0, is not a corner. -/
theorem BuildPadPolygon_trapezoid_not_pointSymmetric :
    BuildPadPolygon sampleFloatOps (trapezoid 10 6 0 4) Coord4.zero {} 0 =
      { c0 := { x := -7, y := 3 }, c1 := { x := -3, y := -3 }, c2 := { x := 3, y := -3 },
        c3 := { x := 7, y := 3 } } ∧
    ¬ (BuildPadPolygon sampleFloatOps (trapezoid 10 6 0 4) Coord4.zero {} 0).pointSymmetric := by
  decide

/-- C11, amended: for every rectangular pad, and for every trapezoid pad whose half-delta
after the clamp is `(0,0)`, whatever the size and the inflate value, the outline built at
rotation `0` is symmetric about the local origin: with every corner `p`, the point `-p` is
a corner. -/
theorem BuildPadPolygon_pointSymmetric (fp : FloatOps) (pad : D_PAD) (aCoord : Coord4)
    (aInflateValue : wxSize)
    (hs : pad.GetShape = PAD_SHAPE_RECT ∨
      (pad.GetShape = PAD_SHAPE_TRAPEZOID ∧
        trapezoidDelta pad.m_DeltaSize pad.halfsize0 = {})) :
    (BuildPadPolygon fp pad aCoord aInflateValue 0).pointSymmetric := by
  rcases hs with hs | ⟨hs, hd⟩
  · rw [BuildPadPolygon_rect fp pad aCoord aInflateValue hs]
    apply pointSymmetric_of_opposite <;> simp [basicShape, wxPoint.neg]
  · by_cases hi : aInflateValue.x ≠ 0 ∨ aInflateValue.y ≠ 0
    · rw [BuildPadPolygon_trapezoid_offset fp pad aCoord aInflateValue hs hi, hd]
      have h := clampCoords_box_pointSymmetric (-pad.halfsize0.x - aInflateValue.x)
        (pad.halfsize0.y + aInflateValue.y)
      have e : offsetCoords fp pad pad.halfsize0 {} aInflateValue =
          { c0 := { x := -pad.halfsize0.x - aInflateValue.x,
                    y := pad.halfsize0.y + aInflateValue.y }
            c1 := { x := -pad.halfsize0.x - aInflateValue.x,
                    y := -(pad.halfsize0.y + aInflateValue.y) }
            c2 := { x := -(-pad.halfsize0.x - aInflateValue.x),
                    y := -(pad.halfsize0.y + aInflateValue.y) }
            c3 := { x := -(-pad.halfsize0.x - aInflateValue.x),
                    y := pad.halfsize0.y + aInflateValue.y } } := by
        simp only [offsetCoords, offsetTerms, applyOffset, basicShape, ne_eq,
          not_true_eq_false, if_false, Coord4.mk.injEq, wxPoint.mk.injEq]
        refine ⟨⟨?_, ?_⟩, ⟨?_, ?_⟩, ⟨?_, ?_⟩, ?_, ?_⟩ <;> ring
      rw [e]
      exact h
    · have hx : aInflateValue.x = 0 := by
        by_contra h; exact hi (Or.inl h)
      have hy : aInflateValue.y = 0 := by
        by_contra h; exact hi (Or.inr h)
      have e : aInflateValue = {} := by
        cases aInflateValue; simp_all
      rw [e, BuildPadPolygon_trapezoid_plain fp pad aCoord hs, hd]
      apply pointSymmetric_of_opposite <;> simp [basicShape, wxPoint.neg]

/-- Witness of the amended C11: a `10 x 6` rectangular pad deflated by `(-1,2)`. -/
theorem BuildPadPolygon_pointSymmetric_witness :
    (BuildPadPolygon sampleFloatOps (rect 10 6) Coord4.zero
      { x := -1, y := 2 } 0).pointSymmetric :=
  BuildPadPolygon_pointSymmetric sampleFloatOps (rect 10 6) Coord4.zero { x := -1, y := 2 }
    (Or.inl rfl)

end D_PAD

namespace D_PAD

theorem tdiv_two_of_nonneg {a : Int} (h : 0 ≤ a) : Int.tdiv a 2 = a / 2 :=
  Int.tdiv_eq_ediv h (by decide)

theorem BuildSegmentFromOvalShape_horizontal (fp : FloatOps) (pad : D_PAD) (aMargin : wxSize)
    (h : pad.m_Size.y < pad.m_Size.x) :
    BuildSegmentFromOvalShape fp pad 0 aMargin =
      { aSegStart := { x := -((pad.m_Size.x - pad.m_Size.y) / 2) - aMargin.x, y := 0 }
        aSegEnd := { x := (pad.m_Size.x - pad.m_Size.y) / 2 + aMargin.x, y := 0 }
        width := pad.m_Size.y + aMargin.y * 2 } := by
  have e : Int.tdiv (pad.m_Size.x - pad.m_Size.y) 2 = (pad.m_Size.x - pad.m_Size.y) / 2 :=
    tdiv_two_of_nonneg (by omega)
  simp [BuildSegmentFromOvalShape, h, e]

theorem BuildSegmentFromOvalShape_vertical (fp : FloatOps) (pad : D_PAD) (aMargin : wxSize)
    (h : pad.m_Size.x ≤ pad.m_Size.y) :
    BuildSegmentFromOvalShape fp pad 0 aMargin =
      { aSegStart := { x := 0, y := -((pad.m_Size.y - pad.m_Size.x) / 2) - aMargin.y }
        aSegEnd := { x := 0, y := (pad.m_Size.y - pad.m_Size.x) / 2 + aMargin.y }
        width := pad.m_Size.x + aMargin.x * 2 } := by
  have e : Int.tdiv (pad.m_Size.y - pad.m_Size.x) 2 = (pad.m_Size.y - pad.m_Size.x) / 2 :=
    tdiv_two_of_nonneg (by omega)
  simp [BuildSegmentFromOvalShape, not_lt.mpr h, e]

/-- C12, as stated, fails: for the oval pad of size `(5,2)`, zero margin and zero rotation,
the segment runs from `(-1,0)` to `(1,0)`: its length is `2`, not `5 - 2 = 3` (squared
length `4`, not `9`). -/
theorem BuildSegmentFromOvalShape_odd_difference :
    BuildSegmentFromOvalShape sampleFloatOps (oval 5 2) 0 {} =
      { aSegStart := { x := -1, y := 0 }, aSegEnd := { x := 1, y := 0 }, width := 2 } ∧
    wxPoint.distSq (BuildSegmentFromOvalShape sampleFloatOps (oval 5 2) 0 {}).aSegStart
      (BuildSegmentFromOvalShape sampleFloatOps (oval 5 2) 0 {}).aSegEnd ≠ (5 - 2) ^ 2 := by
  decide

/-- C12, amended: for every pad of size `(w,h)` with `h < w`, zero margin and zero
rotation, the segment runs from `(-d, 0)` to `(d, 0)` with `d = (w - h) div 2`, so its
length is `2 * ((w - h) div 2)`, which is `w - h` when `w - h` is even; the returned stroke
width is `h`. -/
theorem BuildSegmentFromOvalShape_length (fp : FloatOps) (pad : D_PAD)
    (h : pad.m_Size.y < pad.m_Size.x) :
    (BuildSegmentFromOvalShape fp pad 0 {}).aSegStart =
        { x := -((pad.m_Size.x - pad.m_Size.y) / 2), y := 0 } ∧
    (BuildSegmentFromOvalShape fp pad 0 {}).aSegEnd =
        { x := (pad.m_Size.x - pad.m_Size.y) / 2, y := 0 } ∧
    wxPoint.distSq (BuildSegmentFromOvalShape fp pad 0 {}).aSegStart
        (BuildSegmentFromOvalShape fp pad 0 {}).aSegEnd =
      (2 * ((pad.m_Size.x - pad.m_Size.y) / 2)) ^ 2 ∧
    ((pad.m_Size.x - pad.m_Size.y) % 2 = 0 →
      wxPoint.distSq (BuildSegmentFromOvalShape fp pad 0 {}).aSegStart
          (BuildSegmentFromOvalShape fp pad 0 {}).aSegEnd =
        (pad.m_Size.x - pad.m_Size.y) ^ 2) ∧
    (BuildSegmentFromOvalShape fp pad 0 {}).width = pad.m_Size.y := by
  rw [BuildSegmentFromOvalShape_horizontal fp pad {} h]
  have e : ((pad.m_Size.x - pad.m_Size.y) / 2 - -((pad.m_Size.x - pad.m_Size.y) / 2)) =
      2 * ((pad.m_Size.x - pad.m_Size.y) / 2) := by ring
  refine ⟨by simp, by simp, by simp [wxPoint.distSq, e], ?_, by simp⟩
  intro hev
  have e2 : 2 * ((pad.m_Size.x - pad.m_Size.y) / 2) = pad.m_Size.x - pad.m_Size.y := by omega
  simp [wxPoint.distSq, e, e2]

/-- Witness of the amended C12: the oval pad of size `(10,4)` gets a segment of length
`6` (squared length `36`) and stroke width `4`. -/
theorem BuildSegmentFromOvalShape_length_witness :
    wxPoint.distSq (BuildSegmentFromOvalShape sampleFloatOps (oval 10 4) 0 {}).aSegStart
        (BuildSegmentFromOvalShape sampleFloatOps (oval 10 4) 0 {}).aSegEnd = (10 - 4) ^ 2 ∧
    (BuildSegmentFromOvalShape sampleFloatOps (oval 10 4) 0 {}).width = 4 :=
  ⟨(BuildSegmentFromOvalShape_length sampleFloatOps (oval 10 4) (by decide)).2.2.2.1
      (by decide),
    (BuildSegmentFromOvalShape_length sampleFloatOps (oval 10 4) (by decide)).2.2.2.2⟩

/-- C13, as stated, fails: for the oval pad of size `(10,4)` and the margin `(1,1)` the
segment runs from `(-4,0)` to `(4,0)`, whereas for margin `0` it runs from `(-3,0)` to
`(3,0)`: the end points move with the margin (the stroke width is `4 + 2 = 6`). -/
theorem BuildSegmentFromOvalShape_margin_moves_ends :
    BuildSegmentFromOvalShape sampleFloatOps (oval 10 4) 0 { x := 1, y := 1 } =
      { aSegStart := { x := -4, y := 0 }, aSegEnd := { x := 4, y := 0 }, width := 6 } ∧
    BuildSegmentFromOvalShape sampleFloatOps (oval 10 4) 0 {} =
      { aSegStart := { x := -3, y := 0 }, aSegEnd := { x := 3, y := 0 }, width := 4 } ∧
    (BuildSegmentFromOvalShape sampleFloatOps (oval 10 4) 0 { x := 1, y := 1 }).aSegStart ≠
      (BuildSegmentFromOvalShape sampleFloatOps (oval 10 4) 0 {}).aSegStart := by
  decide

/-- C13, amended: for every pad of size `(w,h)` with `w ≠ h` and every isotropic margin
`(m,m)`, at rotation `0` the segment lies on the long axis, centred at the origin, with
its end points at `(|w - h| div 2) + m` from the origin (each `m` further out than for
margin `0`), and the returned stroke width is `min w h + 2 * m`. -/
theorem BuildSegmentFromOvalShape_isotropic_margin (fp : FloatOps) (pad : D_PAD) (m : Int)
    (hne : pad.m_Size.x ≠ pad.m_Size.y) :
    (pad.m_Size.y < pad.m_Size.x →
      BuildSegmentFromOvalShape fp pad 0 { x := m, y := m } =
        { aSegStart := { x := -((pad.m_Size.x - pad.m_Size.y) / 2 + m), y := 0 }
          aSegEnd := { x := (pad.m_Size.x - pad.m_Size.y) / 2 + m, y := 0 }
          width := pad.m_Size.y + 2 * m }) ∧
    (pad.m_Size.x < pad.m_Size.y →
      BuildSegmentFromOvalShape fp pad 0 { x := m, y := m } =
        { aSegStart := { x := 0, y := -((pad.m_Size.y - pad.m_Size.x) / 2 + m) }
          aSegEnd := { x := 0, y := (pad.m_Size.y - pad.m_Size.x) / 2 + m }
          width := pad.m_Size.x + 2 * m }) ∧
    (BuildSegmentFromOvalShape fp pad 0 { x := m, y := m }).width =
      min pad.m_Size.x pad.m_Size.y + 2 * m := by
  refine ⟨fun h => ?_, fun h => ?_, ?_⟩
  · rw [BuildSegmentFromOvalShape_horizontal fp pad _ h]
    have e1 : -((pad.m_Size.x - pad.m_Size.y) / 2) - m =
        -((pad.m_Size.x - pad.m_Size.y) / 2 + m) := by ring
    have e2 : pad.m_Size.y + m * 2 = pad.m_Size.y + 2 * m := by ring
    simp only [e1, e2]
  · rw [BuildSegmentFromOvalShape_vertical fp pad _ (le_of_lt h)]
    have e1 : -((pad.m_Size.y - pad.m_Size.x) / 2) - m =
        -((pad.m_Size.y - pad.m_Size.x) / 2 + m) := by ring
    have e2 : pad.m_Size.x + m * 2 = pad.m_Size.x + 2 * m := by ring
    simp only [e1, e2]
  · rcases lt_or_gt_of_ne hne with h | h
    · rw [BuildSegmentFromOvalShape_vertical fp pad _ (le_of_lt h), min_eq_left (le_of_lt h)]
      simp only; ring
    · rw [BuildSegmentFromOvalShape_horizontal fp pad _ h, min_eq_right (le_of_lt h)]
      simp only; ring

/-- Witness of the amended C13: the oval pad of size `(10,4)` with margin `(1,1)`. -/
theorem BuildSegmentFromOvalShape_isotropic_margin_witness :
    BuildSegmentFromOvalShape sampleFloatOps (oval 10 4) 0 { x := 1, y := 1 } =
      { aSegStart := { x := -4, y := 0 }, aSegEnd := { x := 4, y := 0 }, width := 6 } :=
  ((BuildSegmentFromOvalShape_isotropic_margin sampleFloatOps (oval 10 4) 1
    (by decide)).1 (by decide)).trans (by decide)

end D_PAD

namespace D_PAD

/-- C14: for every `w ≠ h`, with zero margin and zero rotation, the segment built for the
pad of size `(h,w)` is the segment built for size `(w,h)` turned by 90 degrees about the
origin, `(x,y)` going to `(-y,x)`: the two end points of the one, turned, are the two end
points of the other, and the stroke width is the same.  For `h < w` the start goes to the
start and the end to the end; for `w < h` the two end points change roles. -/
theorem BuildSegmentFromOvalShape_swap (fp : FloatOps) (pad : D_PAD)
    (hne : pad.m_Size.x ≠ pad.m_Size.y) :
    (BuildSegmentFromOvalShape fp
        { pad with m_Size := { x := pad.m_Size.y, y := pad.m_Size.x } } 0 {}).isRot90Of
      (BuildSegmentFromOvalShape fp pad 0 {}) := by
  rcases lt_or_gt_of_ne hne with h | h
  · rw [BuildSegmentFromOvalShape_vertical fp pad _ (le_of_lt h),
      BuildSegmentFromOvalShape_horizontal fp _ _ (by simpa using h)]
    simp [OvalSegment.isRot90Of, wxPoint.rot90]
  · rw [BuildSegmentFromOvalShape_horizontal fp pad _ h,
      BuildSegmentFromOvalShape_vertical fp _ _ (by simpa using le_of_lt h)]
    simp [OvalSegment.isRot90Of, wxPoint.rot90]

/-- Witness of C14: the pads of size `(5,2)` and `(2,5)`. -/
theorem BuildSegmentFromOvalShape_swap_witness :
    (BuildSegmentFromOvalShape sampleFloatOps
        { oval 5 2 with m_Size := { x := (oval 5 2).m_Size.y, y := (oval 5 2).m_Size.x } }
        0 {}).isRot90Of
      (BuildSegmentFromOvalShape sampleFloatOps (oval 5 2) 0 {}) :=
  BuildSegmentFromOvalShape_swap sampleFloatOps (oval 5 2) (by decide)

/-- C15, as stated, fails: for the pad of size `(10,10)` and the margin `(1,1)`, at
rotation `0`, the segment runs from `(0,-1)` to `(0,1)`: it is not of zero length. -/
theorem BuildSegmentFromOvalShape_circle_with_margin :
    BuildSegmentFromOvalShape sampleFloatOps (oval 10 10) 0 { x := 1, y := 1 } =
      { aSegStart := { x := 0, y := -1 }, aSegEnd := { x := 0, y := 1 }, width := 12 } ∧
    (BuildSegmentFromOvalShape sampleFloatOps (oval 10 10) 0 { x := 1, y := 1 }).aSegStart ≠
      (BuildSegmentFromOvalShape sampleFloatOps (oval 10 10) 0 { x := 1, y := 1 }).aSegEnd := by
  decide

/-- C15, amended: for every pad with `w = h`, at rotation `0`, the segment runs from
`(0, -my)` to `(0, my)` where `my` is the `y` margin, and the stroke width is `w + 2 * mx`;
so for every margin whose `y` part is `0` the segment has zero length,
`aSegStart = aSegEnd = (0,0)`, also under a rotation that leaves the origin in place. -/
theorem BuildSegmentFromOvalShape_circle (fp : FloatOps) (pad : D_PAD) (aRotation : ℚ)
    (aMargin : wxSize) (hwh : pad.m_Size.x = pad.m_Size.y) :
    BuildSegmentFromOvalShape fp pad 0 aMargin =
      { aSegStart := { x := 0, y := -aMargin.y }, aSegEnd := { x := 0, y := aMargin.y },
        width := pad.m_Size.x + 2 * aMargin.x } ∧
    (aMargin.y = 0 →
      (aRotation = 0 ∨ fp.RotatePoint { x := 0, y := 0 } aRotation = { x := 0, y := 0 }) →
      (BuildSegmentFromOvalShape fp pad aRotation aMargin).aSegStart = { x := 0, y := 0 } ∧
      (BuildSegmentFromOvalShape fp pad aRotation aMargin).aSegEnd = { x := 0, y := 0 }) := by
  have hd : pad.m_Size.y - pad.m_Size.x = 0 := by omega
  have hlt : ¬ pad.m_Size.y < pad.m_Size.x := by omega
  constructor
  · rw [BuildSegmentFromOvalShape_vertical fp pad _ (le_of_eq hwh), hd]
    have e : pad.m_Size.x + aMargin.x * 2 = pad.m_Size.x + 2 * aMargin.x := by ring
    simp [e]
  · intro hm hr
    have t : Int.tdiv 0 2 = 0 := by decide
    by_cases h0 : aRotation = 0
    · subst h0
      simp [BuildSegmentFromOvalShape, hlt, hd, hm, t]
    · rcases hr with hr | hr
      · exact absurd hr h0
      · simp [BuildSegmentFromOvalShape, hlt, hd, hm, t, h0, hr]

/-- Witness of the amended C15: the pad of size `(10,10)` with margin `(1,0)`. -/
theorem BuildSegmentFromOvalShape_circle_witness :
    (BuildSegmentFromOvalShape sampleFloatOps (oval 10 10) 0 { x := 1, y := 0 }).aSegStart =
        { x := 0, y := 0 } ∧
    (BuildSegmentFromOvalShape sampleFloatOps (oval 10 10) 0 { x := 1, y := 0 }).aSegEnd =
        { x := 0, y := 0 } :=
  (BuildSegmentFromOvalShape_circle sampleFloatOps (oval 10 10) 0 { x := 1, y := 0 } rfl).2
    rfl (Or.inl rfl)

end D_PAD

/-! ## Properties of the draw commands -/

section Traces

variable {Color : Type}

theorem commandsOf_append (pass : DrawPass) (l₁ l₂ : List (DrawPass × DrawCmd Color)) :
    commandsOf pass (l₁ ++ l₂) = commandsOf pass l₁ ++ commandsOf pass l₂ := by
  simp [commandsOf]

theorem commandsOf_eq_nil (pass : DrawPass) (l : List (DrawPass × DrawCmd Color))
    (h : ∀ e ∈ l, e.1 ≠ pass) : commandsOf pass l = [] := by
  simp only [commandsOf, List.map_eq_nil_iff, List.filter_eq_nil_iff]
  intro e he
  simpa using h e he

theorem commandsOf_eq_map (pass : DrawPass) (l : List (DrawPass × DrawCmd Color))
    (h : ∀ e ∈ l, e.1 = pass) : commandsOf pass l = l.map Prod.snd := by
  simp only [commandsOf]
  congr 1
  rw [List.filter_eq_self]
  intro e he
  simpa using h e he

theorem inPassOrder_of_rank (l : List (DrawPass × DrawCmd Color)) (k : Nat)
    (h : ∀ e ∈ l, e.1.rank = k) : inPassOrder l := by
  apply List.pairwise_of_forall_mem_list
  intro a ha b hb
  rw [h a ha, h b hb]

theorem inPassOrder_append (l₁ l₂ : List (DrawPass × DrawCmd Color)) (k : Nat)
    (p₁ : inPassOrder l₁) (p₂ : inPassOrder l₂) (h₁ : ∀ e ∈ l₁, e.1.rank ≤ k)
    (h₂ : ∀ e ∈ l₂, k ≤ e.1.rank) : inPassOrder (l₁ ++ l₂) := by
  unfold inPassOrder
  rw [List.pairwise_append]
  exact ⟨p₁, p₂, fun a ha b hb => le_trans (h₁ a ha) (h₂ b hb)⟩

/-- A trace splits into the commands of one part followed by the commands of another. -/
theorem split_props (l A B : List (DrawPass × DrawCmd Color)) (s t : DrawPass)
    (hst : s.rank ≤ t.rank) (e : l = A ++ B) (hA : ∀ e ∈ A, e.1 = s) (hB : ∀ e ∈ B, e.1 = t) :
    (∀ e ∈ l, e.1 = s ∨ e.1 = t) ∧ inPassOrder l := by
  subst e
  constructor
  · intro x hx
    rcases List.mem_append.mp hx with h | h
    · exact Or.inl (hA x h)
    · exact Or.inr (hB x h)
  · apply inPassOrder_append A B s.rank
    · exact inPassOrder_of_rank A s.rank fun x hx => by rw [hA x hx]
    · exact inPassOrder_of_rank B t.rank fun x hx => by rw [hB x hx]
    · intro x hx; rw [hA x hx]
    · intro x hx; rw [hB x hx]; exact hst

end Traces

namespace D_PAD

variable {Color : Type}

theorem printCircle_props (ops : ShapeOps Color) (aDrawInfo : PAD_DRAWINFO Color)
    (shape_pos : wxPoint) (halfsize : wxSize) :
    (∀ e ∈ printCircle ops aDrawInfo shape_pos halfsize,
      e.1 = DrawPass.body ∨ e.1 = DrawPass.clearance) ∧
    inPassOrder (printCircle ops aDrawInfo shape_pos halfsize) := by
  refine split_props _ _ _ DrawPass.body DrawPass.clearance (by decide) rfl ?_ ?_
  · split_ifs <;> simp
  · split_ifs <;> simp

theorem printOval_props (ops : ShapeOps Color) (pad : D_PAD) (aDrawInfo : PAD_DRAWINFO Color)
    (shape_pos : wxPoint) (angle : ℚ) :
    (∀ e ∈ printOval ops pad aDrawInfo shape_pos angle,
      e.1 = DrawPass.body ∨ e.1 = DrawPass.clearance) ∧
    inPassOrder (printOval ops pad aDrawInfo shape_pos angle) := by
  refine split_props _ _ _ DrawPass.body DrawPass.clearance (by decide) rfl ?_ ?_
  · split_ifs <;> simp
  · split_ifs <;> simp

theorem printRectTrapezoid_props (ops : ShapeOps Color) (pad : D_PAD) (coord : Coord4)
    (aDrawInfo : PAD_DRAWINFO Color) (shape_pos : wxPoint) (angle : ℚ) :
    (∀ e ∈ printRectTrapezoid ops pad coord aDrawInfo shape_pos angle,
      e.1 = DrawPass.body ∨ e.1 = DrawPass.clearance) ∧
    inPassOrder (printRectTrapezoid ops pad coord aDrawInfo shape_pos angle) := by
  refine split_props _ _ _ DrawPass.body DrawPass.clearance (by decide) rfl ?_ ?_
  · simp
  · intro e he
    split_ifs at he
    · dsimp only at he
      split at he
      · simp at he
      · split_ifs at he <;> simp_all
    · simp at he

theorem printRoundRect_props (ops : ShapeOps Color) (pad : D_PAD)
    (aDrawInfo : PAD_DRAWINFO Color) (shape_pos : wxPoint) :
    (∀ e ∈ printRoundRect ops pad aDrawInfo shape_pos,
      e.1 = DrawPass.body ∨ e.1 = DrawPass.clearance) ∧
    inPassOrder (printRoundRect ops pad aDrawInfo shape_pos) := by
  refine split_props _ _ _ DrawPass.body DrawPass.clearance (by decide) rfl ?_ ?_
  · simp
  · split_ifs <;> simp

theorem printCustom_props (ops : ShapeOps Color) (pad : D_PAD)
    (aDrawInfo : PAD_DRAWINFO Color) (halfsize : wxSize) :
    (∀ e ∈ printCustom ops pad aDrawInfo halfsize,
      e.1 = DrawPass.body ∨ e.1 = DrawPass.clearance) ∧
    inPassOrder (printCustom ops pad aDrawInfo halfsize) := by
  refine split_props _ _ _ DrawPass.body DrawPass.clearance (by decide) rfl ?_ ?_
  · intro e he
    rcases List.mem_append.mp he with h | h
    · split_ifs at h <;> simp_all
    · obtain ⟨q, _, rfl⟩ := List.mem_map.mp h
      rfl
  · intro e he
    split_ifs at he <;>
      first
        | (obtain ⟨q, _, rfl⟩ := List.mem_map.mp he; rfl)
        | simp at he

theorem shapePass_props (ops : ShapeOps Color) (pad : D_PAD) (coord : Coord4)
    (aDrawInfo : PAD_DRAWINFO Color) :
    (∀ e ∈ shapePass ops pad coord aDrawInfo,
      e.1 = DrawPass.body ∨ e.1 = DrawPass.clearance) ∧
    inPassOrder (shapePass ops pad coord aDrawInfo) := by
  unfold shapePass
  split
  · exact printCircle_props _ _ _ _
  · exact printOval_props _ _ _ _ _
  · exact printRectTrapezoid_props _ _ _ _ _ _
  · exact printRectTrapezoid_props _ _ _ _ _ _
  · exact printRoundRect_props _ _ _ _
  · exact printRoundRect_props _ _ _ _
  · exact printCustom_props _ _ _ _

theorem holePass_tags (ops : ShapeOps Color) (pad : D_PAD) (aDrawInfo : PAD_DRAWINFO Color) :
    ∀ e ∈ holePass ops pad aDrawInfo, e.1 = DrawPass.hole := by
  intro e he
  cases hd : pad.GetDrillShape <;>
    simp only [holePass, hd] at he <;>
    split_ifs at he <;>
    simp at he <;>
    aesop

theorem noConnectPass_tags (pad : D_PAD) (aDrawInfo : PAD_DRAWINFO Color) :
    ∀ e ∈ noConnectPass pad aDrawInfo, e.1 = DrawPass.noConnect := by
  intro e he
  unfold noConnectPass at he
  simp only at he
  split_ifs at he <;> simp at he <;> aesop

theorem padNumberPass_tags (ops : ShapeOps Color) (pad : D_PAD)
    (aDrawInfo : PAD_DRAWINFO Color) (shape_pos : wxPoint) (angle : ℚ) :
    ∀ e ∈ padNumberPass ops pad aDrawInfo shape_pos angle, e.1 = DrawPass.padNumber := by
  intro e he
  unfold padNumberPass at he
  simp only at he
  split_ifs at he <;> simp at he <;> aesop

theorem netNamePass_tags (ops : ShapeOps Color) (pad : D_PAD)
    (aDrawInfo : PAD_DRAWINFO Color) (shape_pos : wxPoint) (angle : ℚ) :
    ∀ e ∈ netNamePass ops pad aDrawInfo shape_pos angle, e.1 = DrawPass.netName := by
  intro e he
  unfold netNamePass at he
  simp only at he
  split_ifs at he <;> simp at he <;> aesop

theorem textPass_props (ops : ShapeOps Color) (pad : D_PAD) (aDrawInfo : PAD_DRAWINFO Color)
    (shape_pos : wxPoint) (angle : ℚ) :
    (∀ e ∈ textPass ops pad aDrawInfo shape_pos angle,
      e.1 = DrawPass.padNumber ∨ e.1 = DrawPass.netName) ∧
    inPassOrder (textPass ops pad aDrawInfo shape_pos angle) := by
  unfold textPass
  split_ifs with h0
  · exact ⟨by simp, by simp [inPassOrder]⟩
  · exact split_props _ _ _ DrawPass.padNumber DrawPass.netName (by decide) rfl
      (padNumberPass_tags _ _ _ _ _) (netNamePass_tags _ _ _ _ _)

end D_PAD

namespace D_PAD

variable {Color : Type}

open PAD_SHAPE_T

theorem textPass_eq (ops : ShapeOps Color) (pad : D_PAD) (aDrawInfo : PAD_DRAWINFO Color)
    (shape_pos : wxPoint) (angle : ℚ) :
    textPass ops pad aDrawInfo shape_pos angle =
      padNumberPass ops pad aDrawInfo shape_pos angle ++
        netNamePass ops pad aDrawInfo shape_pos angle := by
  unfold textPass
  split_ifs with h0
  · have h1 : aDrawInfo.m_Display_padnum = false := by
      cases hp : aDrawInfo.m_Display_padnum <;> simp_all
    have h2 : aDrawInfo.m_Display_netname = false := by
      cases hn : aDrawInfo.m_Display_netname <;> simp_all
    simp [padNumberPass, netNamePass, shortnameLen, h1, h2]
  · rfl

theorem commandsOf_body_PrintShape (ops : ShapeOps Color) (pad : D_PAD) (coord : Coord4)
    (aDrawInfo : PAD_DRAWINFO Color) :
    commandsOf DrawPass.body (PrintShape ops pad coord aDrawInfo) =
      commandsOf DrawPass.body (shapePass ops pad coord aDrawInfo) := by
  unfold PrintShape
  rw [commandsOf_append, commandsOf_append, commandsOf_append,
    commandsOf_eq_nil DrawPass.body (holePass ops pad aDrawInfo),
    commandsOf_eq_nil DrawPass.body (noConnectPass pad aDrawInfo),
    commandsOf_eq_nil DrawPass.body (textPass ops pad aDrawInfo _ _)]
  · simp
  · intro e he
    rcases (textPass_props ops pad aDrawInfo _ _).1 e he with h | h <;> rw [h] <;> decide
  · intro e he
    rw [noConnectPass_tags pad aDrawInfo e he]; decide
  · intro e he
    rw [holePass_tags ops pad aDrawInfo e he]; decide

theorem commandsOf_hole_PrintShape (ops : ShapeOps Color) (pad : D_PAD) (coord : Coord4)
    (aDrawInfo : PAD_DRAWINFO Color) :
    commandsOf DrawPass.hole (PrintShape ops pad coord aDrawInfo) =
      (holePass ops pad aDrawInfo).map Prod.snd := by
  unfold PrintShape
  rw [commandsOf_append, commandsOf_append, commandsOf_append,
    commandsOf_eq_nil DrawPass.hole (shapePass ops pad coord aDrawInfo),
    commandsOf_eq_map DrawPass.hole (holePass ops pad aDrawInfo) (holePass_tags _ _ _),
    commandsOf_eq_nil DrawPass.hole (noConnectPass pad aDrawInfo),
    commandsOf_eq_nil DrawPass.hole (textPass ops pad aDrawInfo _ _)]
  · simp
  · intro e he
    rcases (textPass_props ops pad aDrawInfo _ _).1 e he with h | h <;> rw [h] <;> decide
  · intro e he
    rw [noConnectPass_tags pad aDrawInfo e he]; decide
  · intro e he
    rcases (shapePass_props ops pad coord aDrawInfo).1 e he with h | h <;> rw [h] <;> decide

theorem commandsOf_padNumber_PrintShape (ops : ShapeOps Color) (pad : D_PAD) (coord : Coord4)
    (aDrawInfo : PAD_DRAWINFO Color) :
    commandsOf DrawPass.padNumber (PrintShape ops pad coord aDrawInfo) =
      (padNumberPass ops pad aDrawInfo (ops.ShapePos - aDrawInfo.m_Offset)
        pad.m_Orient).map Prod.snd := by
  unfold PrintShape
  rw [textPass_eq, commandsOf_append, commandsOf_append, commandsOf_append, commandsOf_append,
    commandsOf_eq_nil DrawPass.padNumber (shapePass ops pad coord aDrawInfo),
    commandsOf_eq_nil DrawPass.padNumber (holePass ops pad aDrawInfo),
    commandsOf_eq_nil DrawPass.padNumber (noConnectPass pad aDrawInfo),
    commandsOf_eq_map DrawPass.padNumber (padNumberPass ops pad aDrawInfo _ _)
      (padNumberPass_tags _ _ _ _ _),
    commandsOf_eq_nil DrawPass.padNumber (netNamePass ops pad aDrawInfo _ _)]
  · simp
  · intro e he
    rw [netNamePass_tags ops pad aDrawInfo _ _ e he]; decide
  · intro e he
    rw [noConnectPass_tags pad aDrawInfo e he]; decide
  · intro e he
    rw [holePass_tags ops pad aDrawInfo e he]; decide
  · intro e he
    rcases (shapePass_props ops pad coord aDrawInfo).1 e he with h | h <;> rw [h] <;> decide

theorem commandsOf_netName_PrintShape (ops : ShapeOps Color) (pad : D_PAD) (coord : Coord4)
    (aDrawInfo : PAD_DRAWINFO Color) :
    commandsOf DrawPass.netName (PrintShape ops pad coord aDrawInfo) =
      (netNamePass ops pad aDrawInfo (ops.ShapePos - aDrawInfo.m_Offset)
        pad.m_Orient).map Prod.snd := by
  unfold PrintShape
  rw [textPass_eq, commandsOf_append, commandsOf_append, commandsOf_append, commandsOf_append,
    commandsOf_eq_nil DrawPass.netName (shapePass ops pad coord aDrawInfo),
    commandsOf_eq_nil DrawPass.netName (holePass ops pad aDrawInfo),
    commandsOf_eq_nil DrawPass.netName (noConnectPass pad aDrawInfo),
    commandsOf_eq_nil DrawPass.netName (padNumberPass ops pad aDrawInfo _ _),
    commandsOf_eq_map DrawPass.netName (netNamePass ops pad aDrawInfo _ _)
      (netNamePass_tags _ _ _ _ _)]
  · simp
  · intro e he
    rw [padNumberPass_tags ops pad aDrawInfo _ _ e he]; decide
  · intro e he
    rw [noConnectPass_tags pad aDrawInfo e he]; decide
  · intro e he
    rw [holePass_tags ops pad aDrawInfo e he]; decide
  · intro e he
    rcases (shapePass_props ops pad coord aDrawInfo).1 e he with h | h <;> rw [h] <;> decide

/-- C16: for every circular pad drawn in filled mode, the body part of `PrintShape` is one
filled-circle command, centred at the shape position `ShapePos() - m_Offset`, with radius
`d div 2 + m`, where `d = m_Size.x` is the diameter (`d div 2` is the `int` value
`m_Size.x >> 1`) and `m = m_Mask_margin.x` the mask margin. -/
theorem PrintShape_circle_filled (ops : ShapeOps Color) (pad : D_PAD) (coord : Coord4)
    (aDrawInfo : PAD_DRAWINFO Color) (hs : pad.GetShape = PAD_SHAPE_CIRCLE)
    (hf : aDrawInfo.m_ShowPadFilled = true) :
    commandsOf DrawPass.body (PrintShape ops pad coord aDrawInfo) =
      [DrawCmd.GRFilledCircle (ops.ShapePos - aDrawInfo.m_Offset).x
        (ops.ShapePos - aDrawInfo.m_Offset).y (pad.m_Size.x / 2 + aDrawInfo.m_Mask_margin.x) 0
        aDrawInfo.m_Color aDrawInfo.m_Color] := by
  rw [commandsOf_body_PrintShape]
  simp only [shapePass, hs, printCircle, hf, if_true, halfsize0, shiftRight_one]
  split_ifs <;> simp [commandsOf]

/-- Witness of C16: a circular pad of diameter `20` with mask margin `2`, drawn filled with
the shape position `(100,50)`, gets a filled circle of radius `12`. -/
theorem PrintShape_circle_filled_witness :
    commandsOf DrawPass.body (PrintShape sampleShapeOps (circle 20) Coord4.zero
        { sampleDrawInfo with m_Mask_margin := { x := 2, y := 2 } }) =
      [DrawCmd.GRFilledCircle 100 50 12 0 7 7] :=
  (PrintShape_circle_filled sampleShapeOps (circle 20) Coord4.zero
    { sampleDrawInfo with m_Mask_margin := { x := 2, y := 2 } } rfl rfl).trans (by decide)

/-- C17: for every pad and draw info, the commands of `PrintShape` come in the order body,
clearance outline, hole, no-connect mark, pad number, net name: no command of a later
part is emitted before a command of an earlier part. -/
theorem PrintShape_inPassOrder (ops : ShapeOps Color) (pad : D_PAD) (coord : Coord4)
    (aDrawInfo : PAD_DRAWINFO Color) : inPassOrder (PrintShape ops pad coord aDrawInfo) := by
  unfold PrintShape
  have hs := shapePass_props ops pad coord aDrawInfo
  have hh := holePass_tags ops pad aDrawInfo
  have hn := noConnectPass_tags pad aDrawInfo
  have ht := textPass_props ops pad aDrawInfo (ops.ShapePos - aDrawInfo.m_Offset) pad.m_Orient
  have r1 : ∀ e ∈ shapePass ops pad coord aDrawInfo, e.1.rank ≤ 1 := by
    intro e he
    rcases hs.1 e he with h | h <;> rw [h] <;> decide
  have r2 : ∀ e ∈ holePass ops pad aDrawInfo, e.1.rank = 2 := by
    intro e he; rw [hh e he]; rfl
  have r3 : ∀ e ∈ noConnectPass pad aDrawInfo, e.1.rank = 3 := by
    intro e he; rw [hn e he]; rfl
  have r4 : ∀ e ∈ textPass ops pad aDrawInfo (ops.ShapePos - aDrawInfo.m_Offset) pad.m_Orient,
      4 ≤ e.1.rank := by
    intro e he
    rcases ht.1 e he with h | h <;> rw [h] <;> decide
  have p12 : inPassOrder (shapePass ops pad coord aDrawInfo ++ holePass ops pad aDrawInfo) :=
    inPassOrder_append _ _ 1 hs.2 (inPassOrder_of_rank _ 2 r2) r1
      (fun e he => by rw [r2 e he]; decide)
  have r12 : ∀ e ∈ shapePass ops pad coord aDrawInfo ++ holePass ops pad aDrawInfo,
      e.1.rank ≤ 2 := by
    intro e he
    rcases List.mem_append.mp he with h | h
    · exact le_trans (r1 e h) (by decide)
    · exact le_of_eq (r2 e h)
  have p123 := inPassOrder_append _ _ 2 p12 (inPassOrder_of_rank _ 3 r3) r12
    (fun e he => by rw [r3 e he]; decide)
  have r123 : ∀ e ∈ shapePass ops pad coord aDrawInfo ++ holePass ops pad aDrawInfo ++
      noConnectPass pad aDrawInfo, e.1.rank ≤ 3 := by
    intro e he
    rcases List.mem_append.mp he with h | h
    · exact le_trans (r12 e h) (by decide)
    · exact le_of_eq (r3 e h)
  exact inPassOrder_append _ _ 3 p123 ht.2 r123
    (fun e he => le_trans (by decide) (r4 e he))

end D_PAD

namespace D_PAD

variable {Color : Type}

open PAD_SHAPE_T

/-- An example in which all six parts of `PrintShape` emit commands: the parts of the
commands, in the order of emission. -/
theorem PrintShape_all_parts_example :
    (PrintShape sampleShapeOps fullPad Coord4.zero
        { sampleDrawInfo with m_PadClearance := 3 }).map Prod.fst =
      [DrawPass.body, DrawPass.clearance, DrawPass.hole, DrawPass.hole, DrawPass.hole,
        DrawPass.noConnect, DrawPass.padNumber, DrawPass.netName] := by
  decide

theorem glyph_size_formula (AreaSize : wxSize) (len : Int) (hW : 0 ≤ AreaSize.x)
    (hH : 0 ≤ AreaSize.y)
    (hb : min AreaSize.y (AreaSize.x / max len 3) * 7 < 4294967296) :
    toSigned (reserveRoom (textSize AreaSize len)) =
      (min AreaSize.y (AreaSize.x / max len 3) * 7) / 10 := by
  have h3 : (0 : Int) ≤ max len 3 := le_trans (by decide) (le_max_right len 3)
  have hq : 0 ≤ AreaSize.x / max len 3 := Int.ediv_nonneg hW h3
  have et : Int.tdiv AreaSize.x (max len 3) = AreaSize.x / max len 3 :=
    Int.tdiv_eq_ediv hW h3
  simp only [textSize, MIN_CHAR_COUNT, et]
  generalize AreaSize.x / max len 3 = q at hq hb ⊢
  generalize AreaSize.y = H at hH hb ⊢
  have hm : 0 ≤ min H q := le_min hH hq
  generalize min H q = m at hm hb ⊢
  obtain ⟨k, rfl⟩ := Int.eq_ofNat_of_zero_le hm
  have e1 : toUnsigned (k : Int) = k := by
    unfold toUnsigned; omega
  rw [e1]
  unfold toSigned reserveRoom
  have e2 : k * 7 % 4294967296 = k * 7 := Nat.mod_eq_of_lt (by omega)
  rw [e2]
  have e3 : k * 7 / 10 % 4294967296 = k * 7 / 10 := Nat.mod_eq_of_lt (by omega)
  rw [e3]
  split_ifs with h
  · push_cast; rfl
  · omega

theorem textArea_nonneg (pad : D_PAD) (len : Int) (hw : 0 ≤ pad.m_Size.x)
    (hh : 0 ≤ pad.m_Size.y) : 0 ≤ (textArea pad len).x ∧ 0 ≤ (textArea pad len).y := by
  unfold textArea
  have t : ∀ a : Int, 0 ≤ a → 0 ≤ Int.tdiv a 2 := fun a ha => by
    rw [Int.tdiv_eq_ediv ha (by decide)]; omega
  split_ifs <;> simp only <;> constructor <;> first | assumption | exact t _ (by assumption)

/-- C18, as stated, fails: for the pad of size `(1900000000, 700000000)` named "A1", with
the net name not displayed, the text area is `1900000000` wide and `700000000` high and
the pad number is drawn with glyph size `13836603`, whereas
`(min(H, W div max(n, 3)) * 7) div 10` is `443333333`: the product by `7` does not fit the
`unsigned int` in which the code computes it. -/
theorem PrintShape_glyph_size_overflow :
    textArea hugePad 0 = { x := 1900000000, y := 700000000 } ∧
    (commandsOf DrawPass.padNumber (PrintShape sampleShapeOps hugePad Coord4.zero
        { sampleDrawInfo with m_Display_netname := false })).map DrawCmd.haloTextSize =
      [some { x := 13836603, y := 13836603 }] ∧
    (min 700000000 (1900000000 / max (("A1".length : Nat) : Int) 3) * 7) / 10 =
      (443333333 : Int) ∧
    (commandsOf DrawPass.padNumber (PrintShape sampleShapeOps hugePad Coord4.zero
        { sampleDrawInfo with m_Display_netname := false })).map DrawCmd.haloTextSize ≠
      [some { x := 443333333, y := 443333333 }] := by
  decide

/-- C18, amended: for every pad of non-negative size, with `W` and `H` the width and the
height of the text area (long axis horizontal, `H` halved when the net name is displayed
and not empty), a pad number of `n` characters that is drawn has the glyph size
`(min(H, W div max(n, 3)) * 7) div 10`, and so has a net name of `n` characters that is
drawn, provided `min(H, W div max(n, 3)) * 7` is below `2 ^ 32`. -/
theorem PrintShape_label_glyph_size (ops : ShapeOps Color) (pad : D_PAD) (coord : Coord4)
    (aDrawInfo : PAD_DRAWINFO Color) (hw : 0 ≤ pad.m_Size.x) (hh : 0 ≤ pad.m_Size.y) :
    (min (textArea pad (shortnameLen ops aDrawInfo)).y
          ((textArea pad (shortnameLen ops aDrawInfo)).x /
            max ((pad.m_name.length : Nat) : Int) 3) * 7 < 4294967296 →
      ∀ c ∈ commandsOf DrawPass.padNumber (PrintShape ops pad coord aDrawInfo),
        c.haloTextSize = some
          { x := (min (textArea pad (shortnameLen ops aDrawInfo)).y
                ((textArea pad (shortnameLen ops aDrawInfo)).x /
                  max ((pad.m_name.length : Nat) : Int) 3) * 7) / 10
            y := (min (textArea pad (shortnameLen ops aDrawInfo)).y
                ((textArea pad (shortnameLen ops aDrawInfo)).x /
                  max ((pad.m_name.length : Nat) : Int) 3) * 7) / 10 }) ∧
    (min (textArea pad (shortnameLen ops aDrawInfo)).y
          ((textArea pad (shortnameLen ops aDrawInfo)).x /
            max (shortnameLen ops aDrawInfo) 3) * 7 < 4294967296 →
      ∀ c ∈ commandsOf DrawPass.netName (PrintShape ops pad coord aDrawInfo),
        c.haloTextSize = some
          { x := (min (textArea pad (shortnameLen ops aDrawInfo)).y
                ((textArea pad (shortnameLen ops aDrawInfo)).x /
                  max (shortnameLen ops aDrawInfo) 3) * 7) / 10
            y := (min (textArea pad (shortnameLen ops aDrawInfo)).y
                ((textArea pad (shortnameLen ops aDrawInfo)).x /
                  max (shortnameLen ops aDrawInfo) 3) * 7) / 10 }) := by
  obtain ⟨hW, hH⟩ := textArea_nonneg pad (shortnameLen ops aDrawInfo) hw hh
  constructor
  · intro hb c hc
    rw [commandsOf_padNumber_PrintShape] at hc
    obtain ⟨e, he, rfl⟩ := List.mem_map.mp hc
    unfold padNumberPass at he
    simp only at he
    split_ifs at he <;> simp at he
    all_goals
      subst he
      simp only [DrawCmd.haloTextSize, glyph_size_formula _ _ hW hH hb]
  · intro hb c hc
    rw [commandsOf_netName_PrintShape] at hc
    obtain ⟨e, he, rfl⟩ := List.mem_map.mp hc
    unfold netNamePass at he
    simp only at he
    split_ifs at he <;> simp at he
    all_goals
      subst he
      simp only [DrawCmd.haloTextSize, glyph_size_formula _ _ hW hH hb]

/-- Witness of the amended C18: the pad of size `(40,20)` with designator "A1" and net
name "GND", both displayed: the text area is `40` wide and `20 div 2 = 10` high, the
character count used for "A1" is `max(2,3) = 3`, and each of the two labels is drawn with
glyph size `7`. -/
theorem PrintShape_label_glyph_size_witness :
    textArea labelledPad (shortnameLen sampleShapeOps sampleDrawInfo) = { x := 40, y := 10 } ∧
    max (("A1".length : Nat) : Int) MIN_CHAR_COUNT = 3 ∧
    (commandsOf DrawPass.padNumber (PrintShape sampleShapeOps labelledPad Coord4.zero
        sampleDrawInfo)).length = 1 ∧
    (commandsOf DrawPass.netName (PrintShape sampleShapeOps labelledPad Coord4.zero
        sampleDrawInfo)).length = 1 ∧
    (∀ c ∈ commandsOf DrawPass.padNumber (PrintShape sampleShapeOps labelledPad Coord4.zero
        sampleDrawInfo), c.haloTextSize = some { x := 7, y := 7 }) ∧
    (∀ c ∈ commandsOf DrawPass.netName (PrintShape sampleShapeOps labelledPad Coord4.zero
        sampleDrawInfo), c.haloTextSize = some { x := 7, y := 7 }) :=
  ⟨by decide, by decide, by decide, by decide,
    fun c hc => ((PrintShape_label_glyph_size sampleShapeOps labelledPad Coord4.zero
      sampleDrawInfo (by decide) (by decide)).1 (by decide) c hc).trans (by decide),
    fun c hc => ((PrintShape_label_glyph_size sampleShapeOps labelledPad Coord4.zero
      sampleDrawInfo (by decide) (by decide)).2 (by decide) c hc).trans (by decide)⟩

theorem BuildPadPolygon_rect_or_trapezoid_indep (fp : FloatOps) (pad : D_PAD)
    (c₁ c₂ : Coord4) (aInflateValue : wxSize) (aRotation : ℚ)
    (hs : pad.GetShape = PAD_SHAPE_RECT ∨ pad.GetShape = PAD_SHAPE_TRAPEZOID) :
    BuildPadPolygon fp pad c₁ aInflateValue aRotation =
      BuildPadPolygon fp pad c₂ aInflateValue aRotation := by
  rcases hs with hs | hs <;> simp [BuildPadPolygon, hs]

/-- C19, as stated, fails: for the rectangular pad of size `(0,0)` (drawn filled, shape
position `(100,50)`) the body part of `PrintShape` is not empty: it holds one closed
polygon whose four corners are all `(100,50)`. -/
theorem PrintShape_degenerate_rect_drawn :
    commandsOf DrawPass.body (PrintShape sampleShapeOps (rect 0 0) Coord4.zero
        sampleDrawInfo) =
      [DrawCmd.GRClosedPoly
        [{ x := 100, y := 50 }, { x := 100, y := 50 }, { x := 100, y := 50 },
          { x := 100, y := 50 }] true 0 7 7] ∧
    commandsOf DrawPass.body (PrintShape sampleShapeOps (rect 0 0) Coord4.zero
        sampleDrawInfo) ≠ [] := by
  decide

/-- C19, amended: for every rectangular or trapezoid pad, degenerate or not, the body part
of `PrintShape` is exactly one closed-polygon command: its points are the four corners
built by `BuildPadPolygon` for the mask margin and the pad orientation, moved to the shape
position; it is filled in filled mode and drawn with the sketch pen size otherwise.  No
test on the corners is made and no error is raised. -/
theorem PrintShape_rect_body (ops : ShapeOps Color) (pad : D_PAD) (coord : Coord4)
    (aDrawInfo : PAD_DRAWINFO Color)
    (hs : pad.GetShape = PAD_SHAPE_RECT ∨ pad.GetShape = PAD_SHAPE_TRAPEZOID) :
    commandsOf DrawPass.body (PrintShape ops pad coord aDrawInfo) =
      [DrawCmd.GRClosedPoly
        ((BuildPadPolygon ops.fp pad coord aDrawInfo.m_Mask_margin pad.m_Orient).toList.map
          fun q => q + (ops.ShapePos - aDrawInfo.m_Offset))
        aDrawInfo.m_ShowPadFilled
        (if aDrawInfo.m_ShowPadFilled then 0 else ops.m_PadSketchModePenSize)
        aDrawInfo.m_Color aDrawInfo.m_Color] ∧
    ((BuildPadPolygon ops.fp pad coord aDrawInfo.m_Mask_margin pad.m_Orient).toList.map
      fun q => q + (ops.ShapePos - aDrawInfo.m_Offset)).length = 4 := by
  refine ⟨?_, by simp [Coord4.toList]⟩
  rw [commandsOf_body_PrintShape]
  have hp : shapePass ops pad coord aDrawInfo =
      printRectTrapezoid ops pad coord aDrawInfo (ops.ShapePos - aDrawInfo.m_Offset)
        pad.m_Orient := by
    rcases hs with hs | hs <;> simp [shapePass, hs]
  rw [hp]
  unfold printRectTrapezoid
  rw [commandsOf_append, commandsOf_eq_nil DrawPass.body
    (if aDrawInfo.m_PadClearance ≠ 0 then _ else _)]
  · simp [commandsOf, Coord4.toList]
  · intro e he
    have h := (printRectTrapezoid_props ops pad coord aDrawInfo
      (ops.ShapePos - aDrawInfo.m_Offset) pad.m_Orient).1 e
    split_ifs at he
    · dsimp only at he
      split at he
      · simp at he
      · split_ifs at he <;> simp_all
    · simp at he

/-- Witness of the amended C19: the rectangular pad of size `(0,0)`. -/
theorem PrintShape_rect_body_witness :
    (commandsOf DrawPass.body (PrintShape sampleShapeOps (rect 0 0) Coord4.zero
        sampleDrawInfo)).length = 1 :=
  (congrArg List.length (PrintShape_rect_body sampleShapeOps (rect 0 0) Coord4.zero
    sampleDrawInfo (Or.inl rfl)).1).trans rfl

end D_PAD

namespace D_PAD

variable {Color : Type}

open PAD_SHAPE_T

/-- The colour `Print` stores in `m_NPHoleColor` when it marks the hole as not plated. -/
theorem printNotPlated_spec (env : PrintEnv Color) (pad : D_PAD)
    (drawInfo : PAD_DRAWINFO Color)
    (hnp : (pad.GetAttribute = PAD_ATTR_T.PAD_ATTRIB_HOLE_NOT_PLATED ∧
        env.IsElementVisible GAL_LAYER_ID.LAYER_NON_PLATEDHOLES = true) ∨
      env.PadShouldBeNPTH = true) :
    (printNotPlated env pad drawInfo).m_ShowNotPlatedHole = true ∧
    (printNotPlated env pad drawInfo).m_NPHoleColor =
      (if pad.GetAttribute = PAD_ATTR_T.PAD_ATTRIB_HOLE_NOT_PLATED ∧
          env.IsElementVisible GAL_LAYER_ID.LAYER_NON_PLATEDHOLES = true then
        env.GetItemColor GAL_LAYER_ID.LAYER_NON_PLATEDHOLES
      else env.GetItemColor GAL_LAYER_ID.LAYER_MOD_TEXT_INVISIBLE) := by
  unfold printNotPlated
  by_cases h1 : pad.GetAttribute = PAD_ATTR_T.PAD_ATTRIB_HOLE_NOT_PLATED ∧
      env.IsElementVisible GAL_LAYER_ID.LAYER_NON_PLATEDHOLES = true
  · simp [h1]
  · have h2 : env.PadShouldBeNPTH = true := by
      rcases hnp with h | h
      · exact absurd h h1
      · exact h
    simp [h1, h2]

theorem printDrawInfoBody_notPlated [DecidableEq Color] (env : PrintEnv Color)
    (pal : Palette Color) (pad : D_PAD) (drawInfo : PAD_DRAWINFO Color) :
    (printDrawInfoBody env pal pad drawInfo).m_ShowNotPlatedHole =
      (printNotPlated env pad drawInfo).m_ShowNotPlatedHole ∧
    (printDrawInfoBody env pal pad drawInfo).m_NPHoleColor =
      (printNotPlated env pad drawInfo).m_NPHoleColor ∧
    (printDrawInfoBody env pal pad drawInfo).m_HoleColor = drawInfo.m_HoleColor := by
  unfold printDrawInfoBody printNotPlated
  refine ⟨?_, ?_, ?_⟩ <;> (simp only; split_ifs <;> rfl)

theorem printDrawInfo_eq_some [DecidableEq Color] (env : PrintEnv Color)
    (pal : Palette Color) (pad : D_PAD) (aOffset : wxPoint) (d : PAD_DRAWINFO Color)
    (hd : printDrawInfo env pal pad aOffset = some d) :
    d = printDrawInfoBody env pal pad { PAD_DRAWINFO.ctor pal with m_Offset := aOffset } := by
  unfold printDrawInfo at hd
  simp only at hd
  split_ifs at hd
  exact (Option.some.inj hd).symm

theorem holePass_notPlated_color (ops : ShapeOps Color) (pad : D_PAD)
    (aDrawInfo : PAD_DRAWINFO Color) (hs : aDrawInfo.m_ShowNotPlatedHole = true)
    (hb : ops.GetGRForceBlackPenState = false) :
    ∀ e ∈ holePass ops pad aDrawInfo, ∀ col, e.2.holeColor = some col →
      col = aDrawInfo.m_NPHoleColor := by
  cases hd : pad.GetDrillShape <;>
    simp only [holePass, hd, hs, hb] <;>
    split_ifs <;>
    first
      | contradiction
      | simp [DrawCmd.holeColor, eq_comm]

/-- C20, as stated, fails: the sample pad has the attribute "hole not plated" and its
hole is drawn, but with the item "non plated holes" hidden (and the pad not a should-be
NPTH) `Print` leaves `m_ShowNotPlatedHole` false and `m_NPHoleColor` at its default
(yellow, `2`), and `PrintShape` draws the hole with `m_HoleColor` (black, `0`). -/
theorem Print_notPlated_hidden_uses_hole_color :
    notPlatedPad.GetAttribute = PAD_ATTR_T.PAD_ATTRIB_HOLE_NOT_PLATED ∧
    commandsOf DrawPass.hole (Print hiddenNonPlatedEnv sampleShapeOps notPlatedPad Coord4.zero
        { x := 0, y := 0 }) =
      [DrawCmd.GRForceBlackPen false, DrawCmd.GRFilledCircle 0 0 5 0 0 1] ∧
    (printDrawInfo hiddenNonPlatedEnv samplePalette notPlatedPad { x := 0, y := 0 }).map
        (fun d => (d.m_ShowNotPlatedHole, d.m_NPHoleColor, d.m_HoleColor)) =
      some (false, 2, 0) := by
  decide

/-- C20, amended: for every pad that is not plated while the item "non plated holes" is
visible, or that should be an NPTH, `Print` hands `PrintShape` a draw info with
`m_ShowNotPlatedHole` set and `m_NPHoleColor` taken from the theme (the colour of
`LAYER_NON_PLATEDHOLES` in the first case, of `LAYER_MOD_TEXT_INVISIBLE` otherwise), and,
when the black pen is not forced, every command of the hole part that draws the rim of the
hole (`GRFilledCircle`, `GRCSegm`) uses that colour. -/
theorem Print_notPlated_hole_color [DecidableEq Color] (env : PrintEnv Color)
    (ops : ShapeOps Color) (pad : D_PAD) (coord : Coord4) (aOffset : wxPoint)
    (hnp : (pad.GetAttribute = PAD_ATTR_T.PAD_ATTRIB_HOLE_NOT_PLATED ∧
        env.IsElementVisible GAL_LAYER_ID.LAYER_NON_PLATEDHOLES = true) ∨
      env.PadShouldBeNPTH = true)
    (hb : ops.GetGRForceBlackPenState = false) :
    (∀ d, printDrawInfo env ops.pal pad aOffset = some d →
      d.m_ShowNotPlatedHole = true ∧
      d.m_NPHoleColor =
        (if pad.GetAttribute = PAD_ATTR_T.PAD_ATTRIB_HOLE_NOT_PLATED ∧
            env.IsElementVisible GAL_LAYER_ID.LAYER_NON_PLATEDHOLES = true then
          env.GetItemColor GAL_LAYER_ID.LAYER_NON_PLATEDHOLES
        else env.GetItemColor GAL_LAYER_ID.LAYER_MOD_TEXT_INVISIBLE)) ∧
    (∀ c ∈ commandsOf DrawPass.hole (Print env ops pad coord aOffset), ∀ col,
      c.holeColor = some col →
      col =
        (if pad.GetAttribute = PAD_ATTR_T.PAD_ATTRIB_HOLE_NOT_PLATED ∧
            env.IsElementVisible GAL_LAYER_ID.LAYER_NON_PLATEDHOLES = true then
          env.GetItemColor GAL_LAYER_ID.LAYER_NON_PLATEDHOLES
        else env.GetItemColor GAL_LAYER_ID.LAYER_MOD_TEXT_INVISIBLE)) := by
  have key : ∀ d, printDrawInfo env ops.pal pad aOffset = some d →
      d.m_ShowNotPlatedHole = true ∧
      d.m_NPHoleColor =
        (if pad.GetAttribute = PAD_ATTR_T.PAD_ATTRIB_HOLE_NOT_PLATED ∧
            env.IsElementVisible GAL_LAYER_ID.LAYER_NON_PLATEDHOLES = true then
          env.GetItemColor GAL_LAYER_ID.LAYER_NON_PLATEDHOLES
        else env.GetItemColor GAL_LAYER_ID.LAYER_MOD_TEXT_INVISIBLE) := by
    intro d hd
    rw [printDrawInfo_eq_some env ops.pal pad aOffset d hd]
    obtain ⟨h1, h2, _⟩ := printDrawInfoBody_notPlated env ops.pal pad
      { PAD_DRAWINFO.ctor ops.pal with m_Offset := aOffset }
    obtain ⟨h3, h4⟩ := printNotPlated_spec env pad
      { PAD_DRAWINFO.ctor ops.pal with m_Offset := aOffset } hnp
    exact ⟨h1.trans h3, h2.trans h4⟩
  refine ⟨key, ?_⟩
  intro c hc col hcol
  unfold Print at hc
  cases hd : printDrawInfo env ops.pal pad aOffset with
  | none =>
    rw [hd] at hc
    simp [commandsOf] at hc
  | some d =>
    rw [hd] at hc
    simp only at hc
    rw [commandsOf_hole_PrintShape] at hc
    obtain ⟨e, he, rfl⟩ := List.mem_map.mp hc
    obtain ⟨k1, k2⟩ := key d hd
    rw [← k2]
    exact holePass_notPlated_color ops pad d k1 hb e he col hcol

/-- Witness of the amended C20: the sample not-plated pad with everything visible: the
hole is drawn with the theme colour of the non plated holes (`12`). -/
theorem Print_notPlated_hole_color_witness :
    commandsOf DrawPass.hole (Print samplePrintEnv sampleShapeOps notPlatedPad Coord4.zero
        { x := 0, y := 0 }) =
      [DrawCmd.GRForceBlackPen false, DrawCmd.GRFilledCircle 0 0 5 0 12 1] ∧
    (∀ c ∈ commandsOf DrawPass.hole (Print samplePrintEnv sampleShapeOps notPlatedPad
        Coord4.zero { x := 0, y := 0 }), ∀ col, c.holeColor = some col → col = 12) :=
  ⟨by decide,
    fun c hc col hcol => ((Print_notPlated_hole_color samplePrintEnv sampleShapeOps
      notPlatedPad Coord4.zero { x := 0, y := 0 } (Or.inl ⟨rfl, rfl⟩) rfl).2 c hc col
      hcol).trans (by decide)⟩

end D_PAD

namespace D_PAD

open PAD_SHAPE_T

theorem basicShape_mirrored (halfsize delta : wxSize) : (basicShape halfsize delta).mirrored := by
  simp only [Coord4.mirrored, basicShape]
  refine ⟨?_, ?_, ?_, ?_⟩ <;> ring

theorem clampCoords_mirrored (c : Coord4) (h : c.mirrored) : (clampCoords c).mirrored := by
  obtain ⟨⟨x0, y0⟩, ⟨x1, y1⟩, ⟨x2, y2⟩, ⟨x3, y3⟩⟩ := c
  obtain ⟨h30, h21, h10, h23⟩ := h
  simp only at h30 h21 h10 h23
  subst h30 h21 h10 h23
  simp only [clampCoords, Coord4.mirrored]
  by_cases a : x0 > 0 <;> by_cases b : x1 > 0 <;> by_cases c : y0 < 0 <;>
    by_cases d : y3 < 0 <;> simp [a, b, c, d]

/-- C21: for every rectangular or trapezoid pad and every inflate value, the corners
returned by `BuildPadPolygon` at rotation `0` are mirrored coordinate by coordinate
(`c3.x = -c0.x`, `c2.x = -c1.x`, `c1.y = -c0.y`, `c2.y = -c3.y`); so are the corners of
the basic shape, the corners after the trapezoid offset and before the clamp, and those
after the clamp.  Hence before the clamp a coordinate tested by the clamp is over its
centre line exactly when its mirror coordinate is. -/
theorem BuildPadPolygon_mirrored (fp : FloatOps) (pad : D_PAD) (aCoord : Coord4)
    (aInflateValue : wxSize)
    (hs : pad.GetShape = PAD_SHAPE_RECT ∨ pad.GetShape = PAD_SHAPE_TRAPEZOID) :
    (BuildPadPolygon fp pad aCoord aInflateValue 0).mirrored ∧
    (offsetCoords fp pad pad.halfsize0 (trapezoidDelta pad.m_DeltaSize pad.halfsize0)
      aInflateValue).mirrored ∧
    (clampCoords (offsetCoords fp pad pad.halfsize0
      (trapezoidDelta pad.m_DeltaSize pad.halfsize0) aInflateValue)).mirrored ∧
    ((0 < (offsetCoords fp pad pad.halfsize0 (trapezoidDelta pad.m_DeltaSize pad.halfsize0)
          aInflateValue).c0.x ↔
        (offsetCoords fp pad pad.halfsize0 (trapezoidDelta pad.m_DeltaSize pad.halfsize0)
          aInflateValue).c3.x < 0) ∧
      (0 < (offsetCoords fp pad pad.halfsize0 (trapezoidDelta pad.m_DeltaSize pad.halfsize0)
          aInflateValue).c1.x ↔
        (offsetCoords fp pad pad.halfsize0 (trapezoidDelta pad.m_DeltaSize pad.halfsize0)
          aInflateValue).c2.x < 0) ∧
      ((offsetCoords fp pad pad.halfsize0 (trapezoidDelta pad.m_DeltaSize pad.halfsize0)
          aInflateValue).c0.y < 0 ↔
        0 < (offsetCoords fp pad pad.halfsize0 (trapezoidDelta pad.m_DeltaSize pad.halfsize0)
          aInflateValue).c1.y) ∧
      ((offsetCoords fp pad pad.halfsize0 (trapezoidDelta pad.m_DeltaSize pad.halfsize0)
          aInflateValue).c3.y < 0 ↔
        0 < (offsetCoords fp pad pad.halfsize0 (trapezoidDelta pad.m_DeltaSize pad.halfsize0)
          aInflateValue).c2.y)) := by
  have hpre : (offsetCoords fp pad pad.halfsize0
      (trapezoidDelta pad.m_DeltaSize pad.halfsize0) aInflateValue).mirrored :=
    applyOffset_basicShape_mirror _ _ _ _
  have hpost := clampCoords_mirrored _ hpre
  refine ⟨?_, hpre, hpost, ?_⟩
  · rcases hs with hs | hs
    · rw [BuildPadPolygon_rect fp pad aCoord aInflateValue hs]
      exact basicShape_mirrored _ _
    · by_cases hi : aInflateValue.x ≠ 0 ∨ aInflateValue.y ≠ 0
      · rw [BuildPadPolygon_trapezoid_offset fp pad aCoord aInflateValue hs hi]
        exact hpost
      · have e : aInflateValue = {} := by
          cases aInflateValue
          simp only [ne_eq, not_or, not_not] at hi
          simp [hi.1, hi.2]
        rw [e, BuildPadPolygon_trapezoid_plain fp pad aCoord hs]
        exact basicShape_mirrored _ _
  · obtain ⟨h30, h21, h10, h23⟩ := hpre
    refine ⟨?_, ?_, ?_, ?_⟩ <;> constructor <;> intro h <;> omega

/-- Witness of C21: a `10 x 6` trapezoid with delta size `(0,4)` deflated by `(-9,1)`. -/
theorem BuildPadPolygon_mirrored_witness :
    (BuildPadPolygon sampleFloatOps (trapezoid 10 6 0 4) Coord4.zero
      { x := -9, y := 1 } 0).mirrored :=
  (BuildPadPolygon_mirrored sampleFloatOps (trapezoid 10 6 0 4) Coord4.zero
    { x := -9, y := 1 } (Or.inr rfl)).1

theorem trapezoidDelta_zero (halfsize : wxSize) : trapezoidDelta {} halfsize = {} := by
  have z : (0 : Int) >>> (1 : Nat) = 0 := by decide
  simp [trapezoidDelta, z]

theorem clampCoords_box (a b : Int) :
    clampCoords
      { c0 := { x := -a, y := b }, c1 := { x := -a, y := -b },
        c2 := { x := a, y := -b }, c3 := { x := a, y := b } } =
    basicShape { x := max a 0, y := max b 0 } {} := by
  simp only [clampCoords, basicShape]
  by_cases ha : a < 0 <;> by_cases hb : b < 0
  · simp [ha, hb, max_eq_right (le_of_lt ha), max_eq_right (le_of_lt hb)]
  · simp [ha, hb, max_eq_right (le_of_lt ha), max_eq_left (not_lt.mp hb)]
  · simp [ha, hb, max_eq_left (not_lt.mp ha), max_eq_right (le_of_lt hb)]
  · simp [ha, hb, max_eq_left (not_lt.mp ha), max_eq_left (not_lt.mp hb)]

theorem rectHalfsize_eq_max (halfsize aInflateValue : wxSize) :
    rectHalfsize halfsize aInflateValue =
      { x := max (halfsize.x + aInflateValue.x) 0, y := max (halfsize.y + aInflateValue.y) 0 } := by
  simp only [rectHalfsize]
  by_cases hx : halfsize.x + aInflateValue.x < 0 <;>
    by_cases hy : halfsize.y + aInflateValue.y < 0
  · simp [hx, hy, max_eq_right (le_of_lt hx), max_eq_right (le_of_lt hy)]
  · simp [hx, hy, max_eq_right (le_of_lt hx), max_eq_left (not_lt.mp hy)]
  · simp [hx, hy, max_eq_left (not_lt.mp hx), max_eq_right (le_of_lt hy)]
  · simp [hx, hy, max_eq_left (not_lt.mp hx), max_eq_left (not_lt.mp hy)]

end D_PAD

namespace D_PAD

open PAD_SHAPE_T

theorem offsetCoords_zero_delta (fp : FloatOps) (pad : D_PAD) (halfsize aInflateValue : wxSize) :
    offsetCoords fp pad halfsize {} aInflateValue =
      { c0 := { x := -(halfsize.x + aInflateValue.x), y := halfsize.y + aInflateValue.y }
        c1 := { x := -(halfsize.x + aInflateValue.x), y := -(halfsize.y + aInflateValue.y) }
        c2 := { x := halfsize.x + aInflateValue.x, y := -(halfsize.y + aInflateValue.y) }
        c3 := { x := halfsize.x + aInflateValue.x, y := halfsize.y + aInflateValue.y } } := by
  simp only [offsetCoords, offsetTerms, applyOffset, basicShape, ne_eq,
    not_true_eq_false, if_false, Coord4.mk.injEq, wxPoint.mk.injEq]
  refine ⟨⟨?_, ?_⟩, ⟨?_, ?_⟩, ⟨?_, ?_⟩, ?_, ?_⟩ <;> ring

/-- C24: for every size `≥ 0`, every inflate value and every rotation, `BuildPadPolygon`
gives the trapezoid pad with delta size `(0,0)` the same four corners, in the same order,
as the rectangular pad of the same size. -/
theorem BuildPadPolygon_trapezoid_zero_delta_eq_rect (fp : FloatOps) (pad : D_PAD)
    (aCoord₁ aCoord₂ : Coord4) (aInflateValue : wxSize) (aRotation : ℚ)
    (hw : 0 ≤ pad.m_Size.x) (hh : 0 ≤ pad.m_Size.y) :
    BuildPadPolygon fp { pad with m_padShape := PAD_SHAPE_TRAPEZOID, m_DeltaSize := {} }
        aCoord₁ aInflateValue aRotation =
      BuildPadPolygon fp { pad with m_padShape := PAD_SHAPE_RECT } aCoord₂ aInflateValue
        aRotation := by
  have hx : 0 ≤ pad.m_Size.x >>> (1 : Nat) := by rw [shiftRight_one]; omega
  have hy : 0 ≤ pad.m_Size.y >>> (1 : Nat) := by rw [shiftRight_one]; omega
  simp only [BuildPadPolygon, GetShape, halfsize0, buildCorners, trapezoidDelta_zero,
    rectHalfsize_eq_max, true_and, reduceCtorEq, false_and, if_false]
  by_cases hi : aInflateValue.x ≠ 0 ∨ aInflateValue.y ≠ 0
  · rw [if_pos hi, offsetCoords_zero_delta, clampCoords_box]
  · rw [if_neg hi]
    simp only [ne_eq, not_or, not_not] at hi
    rw [hi.1, hi.2, add_zero, add_zero, max_eq_left hx, max_eq_left hy]

/-- Witness of C24: size `(10,6)`, deflated by `(-9,1)`. -/
theorem BuildPadPolygon_trapezoid_zero_delta_eq_rect_witness :
    BuildPadPolygon sampleFloatOps
        { rect 10 6 with m_padShape := PAD_SHAPE_TRAPEZOID, m_DeltaSize := {} }
        Coord4.zero { x := -9, y := 1 } 0 =
      BuildPadPolygon sampleFloatOps { rect 10 6 with m_padShape := PAD_SHAPE_RECT } Coord4.zero
        { x := -9, y := 1 } 0 :=
  BuildPadPolygon_trapezoid_zero_delta_eq_rect sampleFloatOps (rect 10 6) Coord4.zero
    Coord4.zero { x := -9, y := 1 } 0 (by decide) (by decide)

/-- C25: for every trapezoid pad whose half-extents `hx = w >> 1` and `hy = h >> 1` are
both `≥ 1`, and every delta size, the clamp leaves `|delta.x| ≤ hy - 1` and
`|delta.y| ≤ hx - 1`; so with zero inflate value and zero rotation every corner is
strictly on its own side of both centre lines. -/
theorem BuildPadPolygon_trapezoid_strict (fp : FloatOps) (pad : D_PAD) (aCoord : Coord4)
    (hs : pad.GetShape = PAD_SHAPE_TRAPEZOID) (hx : 1 ≤ pad.halfsize0.x)
    (hy : 1 ≤ pad.halfsize0.y) :
    ((-(pad.halfsize0.y - 1) ≤ (trapezoidDelta pad.m_DeltaSize pad.halfsize0).x ∧
        (trapezoidDelta pad.m_DeltaSize pad.halfsize0).x ≤ pad.halfsize0.y - 1) ∧
      (-(pad.halfsize0.x - 1) ≤ (trapezoidDelta pad.m_DeltaSize pad.halfsize0).y ∧
        (trapezoidDelta pad.m_DeltaSize pad.halfsize0).y ≤ pad.halfsize0.x - 1)) ∧
    (BuildPadPolygon fp pad aCoord {} 0).strictlyWithinCenterlines := by
  have hb := trapezoidDelta_bound pad.m_DeltaSize pad.halfsize0 hx hy
  refine ⟨hb, ?_⟩
  rw [BuildPadPolygon_trapezoid_plain fp pad aCoord hs]
  obtain ⟨⟨b1, b2⟩, b3, b4⟩ := hb
  simp only [Coord4.strictlyWithinCenterlines, basicShape]
  refine ⟨⟨?_, ?_⟩, ⟨?_, ?_⟩, ⟨?_, ?_⟩, ?_, ?_⟩ <;> omega

/-- Witness of C25: the trapezoid of size `(10,6)` with delta size `(200,-100)`: the
half-delta `(100,-50)` is clamped to `(2,-4)`. -/
theorem BuildPadPolygon_trapezoid_strict_witness :
    trapezoidDelta (trapezoid 10 6 200 (-100)).m_DeltaSize (trapezoid 10 6 200 (-100)).halfsize0
      = { x := 2, y := -4 } ∧
    (BuildPadPolygon sampleFloatOps (trapezoid 10 6 200 (-100)) Coord4.zero {}
      0).strictlyWithinCenterlines :=
  ⟨by decide,
    (BuildPadPolygon_trapezoid_strict sampleFloatOps (trapezoid 10 6 200 (-100)) Coord4.zero
      rfl (by decide) (by decide)).2⟩

end D_PAD

namespace D_PAD

variable {Color : Type}

open PAD_SHAPE_T

/-- C26: for every pad size `(w,h)` and every margin `(mx,my)`, at rotation `0`: if
`h < w` the segment starts at `(-((w-h) div 2) - mx, 0)`, ends at the opposite point and
the width is `h + 2*my`; otherwise it starts at `(0, -((h-w) div 2) - my)`, ends at the
opposite point and the width is `w + 2*mx`.  The end point is at
`2*(|w-h| div 2) + 2*m` from the start point along the long axis, `m` being the margin
of the long axis (this is the length of the segment; when it is negative the two end
points have passed each other and the length is its absolute value). -/
theorem BuildSegmentFromOvalShape_closed_form (fp : FloatOps) (pad : D_PAD)
    (aMargin : wxSize) :
    BuildSegmentFromOvalShape fp pad 0 aMargin =
      (if pad.m_Size.y < pad.m_Size.x then
        { aSegStart := { x := -((pad.m_Size.x - pad.m_Size.y) / 2) - aMargin.x, y := 0 }
          aSegEnd :=
            wxPoint.neg { x := -((pad.m_Size.x - pad.m_Size.y) / 2) - aMargin.x, y := 0 }
          width := pad.m_Size.y + 2 * aMargin.y }
      else
        { aSegStart := { x := 0, y := -((pad.m_Size.y - pad.m_Size.x) / 2) - aMargin.y }
          aSegEnd :=
            wxPoint.neg { x := 0, y := -((pad.m_Size.y - pad.m_Size.x) / 2) - aMargin.y }
          width := pad.m_Size.x + 2 * aMargin.x }) ∧
    ((BuildSegmentFromOvalShape fp pad 0 aMargin).aSegEnd.x -
        (BuildSegmentFromOvalShape fp pad 0 aMargin).aSegStart.x) +
      ((BuildSegmentFromOvalShape fp pad 0 aMargin).aSegEnd.y -
        (BuildSegmentFromOvalShape fp pad 0 aMargin).aSegStart.y) =
      2 * (|pad.m_Size.x - pad.m_Size.y| / 2) +
        2 * (if pad.m_Size.y < pad.m_Size.x then aMargin.x else aMargin.y) ∧
    wxPoint.distSq (BuildSegmentFromOvalShape fp pad 0 aMargin).aSegStart
        (BuildSegmentFromOvalShape fp pad 0 aMargin).aSegEnd =
      (2 * (|pad.m_Size.x - pad.m_Size.y| / 2) +
        2 * (if pad.m_Size.y < pad.m_Size.x then aMargin.x else aMargin.y)) ^ 2 := by
  by_cases h : pad.m_Size.y < pad.m_Size.x
  · rw [BuildSegmentFromOvalShape_horizontal fp pad aMargin h]
    have ea : |pad.m_Size.x - pad.m_Size.y| = pad.m_Size.x - pad.m_Size.y :=
      abs_of_nonneg (by omega)
    simp only [h, if_true, wxPoint.neg, wxPoint.distSq, ea]
    refine ⟨?_, by ring, by ring⟩
    have e1 : -(-((pad.m_Size.x - pad.m_Size.y) / 2) - aMargin.x) =
        (pad.m_Size.x - pad.m_Size.y) / 2 + aMargin.x := by ring
    have e2 : pad.m_Size.y + aMargin.y * 2 = pad.m_Size.y + 2 * aMargin.y := by ring
    simp only [e1, e2, neg_zero]
  · rw [BuildSegmentFromOvalShape_vertical fp pad aMargin (not_lt.mp h)]
    have ea : |pad.m_Size.x - pad.m_Size.y| = pad.m_Size.y - pad.m_Size.x := by
      rw [abs_sub_comm]; exact abs_of_nonneg (by omega)
    simp only [h, if_false, wxPoint.neg, wxPoint.distSq, ea]
    refine ⟨?_, by ring, by ring⟩
    have e1 : -(-((pad.m_Size.y - pad.m_Size.x) / 2) - aMargin.y) =
        (pad.m_Size.y - pad.m_Size.x) / 2 + aMargin.y := by ring
    have e2 : pad.m_Size.x + aMargin.x * 2 = pad.m_Size.x + 2 * aMargin.x := by ring
    simp only [e1, e2, neg_zero]

end D_PAD

namespace D_PAD

variable {Color : Type}

open PAD_SHAPE_T

theorem shortnameLen_pos_iff (ops : ShapeOps Color) (aDrawInfo : PAD_DRAWINFO Color) :
    0 < shortnameLen ops aDrawInfo ↔
      (aDrawInfo.m_Display_netname = true ∧ 0 < ops.shortNetname.length) := by
  unfold shortnameLen shortname
  by_cases h : aDrawInfo.m_Display_netname = true
  · simp [h]
  · simp [h]

theorem textArea_eq (pad : D_PAD) (len : Int) (hw : 0 ≤ pad.m_Size.x) (hh : 0 ≤ pad.m_Size.y) :
    textArea pad len =
      { x := max pad.m_Size.x pad.m_Size.y
        y := if 0 < len then min pad.m_Size.x pad.m_Size.y / 2
          else min pad.m_Size.x pad.m_Size.y } := by
  have t : ∀ a : Int, 0 ≤ a → Int.tdiv a 2 = a / 2 := fun a ha =>
    Int.tdiv_eq_ediv ha (by decide)
  unfold textArea
  by_cases hyx : pad.m_Size.y > pad.m_Size.x
  · have e1 : max pad.m_Size.x pad.m_Size.y = pad.m_Size.y := max_eq_right (le_of_lt hyx)
    have e2 : min pad.m_Size.x pad.m_Size.y = pad.m_Size.x := min_eq_left (le_of_lt hyx)
    by_cases hl : 0 < len
    · simp [hyx, hl, e1, e2, t _ hw]
    · simp [hyx, hl, e1, e2]
  · have e1 : max pad.m_Size.x pad.m_Size.y = pad.m_Size.x := max_eq_left (not_lt.mp hyx)
    have e2 : min pad.m_Size.x pad.m_Size.y = pad.m_Size.y := min_eq_right (not_lt.mp hyx)
    by_cases hl : 0 < len
    · simp [hyx, hl, e1, e2, t _ hh]
    · simp [hyx, hl, e1, e2]

/-- C27, as stated, fails in its formula: for the pad of size `(1900000000, 1400000000)`
with only the net name "GND" displayed, the text area is `1900000000` wide and
`1400000000 div 2 = 700000000` high and the net name is drawn with glyph size `13836603`,
whereas `(min(H div 2, W div max(n, 3)) * 7) div 10` is `443333333`. -/
theorem PrintShape_netname_glyph_overflow :
    textArea hugeNetPad (shortnameLen sampleShapeOps netNameOnlyDrawInfo) =
      { x := 1900000000, y := 700000000 } ∧
    (commandsOf DrawPass.netName (PrintShape sampleShapeOps hugeNetPad Coord4.zero
        netNameOnlyDrawInfo)).map DrawCmd.haloTextSize =
      [some { x := 13836603, y := 13836603 }] ∧
    (min (1400000000 / 2) (1900000000 / max (("GND".length : Nat) : Int) 3) * 7) / 10 =
      (443333333 : Int) ∧
    (commandsOf DrawPass.netName (PrintShape sampleShapeOps hugeNetPad Coord4.zero
        netNameOnlyDrawInfo)).map DrawCmd.haloTextSize ≠
      [some { x := 443333333, y := 443333333 }] := by
  decide

/-- C27, amended: for every pad of size `(w,h)` with `w, h ≥ 0`, the height of the text
area is `min(w,h) div 2` when the net name is to be displayed and the short net name is
not empty, and `min(w,h)` otherwise, whether or not the pad number is displayed.  When
only the net name is shown, a net name of `n` characters that is drawn is placed at the
image of the shape position under the rotation about the shape position (the shape
position itself when that rotation leaves its centre in place) and has the glyph size
`(min(H div 2, W div max(n, 3)) * 7) div 10` with `W = max(w,h)` and `H = min(w,h)`,
provided `min(H div 2, W div max(n, 3)) * 7` is below `2 ^ 32`. -/
theorem PrintShape_netname_only (ops : ShapeOps Color) (pad : D_PAD) (coord : Coord4)
    (aDrawInfo : PAD_DRAWINFO Color) (hw : 0 ≤ pad.m_Size.x) (hh : 0 ≤ pad.m_Size.y) :
    (textArea pad (shortnameLen ops aDrawInfo)).y =
      (if aDrawInfo.m_Display_netname = true ∧ 0 < ops.shortNetname.length then
        min pad.m_Size.x pad.m_Size.y / 2
      else min pad.m_Size.x pad.m_Size.y) ∧
    (aDrawInfo.m_Display_padnum = false → aDrawInfo.m_Display_netname = true →
      0 < ops.shortNetname.length →
      min (min pad.m_Size.x pad.m_Size.y / 2)
          (max pad.m_Size.x pad.m_Size.y / max ((ops.shortNetname.length : Nat) : Int) 3) * 7
        < 4294967296 →
      commandsOf DrawPass.padNumber (PrintShape ops pad coord aDrawInfo) = [] ∧
      ∀ c ∈ commandsOf DrawPass.netName (PrintShape ops pad coord aDrawInfo),
        c.haloTextSize = some
          { x := (min (min pad.m_Size.x pad.m_Size.y / 2)
                (max pad.m_Size.x pad.m_Size.y /
                  max ((ops.shortNetname.length : Nat) : Int) 3) * 7) / 10
            y := (min (min pad.m_Size.x pad.m_Size.y / 2)
                (max pad.m_Size.x pad.m_Size.y /
                  max ((ops.shortNetname.length : Nat) : Int) 3) * 7) / 10 } ∧
        c.haloTextPos = some (ops.RotatePointAbout (ops.ShapePos - aDrawInfo.m_Offset)
          (ops.ShapePos - aDrawInfo.m_Offset) (textAngle pad pad.m_Orient)) ∧
        ((∀ q a, ops.RotatePointAbout q q a = q) →
          c.haloTextPos = some (ops.ShapePos - aDrawInfo.m_Offset))) := by
  have hA := textArea_eq pad (shortnameLen ops aDrawInfo) hw hh
  constructor
  · rw [hA]
    by_cases hl : 0 < shortnameLen ops aDrawInfo
    · have hc := (shortnameLen_pos_iff ops aDrawInfo).mp hl
      simp [hl, hc]
    · have hc : ¬ (aDrawInfo.m_Display_netname = true ∧ 0 < ops.shortNetname.length) :=
        fun h => hl ((shortnameLen_pos_iff ops aDrawInfo).mpr h)
      simp only [hl, hc, if_false]
  · intro hp hn hlen hb
    have hl : 0 < shortnameLen ops aDrawInfo :=
      (shortnameLen_pos_iff ops aDrawInfo).mpr ⟨hn, hlen⟩
    have hsl : shortnameLen ops aDrawInfo = ((ops.shortNetname.length : Nat) : Int) := by
      simp [shortnameLen, shortname, hn]
    have hA' : textArea pad (shortnameLen ops aDrawInfo) =
        { x := max pad.m_Size.x pad.m_Size.y, y := min pad.m_Size.x pad.m_Size.y / 2 } := by
      rw [hA, if_pos hl]
    obtain ⟨hW, hH⟩ := textArea_nonneg pad (shortnameLen ops aDrawInfo) hw hh
    constructor
    · rw [commandsOf_padNumber_PrintShape]
      simp [padNumberPass, hp]
    · intro c hc
      rw [commandsOf_netName_PrintShape] at hc
      obtain ⟨e, he, rfl⟩ := List.mem_map.mp hc
      unfold netNamePass at he
      simp only at he
      have hne : ¬ shortnameLen ops aDrawInfo = 0 := by omega
      rw [if_neg hne] at he
      have hg0 := glyph_size_formula (textArea pad (shortnameLen ops aDrawInfo))
        (shortnameLen ops aDrawInfo) hW hH (by rw [hA', hsl]; exact hb)
      have hg : toSigned (reserveRoom (textSize (textArea pad (shortnameLen ops aDrawInfo))
          (shortnameLen ops aDrawInfo))) =
          (min (min pad.m_Size.x pad.m_Size.y / 2)
            (max pad.m_Size.x pad.m_Size.y /
              max ((ops.shortNetname.length : Nat) : Int) 3) * 7) / 10 :=
        hg0.trans (by rw [hA', hsl])
      simp only [hp, Bool.false_eq_true, if_false] at he
      split_ifs at he with h1
      · simp only [List.mem_singleton] at he
        subst he
        refine ⟨?_, rfl, fun hr => ?_⟩
        · simp only [DrawCmd.haloTextSize, hg]
        · simp only [DrawCmd.haloTextPos, hr]
      · simp at he

end D_PAD

namespace D_PAD

variable {Color : Type}

open PAD_SHAPE_T

/-- Witness of the amended C27: the pad of size `(40,20)` with only the net name "GND"
displayed: the text area is `20 div 2 = 10` high, and the net name is drawn at the shape
position `(100,50)` with glyph size `7`. -/
theorem PrintShape_netname_only_witness :
    (textArea labelledPad (shortnameLen sampleShapeOps netNameOnlyDrawInfo)).y = 10 ∧
    (commandsOf DrawPass.netName (PrintShape sampleShapeOps labelledPad Coord4.zero
        netNameOnlyDrawInfo)).map (fun c => (c.haloTextSize, c.haloTextPos)) =
      [(some { x := 7, y := 7 }, some { x := 100, y := 50 })] ∧
    commandsOf DrawPass.padNumber (PrintShape sampleShapeOps labelledPad Coord4.zero
        netNameOnlyDrawInfo) = [] :=
  ⟨((PrintShape_netname_only sampleShapeOps labelledPad Coord4.zero netNameOnlyDrawInfo
      (by decide) (by decide)).1).trans (by decide),
    by decide,
    ((PrintShape_netname_only sampleShapeOps labelledPad Coord4.zero netNameOnlyDrawInfo
      (by decide) (by decide)).2 rfl rfl (by decide) (by decide)).1⟩

theorem commandsOf_clearance_PrintShape (ops : ShapeOps Color) (pad : D_PAD) (coord : Coord4)
    (aDrawInfo : PAD_DRAWINFO Color) :
    commandsOf DrawPass.clearance (PrintShape ops pad coord aDrawInfo) =
      commandsOf DrawPass.clearance (shapePass ops pad coord aDrawInfo) := by
  unfold PrintShape
  rw [commandsOf_append, commandsOf_append, commandsOf_append,
    commandsOf_eq_nil DrawPass.clearance (holePass ops pad aDrawInfo),
    commandsOf_eq_nil DrawPass.clearance (noConnectPass pad aDrawInfo),
    commandsOf_eq_nil DrawPass.clearance (textPass ops pad aDrawInfo _ _)]
  · simp
  · intro e he
    rcases (textPass_props ops pad aDrawInfo _ _).1 e he with h | h <;> rw [h] <;> decide
  · intro e he
    rw [noConnectPass_tags pad aDrawInfo e he]; decide
  · intro e he
    rw [holePass_tags ops pad aDrawInfo e he]; decide

/-- C28: for every oval pad drawn with a clearance `c ≠ 0`, the body is one capsule
running between the end points built by `BuildSegmentFromOvalShape` for the mask margin
(moved to the shape position), and the clearance outline is one capsule with the same two
end points and the stroke width of the body plus `2*c`.  For every circular pad drawn with
a clearance `c ≠ 0` the clearance outline is one circle of radius `(w div 2) + c`, the
same whatever the mask margin is. -/
theorem PrintShape_clearance_outline (ops : ShapeOps Color) (pad : D_PAD) (coord : Coord4)
    (aDrawInfo : PAD_DRAWINFO Color) (hc : aDrawInfo.m_PadClearance ≠ 0) :
    (pad.GetShape = PAD_SHAPE_OVAL →
      commandsOf DrawPass.body (PrintShape ops pad coord aDrawInfo) =
        [if aDrawInfo.m_ShowPadFilled then
          DrawCmd.GRFillCSegm
            ((BuildSegmentFromOvalShape ops.fp pad pad.m_Orient
              aDrawInfo.m_Mask_margin).aSegStart + (ops.ShapePos - aDrawInfo.m_Offset)).x
            ((BuildSegmentFromOvalShape ops.fp pad pad.m_Orient
              aDrawInfo.m_Mask_margin).aSegStart + (ops.ShapePos - aDrawInfo.m_Offset)).y
            ((BuildSegmentFromOvalShape ops.fp pad pad.m_Orient
              aDrawInfo.m_Mask_margin).aSegEnd + (ops.ShapePos - aDrawInfo.m_Offset)).x
            ((BuildSegmentFromOvalShape ops.fp pad pad.m_Orient
              aDrawInfo.m_Mask_margin).aSegEnd + (ops.ShapePos - aDrawInfo.m_Offset)).y
            (BuildSegmentFromOvalShape ops.fp pad pad.m_Orient aDrawInfo.m_Mask_margin).width
            aDrawInfo.m_Color
        else
          DrawCmd.GRCSegm
            ((BuildSegmentFromOvalShape ops.fp pad pad.m_Orient
              aDrawInfo.m_Mask_margin).aSegStart + (ops.ShapePos - aDrawInfo.m_Offset))
            ((BuildSegmentFromOvalShape ops.fp pad pad.m_Orient
              aDrawInfo.m_Mask_margin).aSegEnd + (ops.ShapePos - aDrawInfo.m_Offset))
            (BuildSegmentFromOvalShape ops.fp pad pad.m_Orient aDrawInfo.m_Mask_margin).width
            (some ops.m_PadSketchModePenSize) aDrawInfo.m_Color] ∧
      commandsOf DrawPass.clearance (PrintShape ops pad coord aDrawInfo) =
        [DrawCmd.GRCSegm
          ((BuildSegmentFromOvalShape ops.fp pad pad.m_Orient
            aDrawInfo.m_Mask_margin).aSegStart + (ops.ShapePos - aDrawInfo.m_Offset))
          ((BuildSegmentFromOvalShape ops.fp pad pad.m_Orient
            aDrawInfo.m_Mask_margin).aSegEnd + (ops.ShapePos - aDrawInfo.m_Offset))
          ((BuildSegmentFromOvalShape ops.fp pad pad.m_Orient aDrawInfo.m_Mask_margin).width +
            2 * aDrawInfo.m_PadClearance)
          none aDrawInfo.m_Color]) ∧
    (pad.GetShape = PAD_SHAPE_CIRCLE →
      commandsOf DrawPass.clearance (PrintShape ops pad coord aDrawInfo) =
        [DrawCmd.GRCircle (ops.ShapePos - aDrawInfo.m_Offset).x
          (ops.ShapePos - aDrawInfo.m_Offset).y
          (pad.m_Size.x / 2 + aDrawInfo.m_PadClearance) 0 aDrawInfo.m_Color] ∧
      ∀ margin : wxSize,
        commandsOf DrawPass.clearance
            (PrintShape ops pad coord { aDrawInfo with m_Mask_margin := margin }) =
          commandsOf DrawPass.clearance (PrintShape ops pad coord aDrawInfo)) := by
  constructor
  · intro hs
    rw [commandsOf_body_PrintShape, commandsOf_clearance_PrintShape]
    simp only [shapePass, hs, printOval, hc, ne_eq, not_false_eq_true, if_true]
    constructor
    · split_ifs <;> simp [commandsOf]
    · split_ifs <;> simp [commandsOf]
  · intro hs
    have key : ∀ info : PAD_DRAWINFO Color, info.m_PadClearance ≠ 0 →
        commandsOf DrawPass.clearance (PrintShape ops pad coord info) =
          [DrawCmd.GRCircle (ops.ShapePos - info.m_Offset).x (ops.ShapePos - info.m_Offset).y
            (pad.m_Size.x / 2 + info.m_PadClearance) 0 info.m_Color] := by
      intro info hci
      rw [commandsOf_clearance_PrintShape]
      simp only [shapePass, hs, printCircle, hci, ne_eq, not_false_eq_true, if_true,
        halfsize0, shiftRight_one]
      split_ifs <;> simp [commandsOf]
    refine ⟨key aDrawInfo hc, fun margin => ?_⟩
    rw [key aDrawInfo hc, key { aDrawInfo with m_Mask_margin := margin } hc]

/-- Witness of C28: the oval pad of size `(40,20)` with clearance `3`: with mask margin
`(2,2)` the clearance capsule runs from `(88,50)` to `(112,50)` with stroke width `30`
(body: the same end points, stroke width `24`), with mask margin `0` it runs from `(90,50)`
to `(110,50)` with stroke width `26`; for the circular pad of diameter `20` the clearance
circle has radius `13` with either mask margin. -/
theorem PrintShape_clearance_outline_witness :
    commandsOf DrawPass.body (PrintShape sampleShapeOps (oval 40 20) Coord4.zero
        { sampleDrawInfo with m_PadClearance := 3, m_Mask_margin := { x := 2, y := 2 } }) =
      [DrawCmd.GRFillCSegm 88 50 112 50 24 7] ∧
    commandsOf DrawPass.clearance (PrintShape sampleShapeOps (oval 40 20) Coord4.zero
        { sampleDrawInfo with m_PadClearance := 3, m_Mask_margin := { x := 2, y := 2 } }) =
      [DrawCmd.GRCSegm { x := 88, y := 50 } { x := 112, y := 50 } 30 none 7] ∧
    commandsOf DrawPass.clearance (PrintShape sampleShapeOps (oval 40 20) Coord4.zero
        { sampleDrawInfo with m_PadClearance := 3 }) =
      [DrawCmd.GRCSegm { x := 90, y := 50 } { x := 110, y := 50 } 26 none 7] ∧
    commandsOf DrawPass.clearance (PrintShape sampleShapeOps (circle 20) Coord4.zero
        { sampleDrawInfo with m_PadClearance := 3, m_Mask_margin := { x := 2, y := 2 } }) =
      [DrawCmd.GRCircle 100 50 13 0 7] :=
  ⟨(((PrintShape_clearance_outline sampleShapeOps (oval 40 20) Coord4.zero
      { sampleDrawInfo with m_PadClearance := 3, m_Mask_margin := { x := 2, y := 2 } }
      (by decide)).1 rfl).1).trans (by decide),
    (((PrintShape_clearance_outline sampleShapeOps (oval 40 20) Coord4.zero
      { sampleDrawInfo with m_PadClearance := 3, m_Mask_margin := { x := 2, y := 2 } }
      (by decide)).1 rfl).2).trans (by decide),
    by decide,
    (((PrintShape_clearance_outline sampleShapeOps (circle 20) Coord4.zero
      { sampleDrawInfo with m_PadClearance := 3, m_Mask_margin := { x := 2, y := 2 } }
      (by decide)).2 rfl).1).trans (by decide)⟩

end D_PAD

namespace GBR_TO_PCB_EXPORTER

open Gbr_Basic_Shapes

theorem alreadyCreated_iff (l : List wxPoint) (p : wxPoint) :
    alreadyCreated l p = true ↔ p ∈ l := by
  induction l with
  | nil => simp [alreadyCreated]
  | cons c cs ih =>
    simp only [alreadyCreated, List.mem_cons]
    by_cases h : c = p
    · simp [h]
    · have h2 : ¬ p = c := fun e => h e.symm
      simp [h, h2, ih]

theorem reverseY_injective : Function.Injective wxPoint.reverseY := by
  intro p q h
  cases p; cases q
  simp only [wxPoint.reverseY, wxPoint.mk.injEq, neg_inj] at h
  simp [h.1, h.2]

theorem export_flashed_copper_item_eq (e : GBR_TO_PCB_EXPORTER) (it : GERBER_DRAW_ITEM) :
    export_flashed_copper_item e it =
      if it.m_Start ∈ e.m_vias_coordinates then e
      else
        { e with
          m_vias_coordinates := e.m_vias_coordinates ++ [it.m_Start]
          m_fp := e.m_fp ++
            [PcbItem.via it.m_Start.reverseY (Int.tdiv (it.m_Size.x + it.m_Size.y) 2)] } := by
  unfold export_flashed_copper_item
  by_cases h : it.m_Start ∈ e.m_vias_coordinates
  · rw [if_pos ((alreadyCreated_iff _ _).2 h), if_pos h]
  · have h2 : ¬ alreadyCreated e.m_vias_coordinates it.m_Start = true :=
      fun c => h ((alreadyCreated_iff _ _).1 c)
    rw [if_neg h2, if_neg h]
    rfl

theorem exportFlashedItems_snoc (pre : List GERBER_DRAW_ITEM) (it : GERBER_DRAW_ITEM) :
    exportFlashedItems (pre ++ [it]) = export_flashed_copper_item (exportFlashedItems pre) it := by
  simp [exportFlashedItems, List.foldl_append]

theorem exportFlashedItems_invariant (items : List GERBER_DRAW_ITEM) :
    (exportFlashedItems items).m_vias_coordinates.Nodup ∧
    (exportFlashedItems items).m_fp.filterMap PcbItem.viaPos =
      (exportFlashedItems items).m_vias_coordinates.map wxPoint.reverseY ∧
    (exportFlashedItems items).m_fp.length =
      (exportFlashedItems items).m_vias_coordinates.length ∧
    ∀ p, p ∈ (exportFlashedItems items).m_vias_coordinates ↔
      p ∈ items.map GERBER_DRAW_ITEM.m_Start := by
  induction items using List.reverseRecOn with
  | nil => simp [exportFlashedItems]
  | append_singleton pre it ih =>
    obtain ⟨h1, h2, h3, h4⟩ := ih
    rw [exportFlashedItems_snoc, export_flashed_copper_item_eq]
    by_cases h : it.m_Start ∈ (exportFlashedItems pre).m_vias_coordinates
    · rw [if_pos h]
      refine ⟨h1, h2, h3, fun p => ?_⟩
      rw [h4 p, List.map_append, List.mem_append]
      constructor
      · exact fun hp => Or.inl hp
      · rintro (hp | hp)
        · exact hp
        · simp only [List.map_cons, List.map_nil, List.mem_singleton] at hp
          rw [hp]; exact (h4 _).1 h
    · rw [if_neg h]
      refine ⟨?_, ?_, ?_, fun p => ?_⟩
      · simp only
        exact List.Nodup.append h1 (List.nodup_singleton _)
          (fun a ha hb => h ((List.mem_singleton.1 hb) ▸ ha))
      · simp only [List.filterMap_append, List.map_append, h2]
        rfl
      · simp only [List.length_append, h3]
        rfl
      · simp only [List.mem_append, List.map_append, h4 p, List.map_cons, List.map_nil,
          List.mem_singleton]

theorem countP_viaPos (l : List PcbItem) (q : wxPoint) :
    l.countP (fun r => decide (r.viaPos = some q)) = (l.filterMap PcbItem.viaPos).count q := by
  induction l with
  | nil => rfl
  | cons r rs ih =>
    rw [List.countP_cons, List.filterMap_cons, ih]
    cases r with
    | via pos size =>
      by_cases h : pos = q
      · simp [PcbItem.viaPos, h]
      · simp [PcbItem.viaPos, h, List.count_cons]
    | segment a b w l => simp [PcbItem.viaPos]
    | gr_poly pts l => simp [PcbItem.viaPos]

/-- C22: after `export_flashed_copper_item` has been called on every item of any sequence,
starting from a new exporter, `m_vias_coordinates` has no duplicate, the records written are
exactly one via per entry of `m_vias_coordinates` (in order, Y axis reversed), the entries
are the `m_Start` coordinates of the sequence, so that for each coordinate `p` the number of
vias written at `p` is `1` when an item of the sequence starts at `p` and `0` otherwise;
each call writes its via exactly when no earlier item of the sequence has the same `m_Start`,
and leaves the exporter unchanged otherwise; and a single call keeps any duplicate-free
`m_vias_coordinates` duplicate-free. -/
theorem export_flashed_copper_item_once (items : List GERBER_DRAW_ITEM) :
    (exportFlashedItems items).m_vias_coordinates.Nodup ∧
    (exportFlashedItems items).m_fp.filterMap PcbItem.viaPos =
      (exportFlashedItems items).m_vias_coordinates.map wxPoint.reverseY ∧
    (exportFlashedItems items).m_fp.length =
      (exportFlashedItems items).m_vias_coordinates.length ∧
    (∀ p, p ∈ (exportFlashedItems items).m_vias_coordinates ↔
      p ∈ items.map GERBER_DRAW_ITEM.m_Start) ∧
    (∀ p, (exportFlashedItems items).m_fp.countP
        (fun r => decide (r.viaPos = some (wxPoint.reverseY p))) =
      if p ∈ items.map GERBER_DRAW_ITEM.m_Start then 1 else 0) ∧
    (∀ (pre : List GERBER_DRAW_ITEM) (it : GERBER_DRAW_ITEM),
      exportFlashedItems (pre ++ [it]) =
        if it.m_Start ∈ pre.map GERBER_DRAW_ITEM.m_Start then exportFlashedItems pre
        else
          { exportFlashedItems pre with
            m_vias_coordinates := (exportFlashedItems pre).m_vias_coordinates ++ [it.m_Start]
            m_fp := (exportFlashedItems pre).m_fp ++
              [PcbItem.via it.m_Start.reverseY
                (Int.tdiv (it.m_Size.x + it.m_Size.y) 2)] }) ∧
    (∀ (e : GBR_TO_PCB_EXPORTER) (it : GERBER_DRAW_ITEM), e.m_vias_coordinates.Nodup →
      (export_flashed_copper_item e it).m_vias_coordinates.Nodup) := by
  obtain ⟨h1, h2, h3, h4⟩ := exportFlashedItems_invariant items
  refine ⟨h1, h2, h3, h4, fun p => ?_, fun pre it => ?_, fun e it he => ?_⟩
  · rw [countP_viaPos, h2, List.count_map_of_injective _ _ reverseY_injective]
    by_cases h : p ∈ items.map GERBER_DRAW_ITEM.m_Start
    · rw [if_pos h, List.count_eq_one_of_mem h1 ((h4 p).2 h)]
    · rw [if_neg h, List.count_eq_zero_of_not_mem (fun c => h ((h4 p).1 c))]
  · rw [exportFlashedItems_snoc, export_flashed_copper_item_eq]
    have hm := (exportFlashedItems_invariant pre).2.2.2 it.m_Start
    by_cases h : it.m_Start ∈ pre.map GERBER_DRAW_ITEM.m_Start
    · rw [if_pos h, if_pos (hm.2 h)]
    · rw [if_neg h, if_neg (fun c => h (hm.1 c))]
  · rw [export_flashed_copper_item_eq]
    by_cases h : it.m_Start ∈ e.m_vias_coordinates
    · rw [if_pos h]; exact he
    · rw [if_neg h]
      exact List.Nodup.append he (List.nodup_singleton _)
        (fun a ha hb => h ((List.mem_singleton.1 hb) ▸ ha))

end GBR_TO_PCB_EXPORTER

namespace GBR_TO_PCB_EXPORTER

open Gbr_Basic_Shapes

/-- Witness of C22: three flashed items, the third at the coordinate of the first: two vias
are written, at `(10,-20)` and `(30,-40)`, and `m_vias_coordinates` is `(10,20)`, `(30,40)`,
without duplicate. -/
theorem export_flashed_copper_item_once_witness :
    (exportFlashedItems [GERBER_DRAW_ITEM.flash GBR_SPOT_CIRCLE 10 20 6 4,
        GERBER_DRAW_ITEM.flash GBR_SPOT_RECT 30 40 8 8,
        GERBER_DRAW_ITEM.flash GBR_SPOT_OVAL 10 20 5 5]).m_fp =
      [PcbItem.via { x := 10, y := -20 } 5, PcbItem.via { x := 30, y := -40 } 8] ∧
    (exportFlashedItems [GERBER_DRAW_ITEM.flash GBR_SPOT_CIRCLE 10 20 6 4,
        GERBER_DRAW_ITEM.flash GBR_SPOT_RECT 30 40 8 8,
        GERBER_DRAW_ITEM.flash GBR_SPOT_OVAL 10 20 5 5]).m_vias_coordinates =
      [{ x := 10, y := 20 }, { x := 30, y := 40 }] ∧
    (exportFlashedItems [GERBER_DRAW_ITEM.flash GBR_SPOT_CIRCLE 10 20 6 4,
        GERBER_DRAW_ITEM.flash GBR_SPOT_RECT 30 40 8 8,
        GERBER_DRAW_ITEM.flash GBR_SPOT_OVAL 10 20 5 5]).m_vias_coordinates.Nodup ∧
    (export_flashed_copper_item
        { m_vias_coordinates := [{ x := 10, y := 20 }] }
        (GERBER_DRAW_ITEM.flash GBR_SPOT_RECT 30 40 8 8)).m_vias_coordinates.Nodup :=
  ⟨by decide, by decide,
    (export_flashed_copper_item_once [GERBER_DRAW_ITEM.flash GBR_SPOT_CIRCLE 10 20 6 4,
        GERBER_DRAW_ITEM.flash GBR_SPOT_RECT 30 40 8 8,
        GERBER_DRAW_ITEM.flash GBR_SPOT_OVAL 10 20 5 5]).1,
    (export_flashed_copper_item_once []).2.2.2.2.2.2
      { m_vias_coordinates := [{ x := 10, y := 20 }] }
      (GERBER_DRAW_ITEM.flash GBR_SPOT_RECT 30 40 8 8) (by decide)⟩

/-- C23 fails on the code: a flashed item of shape `GBR_SPOT_POLY` or `GBR_SPOT_MACRO` is
not among the `case` labels of `export_copper_item` that lead to
`export_flashed_copper_item`; it takes the `default:` branch, so that
`export_segline_copper_item` writes one track segment from `m_Start` to `m_End` (Y axis
reversed) of width `m_Size.x` on the given layer, no via is written and
`m_vias_coordinates` is unchanged.  For instance the flashed regular polygon of size `(6,6)`
at `(10,20)` exported to layer `0` by a new exporter gives the single record
`segment (10,-20) (10,-20) 6 0`, whereas the flashed circle of the same size at the same
place gives `via (10,-20) 6`. -/
theorem export_copper_item_spot_poly_is_segment (ops : ExportOps) (e : GBR_TO_PCB_EXPORTER)
    (it : GERBER_DRAW_ITEM) (aLayer : Int) :
    export_copper_item ops e { it with m_Shape := GBR_SPOT_POLY, m_Flashed := true } aLayer =
      { e with m_fp := e.m_fp ++
          [PcbItem.segment it.m_Start.reverseY it.m_End.reverseY it.m_Size.x aLayer] } ∧
    export_copper_item ops e { it with m_Shape := GBR_SPOT_MACRO, m_Flashed := true } aLayer =
      { e with m_fp := e.m_fp ++
          [PcbItem.segment it.m_Start.reverseY it.m_End.reverseY it.m_Size.x aLayer] } ∧
    export_copper_item sampleExportOps {} (GERBER_DRAW_ITEM.flash GBR_SPOT_POLY 10 20 6 6) 0 =
      { m_vias_coordinates := []
        m_fp := [PcbItem.segment { x := 10, y := -20 } { x := 10, y := -20 } 6 0] } ∧
    (export_copper_item sampleExportOps {}
        (GERBER_DRAW_ITEM.flash GBR_SPOT_POLY 10 20 6 6) 0).m_fp.filterMap PcbItem.viaPos = [] ∧
    export_copper_item sampleExportOps {} (GERBER_DRAW_ITEM.flash GBR_SPOT_CIRCLE 10 20 6 6) 0 =
      { m_vias_coordinates := [{ x := 10, y := 20 }]
        m_fp := [PcbItem.via { x := 10, y := -20 } 6] } := by
  refine ⟨rfl, rfl, ?_, ?_, ?_⟩ <;> decide

end GBR_TO_PCB_EXPORTER

/-- C29 fails on the code: with the first entry of the model-type choice selected (index
`0`, "Diode"), the guard `modelIdx > 0` of `TransferDataFromWindow` is false and the Spice
primitive field of the working buffer is left as it was, for every earlier content of the
buffer and every state of the other controls.  With the usual letters and a buffer that
held the primitive `Q` (a BJT), the field still holds `Q` afterwards, which
`getModelTypeIdx` maps to index `1`, not `0`, although `modelTypes[0].type` is `D` and
`getModelTypeIdx` maps `D` to `0`; a buffer without primitive stays without one.  The
indices `1` to `4` are stored and read back as themselves. -/
theorem TransferDataFromWindow_model_index_zero_not_stored (sp : SpicePrimitives)
    (m_fieldsTmp : SPICE_FIELD → Option String) (w : ModelPageControls) :
    (TransferDataFromWindow_model sp m_fieldsTmp
        { w with validate := true, m_modelType := 0 }).map
        (fun f => f SPICE_FIELD.SF_PRIMITIVE) =
      some (m_fieldsTmp SPICE_FIELD.SF_PRIMITIVE) ∧
    (TransferDataFromWindow_model samplePrimitives (fieldsWithPrimitive "Q")
        (modelPageWith 0)).map (fun f => f SPICE_FIELD.SF_PRIMITIVE) = some (some "Q") ∧
    (TransferDataFromWindow_model samplePrimitives (fieldsWithPrimitive "Q")
        (modelPageWith 0)).bind (modelTypeSelection samplePrimitives) = some 1 ∧
    (TransferDataFromWindow_model samplePrimitives (fun _ => none)
        (modelPageWith 0)).map (fun f => f SPICE_FIELD.SF_PRIMITIVE) = some none ∧
    ((modelTypes samplePrimitives)[0]?).map SPICE_MODEL_INFO.type = some 'D' ∧
    getModelTypeIdx samplePrimitives 'D' = 0 ∧
    (∀ i ∈ [1, 2, 3, 4],
      (TransferDataFromWindow_model samplePrimitives (fieldsWithPrimitive "Q")
        (modelPageWith i)).bind (modelTypeSelection samplePrimitives) = some i) := by
  refine ⟨?_, ?_, ?_, ?_, ?_, ?_, ?_⟩
  · simp only [TransferDataFromWindow_model, Bool.not_true, Bool.false_eq_true, if_false,
      gt_iff_lt, lt_self_iff_false, false_and, Option.map_some']
    split_ifs <;> simp [Function.update]
  all_goals decide
